import Mathlib

/-!
# RoboEyes (TinyGo) : a shallow embedding of `roboeyestinygo.go`

The Go package keeps all of its state in one struct, `RoboEyes`, and draws on an abstract
display through `ClearBuffer`, `SetPixel` and `Display`.  The embedding below follows the
source function by function:

* `int16` values are `Int`s, every arithmetic result is reduced by `wrap16`;
  `uint32` values are `Nat`s reduced by `wrap32`; `byte` values are `Nat`s reduced modulo 256;
  Go's `/` on signed integers is `Int.tdiv` (truncation towards zero);
* methods that mutate the receiver become functions `RoboEyes → RoboEyes`;
* calls on the device are collected, in order, in a list (`PixelWrite` for `SetPixel`,
  `DeviceCall` for a whole frame);
* the clock (`millis`) is an argument, and so is every value drawn from `math/rand`:
  `intn` implements the contract of `rand.Intn` (a panic for a non-positive bound);
* a call that panics or never returns yields `Except.error` with the matching `Fault`;
* the `float32` interpolation of `fillTriangle` is an argument (`lerp`), so that every
  statement holds for whatever the floating point unit computes.
-/

namespace Roboeyestinygo

/-! ## Machine integers -/

/-- Reduction of an integer to the `int16` range, as Go does on overflow. -/
def wrap16 (v : Int) : Int := (v + 32768) % 65536 - 32768

/-- Addition of `int16`. -/
def add16 (a b : Int) : Int := wrap16 (a + b)

/-- Subtraction of `int16`. -/
def sub16 (a b : Int) : Int := wrap16 (a - b)

/-- Multiplication of `int16`. -/
def mul16 (a b : Int) : Int := wrap16 (a * b)

/-- Division of `int16`, truncating towards zero as in Go. -/
def div16 (a b : Int) : Int := wrap16 (Int.tdiv a b)

/-- Reduction of a natural number to the `uint32` range. -/
def wrap32 (v : Nat) : Nat := v % 4294967296

/-- Addition of `uint32`. -/
def add32 (a b : Nat) : Nat := wrap32 (a + b)

/-- Subtraction of `uint32` (modulo `2^32`). -/
def sub32 (a b : Nat) : Nat := (a + 4294967296 - b % 4294967296) % 4294967296

/-- Multiplication of `uint32`. -/
def mul32 (a b : Nat) : Nat := wrap32 (a * b)

/-- The average `(a + b) / 2` computed on `byte`s: the sum wraps modulo 256. -/
def avg8 (a b : Nat) : Nat := (a + b) % 256 / 2

/-- The type `int16` of the source: the integers of the 16 bit range. -/
def isInt16 (v : Int) : Prop := -32768 ≤ v ∧ v ≤ 32767

instance (v : Int) : Decidable (isInt16 v) := by
  unfold isInt16; exact inferInstance

/-! ## Data model -/

/-- A colour, `color.RGBA`. -/
structure RGBA where
  r : Nat
  g : Nat
  b : Nat
  a : Nat
  deriving DecidableEq, Repr

/-- One call `device.SetPixel(x, y, c)`. -/
structure PixelWrite where
  x : Int
  y : Int
  c : RGBA
  deriving DecidableEq, Repr

/-- A call on the `DeviceInterface` made while a frame is drawn. -/
inductive DeviceCall where
  | clearBuffer : DeviceCall
  | setPixel : PixelWrite → DeviceCall
  | display : DeviceCall
  deriving DecidableEq, Repr

/-- The ways in which a call can fail to return: a run-time panic, or a loop that never ends. -/
inductive Fault where
  | panic : Fault
  | diverge : Fault
  deriving DecidableEq, Repr

/-- The values one call of `handleAnimations` takes from `math/rand`, one per call site, in
the order of the source.  Each is an arbitrary natural number, reduced by `intn`. -/
structure Draws where
  blink : Nat
  idleX : Nat
  idleY : Nat
  idleT : Nat
  deriving Repr

/-- The contract of `rand.Intn(n)`: a panic when `n <= 0`, otherwise a value of `[0, n)`. -/
def intn (n : Int) (raw : Nat) : Except Fault Int :=
  if n ≤ 0 then Except.error Fault.panic else Except.ok ((raw : Int) % n)

/-- The struct `RoboEyes`.  `device` is a handle of the display (`none` is the nil interface),
`startTime` the instant recorded by `time.Now()`. -/
structure RoboEyes where
  device : Option Nat
  startTime : Nat
  eyesColor : RGBA
  bgColor : RGBA
  screenWidth : Int
  screenHeight : Int
  frameInterval : Nat
  fpsTimer : Nat
  tired : Bool
  angry : Bool
  happy : Bool
  curious : Bool
  cyclops : Bool
  eyeL_open : Bool
  eyeR_open : Bool
  eyeLwidthDefault : Int
  eyeLheightDefault : Int
  eyeLwidthCurrent : Int
  eyeLheightCurrent : Int
  eyeLwidthNext : Int
  eyeLheightNext : Int
  eyeLheightOffset : Int
  eyeLborderRadiusDefault : Nat
  eyeLborderRadiusCurrent : Nat
  eyeLborderRadiusNext : Nat
  eyeLxDefault : Int
  eyeLyDefault : Int
  eyeLx : Int
  eyeLy : Int
  eyeLxNext : Int
  eyeLyNext : Int
  eyeRwidthDefault : Int
  eyeRheightDefault : Int
  eyeRwidthCurrent : Int
  eyeRheightCurrent : Int
  eyeRwidthNext : Int
  eyeRheightNext : Int
  eyeRheightOffset : Int
  eyeRborderRadiusDefault : Nat
  eyeRborderRadiusCurrent : Nat
  eyeRborderRadiusNext : Nat
  eyeRxDefault : Int
  eyeRyDefault : Int
  eyeRx : Int
  eyeRy : Int
  eyeRxNext : Int
  eyeRyNext : Int
  spaceBetweenDefault : Int
  spaceBetweenCurrent : Int
  spaceBetweenNext : Int
  eyelidsHeightMax : Int
  eyelidsTiredHeight : Int
  eyelidsTiredHeightNext : Int
  eyelidsAngryHeight : Int
  eyelidsAngryHeightNext : Int
  eyelidsHappyBottomOffset : Int
  eyelidsHappyBottomOffsetNext : Int
  eyelidsHappyBottomOffsetMax : Int
  hFlicker : Bool
  hFlickerAlternate : Bool
  hFlickerAmplitude : Int
  vFlicker : Bool
  vFlickerAlternate : Bool
  vFlickerAmplitude : Int
  autoblinker : Bool
  blinkInterval : Nat
  blinkIntervalVariation : Nat
  blinktimer : Nat
  idle : Bool
  idleInterval : Nat
  idleIntervalVariation : Nat
  idleAnimationTimer : Nat
  confused : Bool
  confusedAnimationTimer : Nat
  confusedAnimationDuration : Nat
  confusedToggle : Bool
  laugh : Bool
  laughAnimationTimer : Nat
  laughAnimationDuration : Nat
  laughToggle : Bool

/-- The zero value of the struct: `eyes := roboeyestinygo.RoboEyes{}`. -/
def zeroValue : RoboEyes :=
  { device := none, startTime := 0, eyesColor := ⟨0, 0, 0, 0⟩, bgColor := ⟨0, 0, 0, 0⟩,
    screenWidth := 0, screenHeight := 0, frameInterval := 0, fpsTimer := 0,
    tired := false, angry := false, happy := false, curious := false, cyclops := false,
    eyeL_open := false, eyeR_open := false,
    eyeLwidthDefault := 0, eyeLheightDefault := 0, eyeLwidthCurrent := 0,
    eyeLheightCurrent := 0, eyeLwidthNext := 0, eyeLheightNext := 0, eyeLheightOffset := 0,
    eyeLborderRadiusDefault := 0, eyeLborderRadiusCurrent := 0, eyeLborderRadiusNext := 0,
    eyeLxDefault := 0, eyeLyDefault := 0, eyeLx := 0, eyeLy := 0, eyeLxNext := 0,
    eyeLyNext := 0,
    eyeRwidthDefault := 0, eyeRheightDefault := 0, eyeRwidthCurrent := 0,
    eyeRheightCurrent := 0, eyeRwidthNext := 0, eyeRheightNext := 0, eyeRheightOffset := 0,
    eyeRborderRadiusDefault := 0, eyeRborderRadiusCurrent := 0, eyeRborderRadiusNext := 0,
    eyeRxDefault := 0, eyeRyDefault := 0, eyeRx := 0, eyeRy := 0, eyeRxNext := 0,
    eyeRyNext := 0,
    spaceBetweenDefault := 0, spaceBetweenCurrent := 0, spaceBetweenNext := 0,
    eyelidsHeightMax := 0, eyelidsTiredHeight := 0, eyelidsTiredHeightNext := 0,
    eyelidsAngryHeight := 0, eyelidsAngryHeightNext := 0, eyelidsHappyBottomOffset := 0,
    eyelidsHappyBottomOffsetNext := 0, eyelidsHappyBottomOffsetMax := 0,
    hFlicker := false, hFlickerAlternate := false, hFlickerAmplitude := 0,
    vFlicker := false, vFlickerAlternate := false, vFlickerAmplitude := 0,
    autoblinker := false, blinkInterval := 0, blinkIntervalVariation := 0, blinktimer := 0,
    idle := false, idleInterval := 0, idleIntervalVariation := 0, idleAnimationTimer := 0,
    confused := false, confusedAnimationTimer := 0, confusedAnimationDuration := 0,
    confusedToggle := false,
    laugh := false, laughAnimationTimer := 0, laughAnimationDuration := 0,
    laughToggle := false }

/-- The constants of type `Mood`. -/
def MoodDefault : Nat := 0

/-- Mood constant `MoodTired`. -/
def MoodTired : Nat := 1

/-- Mood constant `MoodAngry`. -/
def MoodAngry : Nat := 2

/-- Mood constant `MoodHappy`. -/
def MoodHappy : Nat := 3

/-! ## Initialisation and the mutator API -/

/-- The method `GetScreenConstraintX`: the largest horizontal position of the left eye. -/
def GetScreenConstraintX (r : RoboEyes) : Int :=
  sub16 (sub16 (sub16 r.screenWidth r.eyeLwidthCurrent) r.spaceBetweenCurrent) r.eyeRwidthCurrent

/-- The method `GetScreenConstraintY`: the largest vertical position of the eyes. -/
def GetScreenConstraintY (r : RoboEyes) : Int :=
  sub16 r.screenHeight r.eyeLheightDefault

/-- First block of `setDefault` (colours, screen size, frame rate, moods and flags);
`now` is the value of `time.Now()`. -/
def setDefaultGeneral (r : RoboEyes) (now : Nat) (screenWidth screenHeight : Int) : RoboEyes :=
  let r := { r with startTime := now }
  let r := { r with eyesColor := ⟨255, 255, 255, 255⟩, bgColor := ⟨0, 0, 0, 255⟩ }
  let r := { r with screenWidth := screenWidth, screenHeight := screenHeight,
                    frameInterval := 20, fpsTimer := 0 }
  { r with tired := false, angry := false, happy := false, curious := false,
           cyclops := false, eyeL_open := false, eyeR_open := false }

/-- Block "EYE LEFT - size and border radius" of `setDefault`. -/
def setDefaultEyeLeft (r : RoboEyes) : RoboEyes :=
  let r := { r with eyeLwidthDefault := 36, eyeLheightDefault := 36 }
  let r := { r with eyeLwidthCurrent := r.eyeLwidthDefault, eyeLheightCurrent := 1,
                    eyeLwidthNext := r.eyeLwidthDefault, eyeLheightNext := r.eyeLheightDefault,
                    eyeLheightOffset := 0 }
  let r := { r with eyeLborderRadiusDefault := 8 }
  { r with eyeLborderRadiusCurrent := r.eyeLborderRadiusDefault,
           eyeLborderRadiusNext := r.eyeLborderRadiusDefault }

/-- Block "EYE RIGHT - size and border radius" of `setDefault`. -/
def setDefaultEyeRight (r : RoboEyes) : RoboEyes :=
  let r := { r with eyeRwidthDefault := r.eyeLwidthDefault,
                    eyeRheightDefault := r.eyeLheightDefault }
  let r := { r with eyeRwidthCurrent := r.eyeRwidthDefault, eyeRheightCurrent := 1,
                    eyeRwidthNext := r.eyeRwidthDefault, eyeRheightNext := r.eyeRheightDefault,
                    eyeRheightOffset := 0 }
  let r := { r with eyeRborderRadiusDefault := 8 }
  { r with eyeRborderRadiusCurrent := r.eyeRborderRadiusDefault,
           eyeRborderRadiusNext := r.eyeRborderRadiusDefault }

/-- Blocks "EYE LEFT - Coordinates" and "EYE RIGHT - Coordinates" of `setDefault`.  The field
`spaceBetweenDefault` is read here, before the block that assigns it. -/
def setDefaultCoordinates (r : RoboEyes) : RoboEyes :=
  let r := { r with
    eyeLxDefault := div16 (sub16 r.screenWidth
      (add16 (add16 r.eyeLwidthDefault r.spaceBetweenDefault) r.eyeRwidthDefault)) 2,
    eyeLyDefault := div16 (sub16 r.screenHeight r.eyeLheightDefault) 2 }
  let r := { r with eyeLx := r.eyeLxDefault, eyeLy := r.eyeLyDefault }
  let r := { r with eyeLxNext := r.eyeLx, eyeLyNext := r.eyeLy }
  let r := { r with
    eyeRxDefault := add16 (add16 r.eyeLx r.eyeLwidthCurrent) r.spaceBetweenDefault,
    eyeRyDefault := r.eyeLy }
  let r := { r with eyeRx := r.eyeRxDefault, eyeRy := r.eyeRyDefault }
  { r with eyeRxNext := r.eyeRx, eyeRyNext := r.eyeRy }

/-- Block "BOTH EYES" of `setDefault`: eyelids and the space between the eyes. -/
def setDefaultBothEyes (r : RoboEyes) : RoboEyes :=
  let r := { r with eyelidsHeightMax := div16 r.eyeLheightDefault 2, eyelidsTiredHeight := 0 }
  let r := { r with eyelidsTiredHeightNext := r.eyelidsTiredHeight, eyelidsAngryHeight := 0 }
  let r := { r with eyelidsAngryHeightNext := r.eyelidsAngryHeight }
  let r := { r with eyelidsHappyBottomOffsetMax := add16 (div16 r.eyeLheightDefault 2) 3,
                    eyelidsHappyBottomOffset := 0, eyelidsHappyBottomOffsetNext := 0 }
  let r := { r with spaceBetweenDefault := 10 }
  { r with spaceBetweenCurrent := r.spaceBetweenDefault, spaceBetweenNext := 10 }

/-- Block "Macro Animations" of `setDefault`. -/
def setDefaultAnimations (r : RoboEyes) : RoboEyes :=
  let r := { r with hFlicker := false, hFlickerAlternate := false, hFlickerAmplitude := 2 }
  let r := { r with vFlicker := false, vFlickerAlternate := false, vFlickerAmplitude := 10 }
  let r := { r with autoblinker := false, blinkInterval := mul32 1 1000,
                    blinkIntervalVariation := mul32 4 1000, blinktimer := 0 }
  let r := { r with idle := false, idleInterval := mul32 1 1000,
                    idleIntervalVariation := mul32 3 1000, idleAnimationTimer := 0 }
  let r := { r with confused := false, confusedAnimationTimer := 0,
                    confusedAnimationDuration := 500, confusedToggle := true }
  { r with laugh := false, laughAnimationTimer := 0, laughAnimationDuration := 500,
           laughToggle := true }

/-- The method `setDefault`: its blocks of assignments, in the order of the source, so that a
field read before it is assigned has its former value. -/
def setDefault (r : RoboEyes) (now : Nat) (screenWidth screenHeight : Int) : RoboEyes :=
  setDefaultAnimations (setDefaultBothEyes (setDefaultCoordinates (setDefaultEyeRight
    (setDefaultEyeLeft (setDefaultGeneral r now screenWidth screenHeight)))))

/-- The method `SetFramerate`. -/
def SetFramerate (r : RoboEyes) (fps : Nat) : RoboEyes :=
  if fps > 0 then { r with frameInterval := 1000 / fps } else r

/-- The method `Begin`; `now` is the instant at which `setDefault` reads the clock. -/
def Begin (r : RoboEyes) (now : Nat) (device : Nat) (width height : Int) (frameRate : Nat) :
    RoboEyes :=
  let r := { r with device := some device }
  let r := setDefault r now width height
  SetFramerate r frameRate

/-- The method `SetSize`. -/
def SetSize (r : RoboEyes) (left right : Int) : RoboEyes :=
  { r with eyeLwidthNext := left, eyeRwidthNext := right,
           eyeLwidthDefault := left, eyeRwidthDefault := right }

/-- The method `SetBorderRadius`. -/
def SetBorderRadius (r : RoboEyes) (left right : Nat) : RoboEyes :=
  { r with eyeLborderRadiusNext := left, eyeRborderRadiusNext := right,
           eyeLborderRadiusDefault := left, eyeRborderRadiusDefault := right }

/-- The method `SetSpaceBetween`. -/
def SetSpaceBetween (r : RoboEyes) (space : Int) : RoboEyes :=
  { r with spaceBetweenNext := space, spaceBetweenDefault := space }

/-- The method `SetMood`; `mood` is the byte of the `Mood` argument. -/
def SetMood (r : RoboEyes) (mood : Nat) : RoboEyes :=
  let r := { r with tired := false, angry := false, happy := false }
  if mood = MoodTired then { r with tired := true }
  else if mood = MoodAngry then { r with angry := true }
  else if mood = MoodHappy then { r with happy := true }
  else r

/-- The method `SetDirection`; `direction` is the byte of the `Direction` argument
(`DirCenter = 0`, `DirN = 1`, ..., `DirNW = 8`). -/
def SetDirection (r : RoboEyes) (direction : Nat) : RoboEyes :=
  let maxX := GetScreenConstraintX r
  let maxY := GetScreenConstraintY r
  if direction = 1 then { r with eyeLxNext := div16 maxX 2, eyeLyNext := 0 }
  else if direction = 2 then { r with eyeLxNext := maxX, eyeLyNext := 0 }
  else if direction = 3 then { r with eyeLxNext := maxX, eyeLyNext := div16 maxY 2 }
  else if direction = 4 then { r with eyeLxNext := maxX, eyeLyNext := maxY }
  else if direction = 5 then { r with eyeLxNext := div16 maxX 2, eyeLyNext := maxY }
  else if direction = 6 then { r with eyeLxNext := 0, eyeLyNext := maxY }
  else if direction = 7 then { r with eyeLxNext := 0, eyeLyNext := div16 maxY 2 }
  else if direction = 8 then { r with eyeLxNext := 0, eyeLyNext := 0 }
  else { r with eyeLxNext := div16 maxX 2, eyeLyNext := div16 maxY 2 }

/-- The method `SetAutoBlinker`. -/
def SetAutoBlinker (r : RoboEyes) (active : Bool) : RoboEyes :=
  { r with autoblinker := active }

/-- The method `SetAutoBlinkerWithInterval`. -/
def SetAutoBlinkerWithInterval (r : RoboEyes) (active : Bool) (interval variation : Nat) :
    RoboEyes :=
  let r := SetAutoBlinker r active
  { r with blinkInterval := mul32 interval 1000,
           blinkIntervalVariation := mul32 variation 1000 }

/-- The method `SetIdleMode`. -/
def SetIdleMode (r : RoboEyes) (active : Bool) : RoboEyes :=
  { r with idle := active }

/-- The method `SetIdleModeWithInterval`. -/
def SetIdleModeWithInterval (r : RoboEyes) (active : Bool) (interval variation : Nat) :
    RoboEyes :=
  let r := SetIdleMode r active
  { r with idleInterval := mul32 interval 1000,
           idleIntervalVariation := mul32 variation 1000 }

/-- The method `SetCuriosity`. -/
def SetCuriosity (r : RoboEyes) (active : Bool) : RoboEyes :=
  { r with curious := active }

/-- The method `SetCyclops`. -/
def SetCyclops (r : RoboEyes) (active : Bool) : RoboEyes :=
  { r with cyclops := active }

/-- The method `SetHFlicker`. -/
def SetHFlicker (r : RoboEyes) (active : Bool) (amplitude : Int) : RoboEyes :=
  { r with hFlicker := active, hFlickerAmplitude := amplitude }

/-- The method `SetVFlicker`. -/
def SetVFlicker (r : RoboEyes) (active : Bool) (amplitude : Int) : RoboEyes :=
  { r with vFlicker := active, vFlickerAmplitude := amplitude }

/-- The method `Close`. -/
def Close (r : RoboEyes) : RoboEyes :=
  { r with eyeLheightNext := 1, eyeRheightNext := 1, eyeL_open := false, eyeR_open := false }

/-- The method `Open`. -/
def Open (r : RoboEyes) : RoboEyes :=
  { r with eyeL_open := true, eyeR_open := true }

/-- The method `Blink`: `Close` followed by `Open`. -/
def Blink (r : RoboEyes) : RoboEyes :=
  Open (Close r)

/-- The method `CloseEyes`. -/
def CloseEyes (r : RoboEyes) (left right : Bool) : RoboEyes :=
  let r := if left then { r with eyeLheightNext := 1, eyeL_open := false } else r
  if right then { r with eyeRheightNext := 1, eyeR_open := false } else r

/-- The method `OpenEyes`. -/
def OpenEyes (r : RoboEyes) (left right : Bool) : RoboEyes :=
  let r := if left then { r with eyeL_open := true } else r
  if right then { r with eyeR_open := true } else r

/-- The method `BlinkEyes`. -/
def BlinkEyes (r : RoboEyes) (left right : Bool) : RoboEyes :=
  OpenEyes (CloseEyes r left right) left right

/-- The method `AnimConfused`. -/
def AnimConfused (r : RoboEyes) : RoboEyes :=
  { r with confused := true }

/-- The method `AnimLaugh`. -/
def AnimLaugh (r : RoboEyes) : RoboEyes :=
  { r with laugh := true }

/-! ## The geometry engine -/

/-- Block "Apply curious effect" of `calculateGeometry`. -/
def calculateGeometryCurious (r : RoboEyes) : RoboEyes :=
  if r.curious then
    let r :=
      if r.eyeLxNext ≤ 10 then { r with eyeLheightOffset := 8 }
      else if r.eyeLxNext ≥ sub16 (GetScreenConstraintX r) 10 ∧ r.cyclops then
        { r with eyeLheightOffset := 8 }
      else { r with eyeLheightOffset := 0 }
    if r.eyeRxNext ≥ sub16 (sub16 r.screenWidth r.eyeRwidthCurrent) 10 then
      { r with eyeRheightOffset := 8 }
    else { r with eyeRheightOffset := 0 }
  else { r with eyeLheightOffset := 0, eyeRheightOffset := 0 }

/-- Block "Left eye height with smoothing" of `calculateGeometry`. -/
def calculateGeometryHeightL (r : RoboEyes) : RoboEyes :=
  let r := { r with
    eyeLheightCurrent :=
      div16 (add16 (add16 r.eyeLheightCurrent r.eyeLheightNext) r.eyeLheightOffset) 2 }
  let r := { r with
    eyeLy :=
      add16 r.eyeLy (div16 (sub16 r.eyeLheightDefault r.eyeLheightCurrent) 2) }
  { r with eyeLy := sub16 r.eyeLy (div16 r.eyeLheightOffset 2) }

/-- Block "Right eye height with smoothing" of `calculateGeometry`. -/
def calculateGeometryHeightR (r : RoboEyes) : RoboEyes :=
  let r := { r with
    eyeRheightCurrent :=
      div16 (add16 (add16 r.eyeRheightCurrent r.eyeRheightNext) r.eyeRheightOffset) 2 }
  let r := { r with
    eyeRy :=
      add16 r.eyeRy (div16 (sub16 r.eyeRheightDefault r.eyeRheightCurrent) 2) }
  { r with eyeRy := sub16 r.eyeRy (div16 r.eyeRheightOffset 2) }

/-- Block "Reopen eyes after closing" of `calculateGeometry`. -/
def calculateGeometryReopen (r : RoboEyes) : RoboEyes :=
  let r :=
    if r.eyeL_open ∧ r.eyeLheightCurrent ≤ add16 1 r.eyeLheightOffset then
      { r with eyeLheightNext := r.eyeLheightDefault }
    else r
  if r.eyeR_open ∧ r.eyeRheightCurrent ≤ add16 1 r.eyeRheightOffset then
    { r with eyeRheightNext := r.eyeRheightDefault }
  else r

/-- Blocks "Width smoothing" and "Space between eyes smoothing" of `calculateGeometry`. -/
def calculateGeometryWidth (r : RoboEyes) : RoboEyes :=
  let r := { r with eyeLwidthCurrent := div16 (add16 r.eyeLwidthCurrent r.eyeLwidthNext) 2 }
  let r := { r with eyeRwidthCurrent := div16 (add16 r.eyeRwidthCurrent r.eyeRwidthNext) 2 }
  { r with spaceBetweenCurrent := div16 (add16 r.spaceBetweenCurrent r.spaceBetweenNext) 2 }

/-- Block "Position smoothing" of `calculateGeometry`. -/
def calculateGeometryPosition (r : RoboEyes) : RoboEyes :=
  let r := { r with eyeLx := div16 (add16 r.eyeLx r.eyeLxNext) 2 }
  let r := { r with eyeLy := div16 (add16 r.eyeLy r.eyeLyNext) 2 }
  let r := { r with
    eyeRxNext := add16 (add16 r.eyeLxNext r.eyeLwidthCurrent) r.spaceBetweenCurrent }
  let r := { r with eyeRyNext := r.eyeLyNext }
  let r := { r with eyeRx := div16 (add16 r.eyeRx r.eyeRxNext) 2 }
  { r with eyeRy := div16 (add16 r.eyeRy r.eyeRyNext) 2 }

/-- Block "Border radius smoothing" of `calculateGeometry`; the sums are sums of `byte`s. -/
def calculateGeometryRadius (r : RoboEyes) : RoboEyes :=
  let r := { r with
    eyeLborderRadiusCurrent := avg8 r.eyeLborderRadiusCurrent r.eyeLborderRadiusNext }
  { r with eyeRborderRadiusCurrent := avg8 r.eyeRborderRadiusCurrent r.eyeRborderRadiusNext }

/-- The method `calculateGeometry`: one smoothing step, its blocks in the order of the source. -/
def calculateGeometry (r : RoboEyes) : RoboEyes :=
  calculateGeometryRadius (calculateGeometryPosition (calculateGeometryWidth
    (calculateGeometryReopen (calculateGeometryHeightR (calculateGeometryHeightL
      (calculateGeometryCurious r))))))

/-! ## The animation scheduler -/

/-- The conversion `int(v)` of a `uint32`.  `int` is 32 bits wide on the targets of TinyGo,
so the values from `2^31` on wrap to negative numbers; below `2^31` the conversion keeps the
value, as it does where `int` is 64 bits wide. -/
def intOfUint32 (v : Nat) : Int :=
  if v < 2147483648 then (v : Int) else (v : Int) - 4294967296

/-- The conversion `uint32(v)` of an `int`. -/
def uint32OfInt (v : Int) : Nat := (v % 4294967296).toNat

/-- Block "Automatic blinking" of `handleAnimations`. -/
def handleAnimationsBlink (g : Draws) (currentTime : Nat) (r : RoboEyes) :
    Except Fault RoboEyes :=
  if r.autoblinker ∧ currentTime ≥ r.blinktimer then do
    let r := Blink r
    let v ← intn (intOfUint32 r.blinkIntervalVariation) g.blink
    pure { r with blinktimer := add32 (add32 currentTime r.blinkInterval) (uint32OfInt v) }
  else pure r

/-- Block "Laugh animation (vertical shaking)" of `handleAnimations`. -/
def handleAnimationsLaugh (currentTime : Nat) (r : RoboEyes) : RoboEyes :=
  if r.laugh then
    if r.laughToggle then
      let r := SetVFlicker r true 5
      let r := { r with laughAnimationTimer := currentTime }
      { r with laughToggle := false }
    else if currentTime ≥ add32 r.laughAnimationTimer r.laughAnimationDuration then
      let r := SetVFlicker r false 0
      let r := { r with laughToggle := true }
      { r with laugh := false }
    else r
  else r

/-- Block "Confused animation (horizontal shaking)" of `handleAnimations`. -/
def handleAnimationsConfused (currentTime : Nat) (r : RoboEyes) : RoboEyes :=
  if r.confused then
    if r.confusedToggle then
      let r := SetHFlicker r true 20
      let r := { r with confusedAnimationTimer := currentTime }
      { r with confusedToggle := false }
    else if currentTime ≥ add32 r.confusedAnimationTimer r.confusedAnimationDuration then
      let r := SetHFlicker r false 0
      let r := { r with confusedToggle := true }
      { r with confused := false }
    else r
  else r

/-- Block "Idle mode (random eye movements)" of `handleAnimations`. -/
def handleAnimationsIdle (g : Draws) (currentTime : Nat) (r : RoboEyes) :
    Except Fault RoboEyes :=
  if r.idle ∧ currentTime ≥ r.idleAnimationTimer then do
    let vx ← intn (GetScreenConstraintX r) g.idleX
    let r := { r with eyeLxNext := wrap16 vx }
    let vy ← intn (GetScreenConstraintY r) g.idleY
    let r := { r with eyeLyNext := wrap16 vy }
    let vt ← intn (intOfUint32 r.idleIntervalVariation) g.idleT
    pure { r with
      idleAnimationTimer := add32 (add32 currentTime r.idleInterval) (uint32OfInt vt) }
  else pure r

/-- Block "Apply horizontal flicker" of `handleAnimations`. -/
def handleAnimationsHFlicker (r : RoboEyes) : RoboEyes :=
  if r.hFlicker then
    let r :=
      if r.hFlickerAlternate then
        let r := { r with eyeLx := add16 r.eyeLx r.hFlickerAmplitude }
        { r with eyeRx := add16 r.eyeRx r.hFlickerAmplitude }
      else
        let r := { r with eyeLx := sub16 r.eyeLx r.hFlickerAmplitude }
        { r with eyeRx := sub16 r.eyeRx r.hFlickerAmplitude }
    { r with hFlickerAlternate := !r.hFlickerAlternate }
  else r

/-- Block "Apply vertical flicker" of `handleAnimations`. -/
def handleAnimationsVFlicker (r : RoboEyes) : RoboEyes :=
  if r.vFlicker then
    let r :=
      if r.vFlickerAlternate then
        let r := { r with eyeLy := add16 r.eyeLy r.vFlickerAmplitude }
        { r with eyeRy := add16 r.eyeRy r.vFlickerAmplitude }
      else
        let r := { r with eyeLy := sub16 r.eyeLy r.vFlickerAmplitude }
        { r with eyeRy := sub16 r.eyeRy r.vFlickerAmplitude }
    { r with vFlickerAlternate := !r.vFlickerAlternate }
  else r

/-- Block "Cyclops mode (hide right eye)" of `handleAnimations`. -/
def handleAnimationsCyclops (r : RoboEyes) : RoboEyes :=
  if r.cyclops then
    { r with eyeRwidthCurrent := 0, eyeRheightCurrent := 0, spaceBetweenCurrent := 0 }
  else r

/-- The method `handleAnimations`, its blocks in the order of the source; `g` holds the
values drawn from `math/rand`. -/
def handleAnimations (g : Draws) (currentTime : Nat) (r : RoboEyes) : Except Fault RoboEyes := do
  let r ← handleAnimationsBlink g currentTime r
  let r := handleAnimationsLaugh currentTime r
  let r := handleAnimationsConfused currentTime r
  let r ← handleAnimationsIdle g currentTime r
  let r := handleAnimationsHFlicker r
  let r := handleAnimationsVFlicker r
  pure (handleAnimationsCyclops r)

/-! ## The rasterizer -/

/-- The values taken by `v` in a loop `for v := lo; v < hi; v++` over `int16`: the loop
variable stays below `hi`, so the increment never overflows. -/
def forRange (lo hi : Int) : List Int :=
  (List.range (hi - lo).toNat).map (fun (k : Nat) => lo + (k : Int))

/-- The values taken by `v` in a loop `for v := lo; v <= hi; v++` over `int16`.  When `hi` is
the largest `int16` the condition holds for every value of `v` and the loop never ends. -/
def forRangeIncl (lo hi : Int) : Except Fault (List Int) :=
  if lo > hi then Except.ok []
  else if hi = 32767 then Except.error Fault.diverge
  else Except.ok (forRange lo (hi + 1))

/-- Runs `body` for each value of the list in turn and concatenates the pixel writes; the
first fault ends the run. -/
def forEachE (body : Int → Except Fault (List PixelWrite)) :
    List Int → Except Fault (List PixelWrite)
  | [] => Except.ok []
  | v :: rest => do
    let a ← body v
    let b ← forEachE body rest
    pure (a ++ b)

/-- The method `fillRect`: the `SetPixel` calls it makes, in order. -/
def fillRect (r : RoboEyes) (x y width height : Int) (c : RGBA) : List PixelWrite :=
  (forRange x (add16 x width)).flatMap fun i =>
    (forRange y (add16 y height)).flatMap fun j =>
      if i ≥ 0 ∧ i < r.screenWidth ∧ j ≥ 0 ∧ j < r.screenHeight then [⟨i, j, c⟩] else []

/-- The method `drawFastHLine`: the `SetPixel` calls it makes, in order. -/
def drawFastHLine (r : RoboEyes) (x y length : Int) (c : RGBA) : List PixelWrite :=
  if length ≤ 0 then []
  else
    let stop := add16 x length
    let stop := if stop > r.screenWidth then r.screenWidth else stop
    (forRange x stop).map fun i => ⟨i, y, c⟩

/-- The test `corners&(1<<k) != 0` on an `int` in two's complement. -/
def cornerBit (corners : Int) (k : Nat) : Bool :=
  decide ((corners / 2 ^ k) % 2 = 1)

/-- The spans drawn by one iteration of the loop of `fillCircle`, at the loop state `x`, `y`. -/
def fillCircleSpans (r : RoboEyes) (x0 y0 : Int) (corners : Int) (c : RGBA) (x y : Int) :
    List PixelWrite :=
  (if cornerBit corners 0 then
      drawFastHLine r (sub16 x0 y) (sub16 y0 x) (add16 (mul16 2 y) 1) c ++
      drawFastHLine r (sub16 x0 x) (sub16 y0 y) (add16 (mul16 2 x) 1) c
    else []) ++
  (if cornerBit corners 1 then
      drawFastHLine r x0 (sub16 y0 y) x c ++
      drawFastHLine r x0 (sub16 y0 x) y c
    else []) ++
  (if cornerBit corners 2 then
      drawFastHLine r (sub16 x0 y) (add16 y0 x) (add16 (mul16 2 y) 1) c ++
      drawFastHLine r (sub16 x0 x) (add16 y0 y) (add16 (mul16 2 x) 1) c
    else []) ++
  (if cornerBit corners 3 then
      drawFastHLine r x0 (add16 y0 y) (add16 x 1) c ++
      drawFastHLine r x0 (add16 y0 x) (add16 y 1) c
    else [])

/-- The loop `for x <= y` of `fillCircle`, run for at most `fuel` iterations, from the loop
state `f`, `ddF_x`, `ddF_y`, `x`, `y`. -/
def fillCircleLoop (r : RoboEyes) (x0 y0 : Int) (corners : Int) (c : RGBA) :
    Nat → Int → Int → Int → Int → Int → List PixelWrite
  | 0, _, _, _, _, _ => []
  | fuel + 1, f, ddF_x, ddF_y, x, y =>
    if x ≤ y then
      let spans := fillCircleSpans r x0 y0 corners c x y
      let y1 := if f ≥ 0 then sub16 y 1 else y
      let ddF_y1 := if f ≥ 0 then add16 ddF_y 2 else ddF_y
      let f1 := if f ≥ 0 then add16 f ddF_y1 else f
      let x1 := add16 x 1
      let ddF_x1 := add16 ddF_x 2
      let f2 := add16 f1 ddF_x1
      spans ++ fillCircleLoop r x0 y0 corners c fuel f2 ddF_x1 ddF_y1 x1 y1
    else []

/-- The method `fillCircle`.  The loop variable `x` starts at 0 and grows by one in every
iteration while `x <= y <= radius`, so `radius + 1` iterations are enough
(`fillCircleLoop_fuel`). -/
def fillCircle (r : RoboEyes) (x0 y0 radius : Int) (corners : Int) (c : RGBA) :
    List PixelWrite :=
  if radius ≤ 0 then []
  else
    fillCircleLoop r x0 y0 corners c (radius.toNat + 1)
      (sub16 1 radius) 1 (mul16 (-2) radius) 0 radius

/-- The function `min` of the source on its three arguments. -/
def min3 (a b c : Int) : Int :=
  let minVal := a
  let minVal := if a < minVal then a else minVal
  let minVal := if b < minVal then b else minVal
  if c < minVal then c else minVal

/-- The method `fillRoundRect`. -/
def fillRoundRect (r : RoboEyes) (x y width height radius : Int) (c : RGBA) :
    List PixelWrite :=
  if height ≤ 2 ∨ width ≤ 2 then fillRect r x y width height c
  else
    let maxRadius := min3 radius (div16 width 2) (div16 height 2)
    let maxRadius := if maxRadius < 1 then 0 else maxRadius
    fillRect r (add16 x maxRadius) y (sub16 width (mul16 2 maxRadius)) height c ++
    fillRect r x (add16 y maxRadius) maxRadius (sub16 height (mul16 2 maxRadius)) c ++
    fillRect r (sub16 (add16 x width) maxRadius) (add16 y maxRadius) maxRadius
      (sub16 height (mul16 2 maxRadius)) c ++
    (if maxRadius > 0 then
      fillCircle r (add16 x maxRadius) (add16 y maxRadius) maxRadius 1 c ++
      fillCircle r (sub16 (sub16 (add16 x width) maxRadius) 1) (add16 y maxRadius)
        maxRadius 2 c ++
      fillCircle r (add16 x maxRadius) (sub16 (sub16 (add16 y height) maxRadius) 1)
        maxRadius 4 c ++
      fillCircle r (sub16 (sub16 (add16 x width) maxRadius) 1)
        (sub16 (sub16 (add16 y height) maxRadius) 1) maxRadius 8 c
    else [])

/-- The method `drawHorizontalLine`: the `SetPixel` calls it makes, in order, or the fault
of its loop. -/
def drawHorizontalLine (r : RoboEyes) (xA xB y : Int) (c : RGBA) :
    Except Fault (List PixelWrite) :=
  let lo := if xA > xB then xB else xA
  let hi := if xA > xB then xA else xB
  if y < 0 ∨ y ≥ r.screenHeight then Except.ok []
  else
    let lo := if lo < 0 then 0 else lo
    let hi := if hi ≥ r.screenWidth then sub16 r.screenWidth 1 else hi
    (forRangeIncl lo hi).map fun xs => xs.map fun x => ⟨x, y, c⟩

/-- The method `fillTriangle`.  `lerp dx dy h` stands for the `float32` expression
`int16(float32(dx) * (float32(dy) * (1.0 / float32(h))))` of the source. -/
def fillTriangle (lerp : Int → Int → Int → Int) (r : RoboEyes)
    (x0 y0 x1 y1 x2 y2 : Int) (c : RGBA) : Except Fault (List PixelWrite) :=
  let (x0, y0, x1, y1) := if y0 > y1 then (x1, y1, x0, y0) else (x0, y0, x1, y1)
  let (x1, y1, x2, y2) := if y1 > y2 then (x2, y2, x1, y1) else (x1, y1, x2, y2)
  let (x0, y0, x1, y1) := if y0 > y1 then (x1, y1, x0, y0) else (x0, y0, x1, y1)
  let totalHeight := sub16 y2 y0
  if totalHeight = 0 then Except.ok []
  else do
    let topHeight := sub16 y1 y0
    let bottomHeight := sub16 y2 y1
    let top ←
      if topHeight > 0 then
        forEachE (fun y =>
          let ax := add16 x0 (lerp (sub16 x2 x0) (sub16 y y0) totalHeight)
          let bx := add16 x0 (lerp (sub16 x1 x0) (sub16 y y0) topHeight)
          drawHorizontalLine r ax bx y c) (forRange y0 y1)
      else Except.ok []
    let bottom ←
      if bottomHeight > 0 then do
        let ys ← forRangeIncl y1 y2
        forEachE (fun y =>
          let ax := add16 x0 (lerp (sub16 x2 x0) (sub16 y y0) totalHeight)
          let bx := add16 x1 (lerp (sub16 x2 x1) (sub16 y y1) bottomHeight)
          drawHorizontalLine r ax bx y c) ys
      else Except.ok []
    pure (top ++ bottom)

/-! ## The render pipeline -/

/-- The method `drawEyeShapes`. -/
def drawEyeShapes (r : RoboEyes) : List PixelWrite :=
  let borderL : Int := (r.eyeLborderRadiusCurrent : Int)
  let borderR : Int := (r.eyeRborderRadiusCurrent : Int)
  fillRoundRect r r.eyeLx r.eyeLy r.eyeLwidthCurrent r.eyeLheightCurrent borderL r.eyesColor ++
  (if !r.cyclops then
    fillRoundRect r r.eyeRx r.eyeRy r.eyeRwidthCurrent r.eyeRheightCurrent borderR r.eyesColor
  else [])

/-- The method `drawEyelidTriangles`. -/
def drawEyelidTriangles (lerp : Int → Int → Int → Int) (r : RoboEyes)
    (leftEyeX leftEyeY leftWidth rightEyeX rightEyeY rightWidth height : Int)
    (leftPointsLeft rightPointsRight : Bool) : Except Fault (List PixelWrite) :=
  if r.cyclops then do
    let midX := add16 leftEyeX (div16 leftWidth 2)
    let a ←
      if leftPointsLeft then
        fillTriangle lerp r leftEyeX leftEyeY midX leftEyeY
          leftEyeX (add16 leftEyeY height) r.bgColor
      else
        fillTriangle lerp r leftEyeX leftEyeY midX leftEyeY
          midX (add16 leftEyeY height) r.bgColor
    let b ←
      if rightPointsRight then
        fillTriangle lerp r midX leftEyeY (add16 leftEyeX leftWidth) leftEyeY
          (add16 leftEyeX leftWidth) (add16 leftEyeY height) r.bgColor
      else
        fillTriangle lerp r midX leftEyeY (add16 leftEyeX leftWidth) leftEyeY
          midX (add16 leftEyeY height) r.bgColor
    pure (a ++ b)
  else do
    let a ←
      if leftPointsLeft then
        fillTriangle lerp r leftEyeX leftEyeY (add16 leftEyeX leftWidth) leftEyeY
          leftEyeX (add16 leftEyeY height) r.bgColor
      else
        fillTriangle lerp r leftEyeX leftEyeY (add16 leftEyeX leftWidth) leftEyeY
          (add16 leftEyeX leftWidth) (add16 leftEyeY height) r.bgColor
    let b ←
      if rightPointsRight then
        fillTriangle lerp r rightEyeX rightEyeY (add16 rightEyeX rightWidth) rightEyeY
          (add16 rightEyeX rightWidth) (add16 rightEyeY height) r.bgColor
      else
        fillTriangle lerp r rightEyeX rightEyeY (add16 rightEyeX rightWidth) rightEyeY
          rightEyeX (add16 rightEyeY height) r.bgColor
    pure (a ++ b)

/-- Step 1 of `drawEyelids`: the targets of the eyelids, from the active moods. -/
def drawEyelidsTargets (r : RoboEyes) : RoboEyes :=
  let r := { r with eyelidsTiredHeightNext := 0, eyelidsAngryHeightNext := 0,
                    eyelidsHappyBottomOffsetNext := 0 }
  let r :=
    if r.tired then { r with eyelidsTiredHeightNext := div16 r.eyeLheightCurrent 2 }
    else if r.angry then { r with eyelidsAngryHeightNext := div16 r.eyeLheightCurrent 2 }
    else r
  if r.happy then { r with eyelidsHappyBottomOffsetNext := div16 r.eyeLheightCurrent 2 }
  else r

/-- Step 2 of `drawEyelids`: the smoothing of the eyelids towards their targets. -/
def drawEyelidsSmooth (r : RoboEyes) : RoboEyes :=
  let r := { r with
    eyelidsTiredHeight := div16 (add16 r.eyelidsTiredHeight r.eyelidsTiredHeightNext) 2 }
  let r := { r with
    eyelidsAngryHeight := div16 (add16 r.eyelidsAngryHeight r.eyelidsAngryHeightNext) 2 }
  { r with
    eyelidsHappyBottomOffset :=
      div16 (add16 r.eyelidsHappyBottomOffset r.eyelidsHappyBottomOffsetNext) 2 }

/-- Steps 3 to 5 of `drawEyelids`: the pixels of the tired, angry and happy eyelids. -/
def drawEyelidsRender (lerp : Int → Int → Int → Int) (r : RoboEyes) :
    Except Fault (List PixelWrite) := do
  let eyeTopY := sub16 r.eyeLy 1
  let eyeBottomY := add16 r.eyeLy r.eyeLheightCurrent
  let tiredLids ←
    if r.eyelidsTiredHeight > 0 then
      drawEyelidTriangles lerp r r.eyeLx eyeTopY r.eyeLwidthCurrent
        r.eyeRx eyeTopY r.eyeRwidthCurrent r.eyelidsTiredHeight true true
    else Except.ok []
  let angryLids ←
    if r.eyelidsAngryHeight > 0 then
      drawEyelidTriangles lerp r r.eyeLx eyeTopY r.eyeLwidthCurrent
        r.eyeRx eyeTopY r.eyeRwidthCurrent r.eyelidsAngryHeight false false
    else Except.ok []
  let happyLids :=
    if r.eyelidsHappyBottomOffset > 0 then
      fillRoundRect r (sub16 r.eyeLx 1)
        (add16 (sub16 eyeBottomY r.eyelidsHappyBottomOffset) 1)
        (add16 r.eyeLwidthCurrent 2) r.eyelidsHappyBottomOffset
        (r.eyeLborderRadiusCurrent : Int) r.bgColor ++
      (if !r.cyclops then
        fillRoundRect r (sub16 r.eyeRx 1)
          (add16 (sub16 eyeBottomY r.eyelidsHappyBottomOffset) 1)
          (add16 r.eyeRwidthCurrent 2) r.eyelidsHappyBottomOffset
          (r.eyeRborderRadiusCurrent : Int) r.bgColor
      else [])
    else []
  pure (tiredLids ++ angryLids ++ happyLids)

/-- The method `drawEyelids`: the new state and the `SetPixel` calls. -/
def drawEyelids (lerp : Int → Int → Int → Int) (r : RoboEyes) :
    Except Fault (RoboEyes × List PixelWrite) := do
  let r := drawEyelidsSmooth (drawEyelidsTargets r)
  let px ← drawEyelidsRender lerp r
  pure (r, px)

/-- The method `DrawEyes`: the new state and the calls made on the device, in order.
`currentTime` is the clock read by `millis()`, `display` the value returned by
`device.Display()` (`none` is the nil error): the source drops it.  The first call on the
device is `r.device.ClearBuffer()`: on the nil interface (`device = none`, as before `Begin`)
it panics. -/
def DrawEyes (lerp : Int → Int → Int → Int) (display : Option Nat) (g : Draws)
    (currentTime : Nat) (r : RoboEyes) : Except Fault (RoboEyes × List DeviceCall) := do
  let r := calculateGeometry r
  let r ← handleAnimations g currentTime r
  if r.device = none then Except.error Fault.panic
  else do
    let eyes := drawEyeShapes r
    let (r, lids) ← drawEyelids lerp r
    let _ := display
    pure (r, [DeviceCall.clearBuffer] ++ (eyes ++ lids).map DeviceCall.setPixel ++
      [DeviceCall.display])

/-- The method `Update`: `currentTime` is the clock read by `Update` itself, `drawTime` the
clock read afterwards by `DrawEyes` when the frame is drawn. -/
def Update (lerp : Int → Int → Int → Int) (display : Option Nat) (g : Draws)
    (currentTime drawTime : Nat) (r : RoboEyes) :
    Except Fault (RoboEyes × List DeviceCall) :=
  if sub32 currentTime r.fpsTimer ≥ r.frameInterval then do
    let (r, calls) ← DrawEyes lerp display g drawTime r
    pure ({ r with fpsTimer := currentTime }, calls)
  else pure (r, [])

/-! ## Definitions used by the statements -/

/-- Half-range values: the sum of two of them is an `int16`, so that `(current + next) / 2`
is computed without overflow. -/
def small16 (v : Int) : Prop := -16384 ≤ v ∧ v ≤ 16383

/-- The smoothing expression `(current + next) / 2` of `calculateGeometry`, on `int16`. -/
def smooth (next current : Int) : Int := div16 (add16 current next) 2

/-- The device calls of a frame that returned; none when the frame did not return. -/
def callsOf (out : Except Fault (RoboEyes × List DeviceCall)) : List DeviceCall :=
  match out with
  | Except.ok (_, calls) => calls
  | Except.error _ => []

/-- The fields that decide whether a frame is drawn and whether it can fault or draw eyelid
triangles: the frame gate, the two recurring timers, the moods and the eyelid heights. -/
def gateView (r : RoboEyes) : Nat × Nat × Bool × Bool × Bool × Bool × Int × Int :=
  (r.frameInterval, r.fpsTimer, r.autoblinker, r.idle, r.tired, r.angry,
    r.eyelidsTiredHeight, r.eyelidsAngryHeight)

/-- A state in which no recurring animation is active and no top eyelid is shown: the state
after `Begin`, as long as no mutator is called. -/
def quiet (r : RoboEyes) : Prop :=
  r.autoblinker = false ∧ r.idle = false ∧ r.tired = false ∧ r.angry = false ∧
    r.eyelidsTiredHeight = 0 ∧ r.eyelidsAngryHeight = 0

/-- The host loop: `Update` is called once for each clock reading of the list, in order.
`display t`, `g t` and `drawClock t` are the result of `Display()`, the random draws and the
clock read by `DrawEyes` during the call made at reading `t`.  The result is the final state
and the readings at which a draw pass took place (the device received calls). -/
def updateTicks (lerp : Int → Int → Int → Int) (display : Nat → Option Nat) (g : Nat → Draws)
    (drawClock : Nat → Nat) : List Nat → RoboEyes → Except Fault (RoboEyes × List Nat)
  | [], r => Except.ok (r, [])
  | t :: ts, r =>
    match Update lerp (display t) (g t) t (drawClock t) r with
    | Except.error e => Except.error e
    | Except.ok (r1, calls) =>
      match updateTicks lerp display g drawClock ts r1 with
      | Except.error e => Except.error e
      | Except.ok (r2, drawn) => Except.ok (r2, if calls = [] then drawn else t :: drawn)

/-- The table of gaze targets as the specification words it: the byte of the direction
(`DirCenter = 0`, `DirN = 1`, `DirNE = 2`, `DirE = 3`, `DirSE = 4`, `DirS = 5`, `DirSW = 6`,
`DirW = 7`, `DirNW = 8`) gives a fixed fraction of the allowed range `maxX`, `maxY`; a
division is the truncating division of Go. -/
def directionTarget (maxX maxY : Int) (d : Nat) : Int × Int :=
  match d with
  | 1 => (Int.tdiv maxX 2, 0)
  | 2 => (maxX, 0)
  | 3 => (maxX, Int.tdiv maxY 2)
  | 4 => (maxX, maxY)
  | 5 => (Int.tdiv maxX 2, maxY)
  | 6 => (0, maxY)
  | 7 => (0, Int.tdiv maxY 2)
  | 8 => (0, 0)
  | _ => (Int.tdiv maxX 2, Int.tdiv maxY 2)

/-- The fields read and written by the idle animation: its flag, timer and intervals, the
target of the left eye and the fields from which the screen constraints are computed. -/
def idleView (r : RoboEyes) :
    Bool × Nat × Nat × Nat × Int × Int × Int × Int × Int × Int × Int × Int :=
  (r.idle, r.idleAnimationTimer, r.idleIntervalVariation, r.idleInterval, r.eyeLxNext,
    r.eyeLyNext, r.screenWidth, r.eyeLwidthCurrent, r.spaceBetweenCurrent, r.eyeRwidthCurrent,
    r.screenHeight, r.eyeLheightDefault)

/-- The fields of the confused animation and of the horizontal flicker it drives. -/
def confusedView (r : RoboEyes) : Bool × Bool × Nat × Nat × Bool × Int :=
  (r.confused, r.confusedToggle, r.confusedAnimationTimer, r.confusedAnimationDuration,
    r.hFlicker, r.hFlickerAmplitude)

/-- The fields of the laugh animation and of the vertical flicker it drives. -/
def laughView (r : RoboEyes) : Bool × Bool × Nat × Nat × Bool × Int :=
  (r.laugh, r.laughToggle, r.laughAnimationTimer, r.laughAnimationDuration,
    r.vFlicker, r.vFlickerAmplitude)

/-- The state `r'` is the state after one frame run at clock reading `t` on the state `r`:
after the animations of the frame (`handleAnimations`) or after the whole frame (`DrawEyes`),
for some outcome of the random draws, of the floating point unit and of `Display()`. -/
def afterFrame (t : Nat) (r r' : RoboEyes) : Prop :=
  (∃ g : Draws, handleAnimations g t r = Except.ok r') ∨
  (∃ (lerp : Int → Int → Int → Int) (display : Option Nat) (g : Draws)
      (calls : List DeviceCall), DrawEyes lerp display g t r = Except.ok (r', calls))

/-- The confused cycle started at clock reading `t0` is in its "hold" phase: the animation is
active, its toggle is down, the start time is recorded, the duration is the default 500 and
the horizontal flicker is on with amplitude 20. -/
def confusedHold (t0 : Nat) (r : RoboEyes) : Prop :=
  r.confused = true ∧ r.confusedToggle = false ∧ r.confusedAnimationTimer = t0 ∧
    r.confusedAnimationDuration = 500 ∧ r.hFlicker = true ∧ r.hFlickerAmplitude = 20

/-- The laugh cycle started at clock reading `t0` is in its "hold" phase: as `confusedHold`,
on the vertical flicker with amplitude 5. -/
def laughHold (t0 : Nat) (r : RoboEyes) : Prop :=
  r.laugh = true ∧ r.laughToggle = false ∧ r.laughAnimationTimer = t0 ∧
    r.laughAnimationDuration = 500 ∧ r.vFlicker = true ∧ r.vFlickerAmplitude = 5

/-- A run of frames: `DrawEyes` is called once for each element of the list, which gives the
result of `Display()`, the random draws and the clock reading of that frame; the result is the
state after the last frame. -/
def runFrames (lerp : Int → Int → Int → Int) :
    List (Option Nat × Draws × Nat) → RoboEyes → Except Fault RoboEyes
  | [], r => Except.ok r
  | i :: rest, r =>
    match DrawEyes lerp i.1 i.2.1 i.2.2 r with
    | Except.error e => Except.error e
    | Except.ok out => runFrames lerp rest out.1

/-- No timer-driven animation and no flicker is active: the autoblinker, the idle mode, the
laugh and confused animations and the two flickers are off. -/
def still (r : RoboEyes) : Prop :=
  r.autoblinker = false ∧ r.idle = false ∧ r.laugh = false ∧ r.confused = false ∧
    r.hFlicker = false ∧ r.vFlicker = false

/-- Step 5 of `drawEyelids`, "Render happy eyelids": the pixels of the bottom covers. -/
def drawEyelidsHappy (r : RoboEyes) : List PixelWrite :=
  if r.eyelidsHappyBottomOffset > 0 then
    fillRoundRect r (sub16 r.eyeLx 1)
      (add16 (sub16 (add16 r.eyeLy r.eyeLheightCurrent) r.eyelidsHappyBottomOffset) 1)
      (add16 r.eyeLwidthCurrent 2) r.eyelidsHappyBottomOffset
      (r.eyeLborderRadiusCurrent : Int) r.bgColor ++
    (if !r.cyclops then
      fillRoundRect r (sub16 r.eyeRx 1)
        (add16 (sub16 (add16 r.eyeLy r.eyeLheightCurrent) r.eyelidsHappyBottomOffset) 1)
        (add16 r.eyeRwidthCurrent 2) r.eyelidsHappyBottomOffset
        (r.eyeRborderRadiusCurrent : Int) r.bgColor
    else [])
  else []

/-- The state after a frame drawn from a `still` state: the geometry step, the cyclops
override and the two state updates of `drawEyelids`. -/
def frameStep (r : RoboEyes) : RoboEyes :=
  drawEyelidsSmooth (drawEyelidsTargets (handleAnimationsCyclops (calculateGeometry r)))

/-- The result of `DrawEyes` on a `still` and `quiet` state: the state after the frame and the
device calls, which are those of the eye shapes and of the happy eyelids. -/
def quietFrame (r : RoboEyes) : RoboEyes × List DeviceCall :=
  (frameStep r,
    DeviceCall.clearBuffer ::
      ((drawEyeShapes (handleAnimationsCyclops (calculateGeometry r)) ++
        drawEyelidsHappy (frameStep r)).map DeviceCall.setPixel ++ [DeviceCall.display]))

/-- The `SetPixel` calls among the device calls of a frame, in order. -/
def pixelsOf (calls : List DeviceCall) : List PixelWrite :=
  calls.filterMap fun c =>
    match c with
    | DeviceCall.setPixel p => some p
    | _ => none

/-- The pixel lies in the rectangle occupied by the right eye in the state `s`:
`[eyeRx, eyeRx + eyeRwidthCurrent) x [eyeRy, eyeRy + eyeRheightCurrent)`. -/
def inRightEye (s : RoboEyes) (p : PixelWrite) : Prop :=
  s.eyeRx ≤ p.x ∧ p.x < s.eyeRx + s.eyeRwidthCurrent ∧
    s.eyeRy ≤ p.y ∧ p.y < s.eyeRy + s.eyeRheightCurrent

/-- The pixel lies in the rectangle occupied by the left eye in the state `s`:
`[eyeLx, eyeLx + eyeLwidthCurrent) x [eyeLy, eyeLy + eyeLheightCurrent)`. -/
def inLeftEye (s : RoboEyes) (p : PixelWrite) : Prop :=
  s.eyeLx ≤ p.x ∧ p.x < s.eyeLx + s.eyeLwidthCurrent ∧
    s.eyeLy ≤ p.y ∧ p.y < s.eyeLy + s.eyeLheightCurrent

instance (s : RoboEyes) (p : PixelWrite) : Decidable (inRightEye s p) := by
  unfold inRightEye; exact inferInstance

instance (s : RoboEyes) (p : PixelWrite) : Decidable (inLeftEye s p) := by
  unfold inLeftEye; exact inferInstance

/-- The frame drawn from the state `before` returned, each of its `SetPixel` calls is outside
the right eye of `before` and inside the left eye of the state after the frame, in the colour
of the eyes, and the calls are those of the rounded rectangle of the left eye. -/
def leftEyeOnly (before : RoboEyes) (res : Except Fault (RoboEyes × List DeviceCall)) : Prop :=
  match res with
  | Except.ok (after, calls) =>
    (∀ p ∈ pixelsOf calls, ¬ inRightEye before p ∧ inLeftEye after p ∧ p.c = after.eyesColor) ∧
      pixelsOf calls = fillRoundRect after after.eyeLx after.eyeLy after.eyeLwidthCurrent
        after.eyeLheightCurrent (after.eyeLborderRadiusCurrent : Int) after.eyesColor
  | Except.error _ => False

instance (before : RoboEyes) (res : Except Fault (RoboEyes × List DeviceCall)) :
    Decidable (leftEyeOnly before res) := by
  unfold leftEyeOnly
  cases res with
  | error e => exact inferInstance
  | ok out => cases out; exact inferInstance

/-- The states through which the eyes open after `Begin(device, 128, 64, 50)` on a fresh
instance, written out field by field for the device handle 0 and the start time 0: only the
current height of the eyes, their vertical position, and the position and target of the right
eye change from frame to frame. -/
def openingState (height y rx rxNext : Int) : RoboEyes :=
  { device := some 0, startTime := 0,
    eyesColor := ⟨255, 255, 255, 255⟩, bgColor := ⟨0, 0, 0, 255⟩,
    screenWidth := 128, screenHeight := 64, frameInterval := 20, fpsTimer := 0,
    tired := false, angry := false, happy := false, curious := false, cyclops := false,
    eyeL_open := false, eyeR_open := false,
    eyeLwidthDefault := 36, eyeLheightDefault := 36, eyeLwidthCurrent := 36,
    eyeLheightCurrent := height, eyeLwidthNext := 36, eyeLheightNext := 36,
    eyeLheightOffset := 0,
    eyeLborderRadiusDefault := 8, eyeLborderRadiusCurrent := 8, eyeLborderRadiusNext := 8,
    eyeLxDefault := 28, eyeLyDefault := 14, eyeLx := 28, eyeLy := y, eyeLxNext := 28,
    eyeLyNext := 14,
    eyeRwidthDefault := 36, eyeRheightDefault := 36, eyeRwidthCurrent := 36,
    eyeRheightCurrent := height, eyeRwidthNext := 36, eyeRheightNext := 36,
    eyeRheightOffset := 0,
    eyeRborderRadiusDefault := 8, eyeRborderRadiusCurrent := 8, eyeRborderRadiusNext := 8,
    eyeRxDefault := 64, eyeRyDefault := 14, eyeRx := rx, eyeRy := y, eyeRxNext := rxNext,
    eyeRyNext := 14,
    spaceBetweenDefault := 10, spaceBetweenCurrent := 10, spaceBetweenNext := 10,
    eyelidsHeightMax := 18, eyelidsTiredHeight := 0, eyelidsTiredHeightNext := 0,
    eyelidsAngryHeight := 0, eyelidsAngryHeightNext := 0, eyelidsHappyBottomOffset := 0,
    eyelidsHappyBottomOffsetNext := 0, eyelidsHappyBottomOffsetMax := 21,
    hFlicker := false, hFlickerAlternate := false, hFlickerAmplitude := 2,
    vFlicker := false, vFlickerAlternate := false, vFlickerAmplitude := 10,
    autoblinker := false, blinkInterval := 1000, blinkIntervalVariation := 4000,
    blinktimer := 0,
    idle := false, idleInterval := 1000, idleIntervalVariation := 3000,
    idleAnimationTimer := 0,
    confused := false, confusedAnimationTimer := 0, confusedAnimationDuration := 500,
    confusedToggle := true,
    laugh := false, laughAnimationTimer := 0, laughAnimationDuration := 500,
    laughToggle := true }

/-- The list of the states of `openingState` reached frame after frame: the height of the
eyes goes 1, 18, 27, 31, 33, 34, 35 and stays at 35. -/
def openingStates : List RoboEyes :=
  [openingState 1 14 64 64, openingState 18 18 69 74, openingState 27 18 71 74,
    openingState 31 17 72 74, openingState 33 16 73 74, openingState 34 15 73 74,
    openingState 35 14 73 74]

/-- The state `r` with another device handle and another start time: the two fields that no
method of the package reads after `Begin`. -/
def withMeta (d : Option Nat) (n : Nat) (r : RoboEyes) : RoboEyes :=
  { r with device := d, startTime := n }

/-- The number of `calculateGeometry` steps after which an open eye of current height `c`
whose target height is 1 gets its target reset to the default: each step replaces `c` by
`(c + 1) / 2`, and the reset is made by the first step whose result is at most 1.  `fuel`
bounds the number of further steps that are looked at. -/
def reopenSteps : Nat → Int → Nat
  | 0, _ => 1
  | fuel + 1, c => if (c + 1) / 2 ≤ 1 then 1 else reopenSteps fuel ((c + 1) / 2) + 1

/-- No animation of the scheduler fires in a frame at clock reading `t`: the autoblinker and
the idle mode are off or not yet due, and the laugh and the confused animation are either not
active or in their hold phase (toggle down, `t` before start + duration), where
`handleAnimations` changes none of their fields. -/
def nothingFires (t : Nat) (r : RoboEyes) : Prop :=
  ¬ (r.autoblinker = true ∧ t ≥ r.blinktimer) ∧
    (r.laugh = true → r.laughToggle = false ∧
      t < add32 r.laughAnimationTimer r.laughAnimationDuration) ∧
    (r.confused = true → r.confusedToggle = false ∧
      t < add32 r.confusedAnimationTimer r.confusedAnimationDuration) ∧
    ¬ (r.idle = true ∧ t ≥ r.idleAnimationTimer)

/-- The fields read by the tests of `nothingFires`. -/
def nothingFiresView (r : RoboEyes) :
    Bool × Nat × Bool × Nat × (Bool × Bool × Nat × Nat) × (Bool × Bool × Nat × Nat) :=
  (r.autoblinker, r.blinktimer, r.idle, r.idleAnimationTimer,
    (r.laugh, r.laughToggle, r.laughAnimationTimer, r.laughAnimationDuration),
    (r.confused, r.confusedToggle, r.confusedAnimationTimer, r.confusedAnimationDuration))

/-- The confused cycle started at clock reading `t0` with the duration `d` is under way: the
animation is active, its toggle is down, the start time is recorded and the horizontal flicker
is on with amplitude 20. -/
def confusedShake (t0 d : Nat) (r : RoboEyes) : Prop :=
  r.confused = true ∧ r.confusedToggle = false ∧ r.confusedAnimationTimer = t0 ∧
    r.confusedAnimationDuration = d ∧ r.hFlicker = true ∧ r.hFlickerAmplitude = 20

/-- The laugh cycle started at clock reading `t0` with the duration `d` is under way: as
`confusedShake`, on the vertical flicker with amplitude 5. -/
def laughShake (t0 d : Nat) (r : RoboEyes) : Prop :=
  r.laugh = true ∧ r.laughToggle = false ∧ r.laughAnimationTimer = t0 ∧
    r.laughAnimationDuration = d ∧ r.vFlicker = true ∧ r.vFlickerAmplitude = 5

/-! # Verification -/

set_option maxRecDepth 100000

/-! ## Arithmetic of the machine integers -/

theorem tdiv_two (a : Int) : Int.tdiv a 2 = if 0 ≤ a then a / 2 else -((-a) / 2) := by
  split
  · next h => exact Int.tdiv_eq_ediv h (by decide)
  · next h =>
    have h1 : a = -(-a) := by omega
    rw [h1, Int.neg_tdiv, Int.tdiv_eq_ediv (by omega) (by decide)]
    simp

theorem wrap16_eq (v : Int) (h1 : -32768 ≤ v) (h2 : v ≤ 32767) : wrap16 v = v := by
  unfold wrap16; omega

theorem smooth_val (c n : Int) (hc1 : -16384 ≤ c) (hc2 : c ≤ 16383) (hn1 : -16384 ≤ n)
    (hn2 : n ≤ 16383) :
    div16 (add16 c n) 2 = if 0 ≤ c + n then (c + n) / 2 else -((-(c + n)) / 2) := by
  unfold div16 add16
  rw [wrap16_eq (c + n) (by omega) (by omega), tdiv_two]
  split <;> (apply wrap16_eq <;> omega)


theorem smooth_small (c n : Int) (hc : small16 c) (hn : small16 n) :
    small16 (div16 (add16 c n) 2) := by
  unfold small16 at *
  rw [smooth_val c n hc.1 hc.2 hn.1 hn.2]; split <;> omega

theorem smooth_dist (c n : Int) (hc : small16 c) (hn : small16 n) :
    (div16 (add16 c n) 2 - n).natAbs ≤ (c - n).natAbs ∧
    ∀ m : Nat, 1 ≤ m → (c - n).natAbs ≤ 2 * m → (div16 (add16 c n) 2 - n).natAbs ≤ m := by
  unfold small16 at *
  rw [smooth_val c n hc.1 hc.2 hn.1 hn.2]
  constructor
  · split <;> omega
  · intro m hm hd; split <;> omega

theorem smooth_fixed (c n : Int) (hc : small16 c) (hn : small16 n) (hd : (c - n).natAbs ≤ 1) :
    div16 (add16 (div16 (add16 c n) 2) n) 2 = div16 (add16 c n) 2 := by
  have hs := smooth_small c n hc hn
  unfold small16 at *
  rw [smooth_val _ n hs.1 hs.2 hn.1 hn.2, smooth_val c n hc.1 hc.2 hn.1 hn.2]
  split <;> split <;> omega

theorem smooth_between (c n : Int) (hc : small16 c) (hn : small16 n)
    (hb : (0 ≤ n ∧ n ≤ c) ∨ (c ≤ n ∧ n ≤ 0)) :
    ((0 ≤ n ∧ n ≤ div16 (add16 c n) 2) ∨ (div16 (add16 c n) 2 ≤ n ∧ n ≤ 0)) ∧
    (div16 (add16 c n) 2 = c → c = n) := by
  unfold small16 at *
  rw [smooth_val c n hc.1 hc.2 hn.1 hn.2]
  split <;> omega

theorem smooth_outside (c n : Int) (hc : small16 c) (hn : small16 n)
    (hb : (0 < n ∧ c < n) ∨ (n < c ∧ n < 0)) :
    (0 < n ∧ div16 (add16 c n) 2 < n) ∨ (n < div16 (add16 c n) 2 ∧ n < 0) := by
  unfold small16 at *
  rw [smooth_val c n hc.1 hc.2 hn.1 hn.2]
  split <;> omega


theorem smooth_iter_small (n : Int) (hn : small16 n) (k : Nat) (c : Int) (hc : small16 c) :
    small16 ((smooth n)^[k] c) := by
  induction k with
  | zero => exact hc
  | succ k ih =>
    rw [Function.iterate_succ_apply']
    exact smooth_small _ n ih hn

theorem smooth_iter_mono (n : Int) (hn : small16 n) (k : Nat) (c : Int) (hc : small16 c) :
    ((smooth n)^[k + 1] c - n).natAbs ≤ ((smooth n)^[k] c - n).natAbs := by
  rw [Function.iterate_succ_apply']
  exact (smooth_dist _ n (smooth_iter_small n hn k c hc) hn).1

theorem smooth_iter_halves (n : Int) (hn : small16 n) (j : Nat) :
    ∀ c : Int, small16 c → (c - n).natAbs ≤ 2 ^ j → ((smooth n)^[j] c - n).natAbs ≤ 1 := by
  induction j with
  | zero => intro c _ h; simpa using h
  | succ j ih =>
    intro c hc h
    rw [Function.iterate_succ_apply]
    apply ih _ (smooth_small c n hc hn)
    have h2 : (c - n).natAbs ≤ 2 * 2 ^ j := by rw [pow_succ] at h; omega
    exact (smooth_dist c n hc hn).2 (2 ^ j) (Nat.one_le_two_pow) h2

theorem smooth_iter_near (n : Int) (hn : small16 n) (c : Int) (hc : small16 c) (k : Nat)
    (hk : 15 ≤ k) : ((smooth n)^[k] c - n).natAbs ≤ 1 := by
  induction k, hk using Nat.le_induction with
  | base =>
    apply smooth_iter_halves n hn 15 c hc
    unfold small16 at *
    norm_num
    omega
  | succ k _ ih => exact le_trans (smooth_iter_mono n hn k c hc) ih

theorem smooth_iter_settled (n : Int) (hn : small16 n) (c : Int) (hc : small16 c) (k : Nat)
    (hk : 16 ≤ k) : (smooth n)^[k] c = (smooth n)^[16] c := by
  induction k, hk using Nat.le_induction with
  | base => rfl
  | succ k _ ih =>
    rw [Function.iterate_succ_apply', ih]
    show smooth n ((smooth n)^[15 + 1] c) = (smooth n)^[15 + 1] c
    rw [Function.iterate_succ_apply']
    exact smooth_fixed _ n (smooth_iter_small n hn 15 c hc) hn
      (smooth_iter_near n hn c hc 15 (le_refl _))

theorem smooth_iter_between (n : Int) (hn : small16 n) (k : Nat) (c : Int) (hc : small16 c)
    (hb : (0 ≤ n ∧ n ≤ c) ∨ (c ≤ n ∧ n ≤ 0)) :
    (0 ≤ n ∧ n ≤ (smooth n)^[k] c) ∨ ((smooth n)^[k] c ≤ n ∧ n ≤ 0) := by
  induction k with
  | zero => exact hb
  | succ k ih =>
    rw [Function.iterate_succ_apply']
    exact (smooth_between _ n (smooth_iter_small n hn k c hc) hn ih).1

theorem smooth_iter_reaches (n : Int) (hn : small16 n) (c : Int) (hc : small16 c)
    (hb : (0 ≤ n ∧ n ≤ c) ∨ (c ≤ n ∧ n ≤ 0)) (k : Nat) (hk : 16 ≤ k) :
    (smooth n)^[k] c = n := by
  rw [smooth_iter_settled n hn c hc k hk]
  have hfix : smooth n ((smooth n)^[16] c) = (smooth n)^[16] c := by
    have h17 := smooth_iter_settled n hn c hc 17 (by decide)
    rw [Function.iterate_succ_apply'] at h17
    exact h17
  exact (smooth_between _ n (smooth_iter_small n hn 16 c hc) hn
    (smooth_iter_between n hn 16 c hc hb)).2 hfix

theorem smooth_iter_outside (n : Int) (hn : small16 n) (k : Nat) (c : Int) (hc : small16 c)
    (hb : (0 < n ∧ c < n) ∨ (n < c ∧ n < 0)) :
    (0 < n ∧ (smooth n)^[k] c < n) ∨ (n < (smooth n)^[k] c ∧ n < 0) := by
  induction k with
  | zero => exact hb
  | succ k ih =>
    rw [Function.iterate_succ_apply']
    exact smooth_outside _ n (smooth_iter_small n hn k c hc) hn ih

theorem calculateGeometryCurious_width (r : RoboEyes) :
    (calculateGeometryCurious r).eyeLwidthNext = r.eyeLwidthNext ∧
    (calculateGeometryCurious r).eyeLwidthCurrent = r.eyeLwidthCurrent := by
  unfold calculateGeometryCurious; dsimp only; split_ifs <;> exact ⟨rfl, rfl⟩

theorem calculateGeometryHeightL_width (r : RoboEyes) :
    (calculateGeometryHeightL r).eyeLwidthNext = r.eyeLwidthNext ∧
    (calculateGeometryHeightL r).eyeLwidthCurrent = r.eyeLwidthCurrent := ⟨rfl, rfl⟩

theorem calculateGeometryHeightR_width (r : RoboEyes) :
    (calculateGeometryHeightR r).eyeLwidthNext = r.eyeLwidthNext ∧
    (calculateGeometryHeightR r).eyeLwidthCurrent = r.eyeLwidthCurrent := ⟨rfl, rfl⟩

theorem calculateGeometryReopen_width (r : RoboEyes) :
    (calculateGeometryReopen r).eyeLwidthNext = r.eyeLwidthNext ∧
    (calculateGeometryReopen r).eyeLwidthCurrent = r.eyeLwidthCurrent := by
  unfold calculateGeometryReopen; dsimp only; split_ifs <;> exact ⟨rfl, rfl⟩

theorem calculateGeometryWidth_width (r : RoboEyes) :
    (calculateGeometryWidth r).eyeLwidthNext = r.eyeLwidthNext ∧
    (calculateGeometryWidth r).eyeLwidthCurrent =
      div16 (add16 r.eyeLwidthCurrent r.eyeLwidthNext) 2 := ⟨rfl, rfl⟩

theorem calculateGeometryPosition_width (r : RoboEyes) :
    (calculateGeometryPosition r).eyeLwidthNext = r.eyeLwidthNext ∧
    (calculateGeometryPosition r).eyeLwidthCurrent = r.eyeLwidthCurrent := ⟨rfl, rfl⟩

theorem calculateGeometryRadius_width (r : RoboEyes) :
    (calculateGeometryRadius r).eyeLwidthNext = r.eyeLwidthNext ∧
    (calculateGeometryRadius r).eyeLwidthCurrent = r.eyeLwidthCurrent := ⟨rfl, rfl⟩

theorem calculateGeometry_width (r : RoboEyes) :
    (calculateGeometry r).eyeLwidthNext = r.eyeLwidthNext ∧
    (calculateGeometry r).eyeLwidthCurrent =
      div16 (add16 r.eyeLwidthCurrent r.eyeLwidthNext) 2 := by
  unfold calculateGeometry
  rw [(calculateGeometryRadius_width _).1, (calculateGeometryRadius_width _).2,
    (calculateGeometryPosition_width _).1, (calculateGeometryPosition_width _).2,
    (calculateGeometryWidth_width _).1, (calculateGeometryWidth_width _).2,
    (calculateGeometryReopen_width _).1, (calculateGeometryReopen_width _).2,
    (calculateGeometryHeightR_width _).1, (calculateGeometryHeightR_width _).2,
    (calculateGeometryHeightL_width _).1, (calculateGeometryHeightL_width _).2,
    (calculateGeometryCurious_width _).1, (calculateGeometryCurious_width _).2]
  exact ⟨rfl, rfl⟩

theorem calculateGeometry_iter_width (r : RoboEyes) (k : Nat) :
    (calculateGeometry^[k] r).eyeLwidthNext = r.eyeLwidthNext ∧
    (calculateGeometry^[k] r).eyeLwidthCurrent =
      (smooth r.eyeLwidthNext)^[k] r.eyeLwidthCurrent := by
  induction k with
  | zero => exact ⟨rfl, rfl⟩
  | succ k ih =>
    rw [Function.iterate_succ_apply', Function.iterate_succ_apply']
    rw [(calculateGeometry_width _).1, (calculateGeometry_width _).2, ih.1, ih.2]
    exact ⟨rfl, rfl⟩

/-- C1 (counterexample): after `Begin(device, 128, 64, 50)` and `SetSize(40, 40)` the left eye
is 36 wide and its target is 40; however many smoothing steps `calculateGeometry` makes,
`eyeLwidthCurrent` never equals `eyeLwidthNext`: it goes 36, 38, 39 and stays at 39, because
`(39 + 40) / 2` truncates to 39. -/
theorem C1_counterexample :
    ¬ ∃ k : Nat,
      (calculateGeometry^[k] (SetSize (Begin zeroValue 0 0 128 64 50) 40 40)).eyeLwidthCurrent =
        (calculateGeometry^[k] (SetSize (Begin zeroValue 0 0 128 64 50) 40 40)).eyeLwidthNext := by
  rintro ⟨k, hk⟩
  rw [(calculateGeometry_iter_width _ k).1, (calculateGeometry_iter_width _ k).2] at hk
  have h := smooth_iter_outside 40 (by unfold small16; decide) k 36 (by unfold small16; decide)
    (Or.inl (by decide))
  have e1 : (SetSize (Begin zeroValue 0 0 128 64 50) 40 40).eyeLwidthNext = 40 := rfl
  have e2 : (SetSize (Begin zeroValue 0 0 128 64 50) 40 40).eyeLwidthCurrent = 36 := rfl
  rw [e1, e2] at hk
  omega

/-- C1 (amended): for every state whose `eyeLwidthCurrent` and `eyeLwidthNext` lie in
`[-16384, 16383]` (so that the `int16` sum cannot overflow), iterating `calculateGeometry`
keeps the target `eyeLwidthNext`, makes `|current - next|` non-increasing, brings it to at
most 1 from the 15th step on, and leaves `eyeLwidthCurrent` unchanged from the 16th step on.
The value reached is `next` itself exactly when `next` lies between 0 and the starting value
(`0 <= next <= current` or `current <= next <= 0`); otherwise `current` never equals `next`
(truncation towards zero stops it one unit short). -/
theorem C1_width_smoothing_settles (r : RoboEyes)
    (hc : -16384 ≤ r.eyeLwidthCurrent ∧ r.eyeLwidthCurrent ≤ 16383)
    (hn : -16384 ≤ r.eyeLwidthNext ∧ r.eyeLwidthNext ≤ 16383) :
    (∀ k : Nat, (calculateGeometry^[k] r).eyeLwidthNext = r.eyeLwidthNext) ∧
    (∀ k : Nat,
      ((calculateGeometry^[k + 1] r).eyeLwidthCurrent - r.eyeLwidthNext).natAbs ≤
        ((calculateGeometry^[k] r).eyeLwidthCurrent - r.eyeLwidthNext).natAbs) ∧
    (∀ k : Nat, 15 ≤ k →
      ((calculateGeometry^[k] r).eyeLwidthCurrent - r.eyeLwidthNext).natAbs ≤ 1) ∧
    (∀ k : Nat, 16 ≤ k →
      (calculateGeometry^[k] r).eyeLwidthCurrent = (calculateGeometry^[16] r).eyeLwidthCurrent) ∧
    (((0 ≤ r.eyeLwidthNext ∧ r.eyeLwidthNext ≤ r.eyeLwidthCurrent) ∨
        (r.eyeLwidthCurrent ≤ r.eyeLwidthNext ∧ r.eyeLwidthNext ≤ 0)) →
      ∀ k : Nat, 16 ≤ k → (calculateGeometry^[k] r).eyeLwidthCurrent = r.eyeLwidthNext) ∧
    (¬ ((0 ≤ r.eyeLwidthNext ∧ r.eyeLwidthNext ≤ r.eyeLwidthCurrent) ∨
        (r.eyeLwidthCurrent ≤ r.eyeLwidthNext ∧ r.eyeLwidthNext ≤ 0)) →
      ∀ k : Nat, (calculateGeometry^[k] r).eyeLwidthCurrent ≠ r.eyeLwidthNext) := by
  refine ⟨fun k => (calculateGeometry_iter_width r k).1, ?_, ?_, ?_, ?_, ?_⟩
  · intro k
    rw [(calculateGeometry_iter_width r _).2, (calculateGeometry_iter_width r _).2]
    exact smooth_iter_mono _ hn k _ hc
  · intro k hk
    rw [(calculateGeometry_iter_width r _).2]
    exact smooth_iter_near _ hn _ hc k hk
  · intro k hk
    rw [(calculateGeometry_iter_width r _).2, (calculateGeometry_iter_width r _).2]
    exact smooth_iter_settled _ hn _ hc k hk
  · intro hb k hk
    rw [(calculateGeometry_iter_width r _).2]
    exact smooth_iter_reaches _ hn _ hc hb k hk
  · intro hb k
    rw [(calculateGeometry_iter_width r _).2]
    have h := smooth_iter_outside _ hn k _ hc (by omega)
    omega

/-- C1 (witness): the amended statement applied to the state after `Begin(device, 128, 64, 50)`
and `SetSize(40, 40)`: after 15 steps the width is within 1 of its target. -/
theorem C1_width_smoothing_settles_witness :
    ((calculateGeometry^[15] (SetSize (Begin zeroValue 0 0 128 64 50) 40 40)).eyeLwidthCurrent -
      (SetSize (Begin zeroValue 0 0 128 64 50) 40 40).eyeLwidthNext).natAbs ≤ 1 :=
  (C1_width_smoothing_settles (SetSize (Begin zeroValue 0 0 128 64 50) 40 40)
    (by decide) (by decide)).2.2.1 15 (le_refl _)

/-! ## The random intervals of the scheduler -/

theorem intn_zero (raw : Nat) : intn 0 raw = Except.error Fault.panic := rfl

theorem intn_cases (n : Int) (raw : Nat) :
    intn n raw = Except.error Fault.panic ∨ ∃ v, intn n raw = Except.ok v := by
  unfold intn; split
  · exact Or.inl rfl
  · exact Or.inr ⟨_, rfl⟩

theorem handleAnimationsIdle_zero_variation (g : Draws) (now : Nat) (r : RoboEyes)
    (h1 : r.idle = true) (h2 : r.idleIntervalVariation = 0) (h3 : r.idleAnimationTimer ≤ now) :
    handleAnimationsIdle g now r = Except.error Fault.panic := by
  unfold handleAnimationsIdle
  rw [if_pos ⟨h1, h3⟩]
  rcases intn_cases (GetScreenConstraintX r) g.idleX with hx | ⟨vx, hx⟩
  · rw [hx]; rfl
  · rw [hx]
    show (do
      let vy ← intn (GetScreenConstraintY { r with eyeLxNext := wrap16 vx }) g.idleY
      let vt ← intn (intOfUint32 r.idleIntervalVariation) g.idleT
      (pure _ : Except Fault RoboEyes)) = _
    rcases intn_cases (GetScreenConstraintY { r with eyeLxNext := wrap16 vx }) g.idleY with
      hy | ⟨vy, hy⟩
    · rw [hy]; rfl
    · rw [hy, h2]; rfl

theorem handleAnimationsBlink_zero_variation (g : Draws) (now : Nat) (r : RoboEyes)
    (h1 : r.autoblinker = true) (h2 : r.blinkIntervalVariation = 0) (h3 : r.blinktimer ≤ now) :
    handleAnimationsBlink g now r = Except.error Fault.panic := by
  unfold handleAnimationsBlink
  rw [if_pos ⟨h1, h3⟩]
  show (do
      let v ← intn (intOfUint32 r.blinkIntervalVariation) g.blink
      (pure _ : Except Fault RoboEyes)) = _
  rw [h2]; rfl

theorem handleAnimationsBlink_idle (g : Draws) (now : Nat) (r : RoboEyes) :
    handleAnimationsBlink g now r = Except.error Fault.panic ∨
    ∃ r1, handleAnimationsBlink g now r = Except.ok r1 ∧ r1.idle = r.idle ∧
      r1.idleIntervalVariation = r.idleIntervalVariation ∧
      r1.idleAnimationTimer = r.idleAnimationTimer := by
  unfold handleAnimationsBlink
  split
  · rcases intn_cases (intOfUint32 r.blinkIntervalVariation) g.blink with h | ⟨v, h⟩
    · left
      show (do
        let v ← intn (intOfUint32 r.blinkIntervalVariation) g.blink
        (pure _ : Except Fault RoboEyes)) = _
      rw [h]; rfl
    · right
      refine ⟨{ Blink r with
        blinktimer := add32 (add32 now (Blink r).blinkInterval) (uint32OfInt v) }, ?_, ?_⟩
      · show (do
          let v ← intn (intOfUint32 r.blinkIntervalVariation) g.blink
          (pure _ : Except Fault RoboEyes)) = _
        rw [h]; rfl
      · exact ⟨rfl, rfl, rfl⟩
  · exact Or.inr ⟨r, rfl, rfl, rfl, rfl⟩

theorem handleAnimationsLaugh_idle (now : Nat) (r : RoboEyes) :
    (handleAnimationsLaugh now r).idle = r.idle ∧
    (handleAnimationsLaugh now r).idleIntervalVariation = r.idleIntervalVariation ∧
    (handleAnimationsLaugh now r).idleAnimationTimer = r.idleAnimationTimer := by
  unfold handleAnimationsLaugh; dsimp only; split_ifs <;> exact ⟨rfl, rfl, rfl⟩

theorem handleAnimationsConfused_idle (now : Nat) (r : RoboEyes) :
    (handleAnimationsConfused now r).idle = r.idle ∧
    (handleAnimationsConfused now r).idleIntervalVariation = r.idleIntervalVariation ∧
    (handleAnimationsConfused now r).idleAnimationTimer = r.idleAnimationTimer := by
  unfold handleAnimationsConfused; dsimp only; split_ifs <;> exact ⟨rfl, rfl, rfl⟩

/-- C2: `handleAnimations` calls `rand.Intn` with the interval variation as its bound, so with a
variation of 0 it panics instead of taking the fixed interval: whenever the idle animation
fires (idle on, `now >= idleAnimationTimer`) with `idleIntervalVariation = 0`, or the
autoblinker fires with `blinkIntervalVariation = 0`, the call faults with a panic, for every
state, every clock reading and every outcome of the random draws. -/
theorem C2_zero_variation_panics (g : Draws) (now : Nat) (r : RoboEyes)
    (h : (r.idle = true ∧ r.idleIntervalVariation = 0 ∧ r.idleAnimationTimer ≤ now) ∨
         (r.autoblinker = true ∧ r.blinkIntervalVariation = 0 ∧ r.blinktimer ≤ now)) :
    handleAnimations g now r = Except.error Fault.panic := by
  unfold handleAnimations
  rcases h with ⟨h1, h2, h3⟩ | ⟨h1, h2, h3⟩
  · rcases handleAnimationsBlink_idle g now r with hb | ⟨r1, hb, e1, e2, e3⟩
    · rw [hb]; rfl
    · rw [hb]
      show (do
        let r ← handleAnimationsIdle g now
          (handleAnimationsConfused now (handleAnimationsLaugh now r1))
        (pure _ : Except Fault RoboEyes)) = _
      rw [handleAnimationsIdle_zero_variation g now _
        (by rw [(handleAnimationsConfused_idle _ _).1, (handleAnimationsLaugh_idle _ _).1, e1, h1])
        (by rw [(handleAnimationsConfused_idle _ _).2.1, (handleAnimationsLaugh_idle _ _).2.1,
          e2, h2])
        (by rw [(handleAnimationsConfused_idle _ _).2.2, (handleAnimationsLaugh_idle _ _).2.2,
          e3]; exact h3)]
      rfl
  · rw [handleAnimationsBlink_zero_variation g now r h1 h2 h3]; rfl

/-- C2 (witness): after `Begin(device, 128, 64, 50)` and `SetIdleModeWithInterval(true, 2, 0)`
the frame at clock reading 2000 panics in `handleAnimations`. -/
theorem C2_zero_variation_panics_witness :
    handleAnimations ⟨7, 7, 7, 7⟩ 2000
      (SetIdleModeWithInterval (Begin zeroValue 0 0 128 64 50) true 2 0) =
      Except.error Fault.panic :=
  C2_zero_variation_panics _ 2000 _ (Or.inl (by decide))

/-! ## The rasterizer and the bounds of the screen -/

/-- C3: `drawFastHLine` clamps only the right end of its span, so calls of `SetPixel` with
coordinates outside the screen are made: by `drawFastHLine` itself, by `fillCircle` and
`fillRoundRect` which draw through it, and by a whole frame `DrawEyes` on the 128 x 64 screen
after `Begin` and `SetHFlicker(true, 40)`. -/
theorem C3_SetPixel_outside_screen :
    (⟨-5, -3, ⟨255, 255, 255, 255⟩⟩ : PixelWrite) ∈
      drawFastHLine (Begin zeroValue 0 0 128 64 50) (-5) (-3) 10 ⟨255, 255, 255, 255⟩ ∧
    (⟨-12, 26, ⟨255, 255, 255, 255⟩⟩ : PixelWrite) ∈
      fillCircle (Begin zeroValue 0 0 128 64 50) (-4) 26 8 1 ⟨255, 255, 255, 255⟩ ∧
    (⟨-12, 26, ⟨255, 255, 255, 255⟩⟩ : PixelWrite) ∈
      fillRoundRect (Begin zeroValue 0 0 128 64 50) (-12) 18 36 18 8 ⟨255, 255, 255, 255⟩ ∧
    DeviceCall.setPixel ⟨-12, 26, ⟨255, 255, 255, 255⟩⟩ ∈
      callsOf (DrawEyes (fun _ _ _ => 0) none ⟨0, 0, 0, 0⟩ 20
        (SetHFlicker (Begin zeroValue 0 0 128 64 50) true 40)) := by
  refine ⟨?_, ?_, ?_, ?_⟩ <;> decide

/-! ## The render entry points -/

theorem DrawEyes_eq (lerp : Int → Int → Int → Int) (display : Option Nat) (g : Draws)
    (t : Nat) (r : RoboEyes) :
    DrawEyes lerp display g t r =
      match handleAnimations g t (calculateGeometry r) with
      | Except.error e => Except.error e
      | Except.ok r1 =>
        if r1.device = none then Except.error Fault.panic
        else
          match drawEyelidsRender lerp (drawEyelidsSmooth (drawEyelidsTargets r1)) with
          | Except.error e => Except.error e
          | Except.ok lids =>
            Except.ok (drawEyelidsSmooth (drawEyelidsTargets r1),
              DeviceCall.clearBuffer ::
                ((drawEyeShapes r1 ++ lids).map DeviceCall.setPixel ++
                  [DeviceCall.display])) := by
  unfold DrawEyes drawEyelids
  cases h1 : handleAnimations g t (calculateGeometry r) with
  | error e => simp only [h1]; rfl
  | ok r1 =>
    simp only [h1]
    by_cases hd : r1.device = none
    · show (if r1.device = none then Except.error Fault.panic else _) = _
      rw [if_pos hd, if_pos hd]
    · show (if r1.device = none then Except.error Fault.panic else _) = _
      rw [if_neg hd, if_neg hd]
      cases h2 : drawEyelidsRender lerp (drawEyelidsSmooth (drawEyelidsTargets r1)) with
      | error e => rfl
      | ok lids => rfl

theorem sub32_int (a b : Nat) : ((sub32 a b : Nat) : Int) = ((a : Int) - (b : Int)) % 4294967296 := by
  unfold sub32; omega

theorem DrawEyes_ok_calls (lerp : Int → Int → Int → Int) (display : Option Nat) (g : Draws)
    (t : Nat) (r : RoboEyes) (out : RoboEyes × List DeviceCall)
    (h : DrawEyes lerp display g t r = Except.ok out) :
    ∃ px : List PixelWrite,
      out.2 = DeviceCall.clearBuffer :: (px.map DeviceCall.setPixel ++ [DeviceCall.display]) := by
  rw [DrawEyes_eq] at h
  cases h1 : handleAnimations g t (calculateGeometry r) with
  | error e => rw [h1] at h; cases h
  | ok r1 =>
    rw [h1] at h
    dsimp only at h
    by_cases hd : r1.device = none
    · rw [if_pos hd] at h; cases h
    · rw [if_neg hd] at h
      cases h2 : drawEyelidsRender lerp (drawEyelidsSmooth (drawEyelidsTargets r1)) with
      | error e => rw [h2] at h; cases h
      | ok lids =>
        rw [h2] at h
        cases h
        exact ⟨_, rfl⟩

theorem frame_calls_shape (px : List PixelWrite) :
    (DeviceCall.clearBuffer ::
      (px.map DeviceCall.setPixel ++ [DeviceCall.display])).count DeviceCall.clearBuffer = 1 ∧
    (DeviceCall.clearBuffer ::
      (px.map DeviceCall.setPixel ++ [DeviceCall.display])).count DeviceCall.display = 1 ∧
    (DeviceCall.clearBuffer ::
      (px.map DeviceCall.setPixel ++ [DeviceCall.display])).getLast? = some DeviceCall.display := by
  have h1 : (px.map DeviceCall.setPixel).count DeviceCall.clearBuffer = 0 := by
    rw [List.count_eq_zero]; simp
  have h2 : (px.map DeviceCall.setPixel).count DeviceCall.display = 0 := by
    rw [List.count_eq_zero]; simp
  refine ⟨?_, ?_, ?_⟩
  · rw [List.count_cons_self, List.count_append, h1]; rfl
  · rw [List.count_cons_of_ne (by decide), List.count_append, h2]; rfl
  · rw [← List.cons_append, List.getLast?_append]; rfl

/-- C4 (counterexample): on the state after `Begin(device, 128, 64, 50)` the frame drawn by
`DrawEyes` completes and calls `Display()`, and nothing the caller can observe of `DrawEyes`
tells a failed `Display()` (error 1) from a successful one: no test on the outcome of
`DrawEyes` reports the failure. -/
theorem C4_counterexample :
    DeviceCall.display ∈
      callsOf (DrawEyes (fun _ _ _ => 0) (some 1) ⟨0, 0, 0, 0⟩ 20
        (Begin zeroValue 0 0 128 64 50)) ∧
    ¬ ∃ reported : Except Fault (RoboEyes × List DeviceCall) → Bool,
      reported (DrawEyes (fun _ _ _ => 0) (some 1) ⟨0, 0, 0, 0⟩ 20
        (Begin zeroValue 0 0 128 64 50)) = true ∧
      reported (DrawEyes (fun _ _ _ => 0) none ⟨0, 0, 0, 0⟩ 20
        (Begin zeroValue 0 0 128 64 50)) = false := by
  constructor
  · decide
  · rintro ⟨reported, h1, h2⟩
    have e : DrawEyes (fun _ _ _ => 0) (some 1) ⟨0, 0, 0, 0⟩ 20 (Begin zeroValue 0 0 128 64 50) =
        DrawEyes (fun _ _ _ => 0) none ⟨0, 0, 0, 0⟩ 20 (Begin zeroValue 0 0 128 64 50) := rfl
    rw [e, h2] at h1
    cases h1

/-- C4 (amended): `DrawEyes` and `Update` have no result and drop the value returned by
`device.Display()`: for every state, clock and random draws their outcome (new state and device
calls) is the same whatever `Display()` returns, so a flush failure is not reported to the
caller; and a frame that completes calls `Display()` exactly once, as its last device call
(there is no retry). -/
theorem C4_display_result_dropped (lerp : Int → Int → Int → Int) (e1 e2 : Option Nat)
    (g : Draws) (t td : Nat) (r : RoboEyes) :
    DrawEyes lerp e1 g t r = DrawEyes lerp e2 g t r ∧
    Update lerp e1 g t td r = Update lerp e2 g t td r ∧
    ∀ out : RoboEyes × List DeviceCall, DrawEyes lerp e1 g t r = Except.ok out →
      out.2.count DeviceCall.display = 1 ∧ out.2.getLast? = some DeviceCall.display := by
  refine ⟨rfl, rfl, ?_⟩
  intro out h
  obtain ⟨px, hpx⟩ := DrawEyes_ok_calls lerp e1 g t r out h
  rw [hpx]
  exact ⟨(frame_calls_shape px).2.1, (frame_calls_shape px).2.2⟩

theorem device_calculateGeometry (r : RoboEyes) :
    (calculateGeometry r).device = r.device := by
  have h1 : ∀ s : RoboEyes, (calculateGeometryCurious s).device = s.device := by
    intro s; unfold calculateGeometryCurious; dsimp only; split_ifs <;> rfl
  have h2 : ∀ s : RoboEyes, (calculateGeometryReopen s).device = s.device := by
    intro s; unfold calculateGeometryReopen; dsimp only; split_ifs <;> rfl
  have h3 : ∀ s : RoboEyes, (calculateGeometryRadius s).device = s.device := fun _ => rfl
  have h4 : ∀ s : RoboEyes, (calculateGeometryPosition s).device = s.device := fun _ => rfl
  have h5 : ∀ s : RoboEyes, (calculateGeometryWidth s).device = s.device := fun _ => rfl
  have h6 : ∀ s : RoboEyes, (calculateGeometryHeightR s).device = s.device := fun _ => rfl
  have h7 : ∀ s : RoboEyes, (calculateGeometryHeightL s).device = s.device := fun _ => rfl
  unfold calculateGeometry
  rw [h3, h4, h5, h2, h6, h7, h1]

theorem device_schedulerBlocks (t : Nat) (r : RoboEyes) :
    (handleAnimationsLaugh t r).device = r.device ∧
    (handleAnimationsConfused t r).device = r.device ∧
    (handleAnimationsHFlicker r).device = r.device ∧
    (handleAnimationsVFlicker r).device = r.device ∧
    (handleAnimationsCyclops r).device = r.device := by
  refine ⟨?_, ?_, ?_, ?_, ?_⟩
  · unfold handleAnimationsLaugh; dsimp only; split_ifs <;> rfl
  · unfold handleAnimationsConfused; dsimp only; split_ifs <;> rfl
  · unfold handleAnimationsHFlicker; dsimp only; split_ifs <;> rfl
  · unfold handleAnimationsVFlicker; dsimp only; split_ifs <;> rfl
  · unfold handleAnimationsCyclops; split_ifs <;> rfl

theorem device_drawEyelids (r : RoboEyes) :
    (drawEyelidsSmooth (drawEyelidsTargets r)).device = r.device := by
  have h : (drawEyelidsTargets r).device = r.device := by
    unfold drawEyelidsTargets; dsimp only; split_ifs <;> rfl
  exact h

theorem gateView_calculateGeometryCurious (r : RoboEyes) :
    gateView (calculateGeometryCurious r) = gateView r := by
  unfold calculateGeometryCurious gateView; dsimp only; split_ifs <;> rfl

theorem gateView_calculateGeometryReopen (r : RoboEyes) :
    gateView (calculateGeometryReopen r) = gateView r := by
  unfold calculateGeometryReopen gateView; dsimp only; split_ifs <;> rfl

theorem gateView_calculateGeometry (r : RoboEyes) :
    gateView (calculateGeometry r) = gateView r := by
  unfold calculateGeometry
  have h1 : ∀ s, gateView (calculateGeometryRadius s) = gateView s := fun _ => rfl
  have h2 : ∀ s, gateView (calculateGeometryPosition s) = gateView s := fun _ => rfl
  have h3 : ∀ s, gateView (calculateGeometryWidth s) = gateView s := fun _ => rfl
  have h4 : ∀ s, gateView (calculateGeometryHeightR s) = gateView s := fun _ => rfl
  have h5 : ∀ s, gateView (calculateGeometryHeightL s) = gateView s := fun _ => rfl
  rw [h1, h2, h3, gateView_calculateGeometryReopen, h4, h5, gateView_calculateGeometryCurious]

theorem gateView_handleAnimationsLaugh (t : Nat) (r : RoboEyes) :
    gateView (handleAnimationsLaugh t r) = gateView r := by
  unfold handleAnimationsLaugh gateView; dsimp only; split_ifs <;> rfl

theorem gateView_handleAnimationsConfused (t : Nat) (r : RoboEyes) :
    gateView (handleAnimationsConfused t r) = gateView r := by
  unfold handleAnimationsConfused gateView; dsimp only; split_ifs <;> rfl

theorem gateView_handleAnimationsHFlicker (r : RoboEyes) :
    gateView (handleAnimationsHFlicker r) = gateView r := by
  unfold handleAnimationsHFlicker gateView; dsimp only; split_ifs <;> rfl

theorem gateView_handleAnimationsVFlicker (r : RoboEyes) :
    gateView (handleAnimationsVFlicker r) = gateView r := by
  unfold handleAnimationsVFlicker gateView; dsimp only; split_ifs <;> rfl

theorem gateView_handleAnimationsCyclops (r : RoboEyes) :
    gateView (handleAnimationsCyclops r) = gateView r := by
  unfold handleAnimationsCyclops gateView; split_ifs <;> rfl

theorem quiet_of_gateView (r s : RoboEyes) (h : gateView s = gateView r) (hq : quiet r) :
    quiet s ∧ s.frameInterval = r.frameInterval ∧ s.fpsTimer = r.fpsTimer := by
  unfold gateView at h
  simp only [Prod.mk.injEq] at h
  obtain ⟨h1, h2, h3, h4, h5, h6, h7, h8⟩ := h
  unfold quiet at *
  rw [h3, h4, h5, h6, h7, h8]
  exact ⟨hq, h1, h2⟩

theorem handleAnimations_quiet (g : Draws) (t : Nat) (r : RoboEyes)
    (h1 : r.autoblinker = false) (h2 : r.idle = false) :
    ∃ r1, handleAnimations g t r = Except.ok r1 ∧ gateView r1 = gateView r ∧
      r1.device = r.device := by
  have hb : handleAnimationsBlink g t r = Except.ok r := by
    unfold handleAnimationsBlink
    rw [if_neg (by rw [h1]; simp)]; rfl
  have hi : handleAnimationsIdle g t (handleAnimationsConfused t (handleAnimationsLaugh t r)) =
      Except.ok (handleAnimationsConfused t (handleAnimationsLaugh t r)) := by
    have e : (handleAnimationsConfused t (handleAnimationsLaugh t r)).idle = false := by
      have := gateView_handleAnimationsConfused t (handleAnimationsLaugh t r)
      rw [gateView_handleAnimationsLaugh] at this
      unfold gateView at this
      simp only [Prod.mk.injEq] at this
      rw [this.2.2.2.1, h2]
    unfold handleAnimationsIdle
    rw [if_neg (by rw [e]; simp)]; rfl
  refine ⟨handleAnimationsCyclops (handleAnimationsVFlicker (handleAnimationsHFlicker
    (handleAnimationsConfused t (handleAnimationsLaugh t r)))), ?_, ?_, ?_⟩
  · unfold handleAnimations
    rw [hb]
    show (do
      let r ← handleAnimationsIdle g t (handleAnimationsConfused t (handleAnimationsLaugh t r))
      (pure _ : Except Fault RoboEyes)) = _
    rw [hi]; rfl
  · rw [gateView_handleAnimationsCyclops, gateView_handleAnimationsVFlicker,
      gateView_handleAnimationsHFlicker, gateView_handleAnimationsConfused,
      gateView_handleAnimationsLaugh]
  · rw [(device_schedulerBlocks t _).2.2.2.2, (device_schedulerBlocks t _).2.2.2.1,
      (device_schedulerBlocks t _).2.2.1, (device_schedulerBlocks t _).2.1,
      (device_schedulerBlocks t _).1]

theorem drawEyelidsTargets_next (r : RoboEyes) :
    (drawEyelidsTargets r).eyelidsTiredHeightNext =
      (if r.tired then div16 r.eyeLheightCurrent 2 else 0) ∧
    (drawEyelidsTargets r).eyelidsAngryHeightNext =
      (if r.tired then 0 else if r.angry then div16 r.eyeLheightCurrent 2 else 0) ∧
    (drawEyelidsTargets r).eyelidsTiredHeight = r.eyelidsTiredHeight ∧
    (drawEyelidsTargets r).eyelidsAngryHeight = r.eyelidsAngryHeight ∧
    (drawEyelidsTargets r).frameInterval = r.frameInterval ∧
    (drawEyelidsTargets r).fpsTimer = r.fpsTimer ∧
    (drawEyelidsTargets r).autoblinker = r.autoblinker ∧
    (drawEyelidsTargets r).idle = r.idle ∧
    (drawEyelidsTargets r).tired = r.tired ∧
    (drawEyelidsTargets r).angry = r.angry := by
  unfold drawEyelidsTargets; dsimp only
  split_ifs <;> exact ⟨rfl, rfl, rfl, rfl, rfl, rfl, rfl, rfl, rfl, rfl⟩

theorem drawEyelids_quiet (r : RoboEyes) (hq : quiet r) :
    gateView (drawEyelidsSmooth (drawEyelidsTargets r)) = gateView r := by
  obtain ⟨h1, h2, h3, h4, h5, h6⟩ := hq
  obtain ⟨e1, e2, e3, e4, e5, e6, e7, e8, e9, e10⟩ := drawEyelidsTargets_next r
  rw [h3] at e1 e2
  rw [h4] at e2
  simp only [Bool.false_eq_true, if_false] at e1 e2
  show ((drawEyelidsTargets r).frameInterval, (drawEyelidsTargets r).fpsTimer,
    (drawEyelidsTargets r).autoblinker, (drawEyelidsTargets r).idle,
    (drawEyelidsTargets r).tired, (drawEyelidsTargets r).angry,
    div16 (add16 (drawEyelidsTargets r).eyelidsTiredHeight
      (drawEyelidsTargets r).eyelidsTiredHeightNext) 2,
    div16 (add16 (drawEyelidsTargets r).eyelidsAngryHeight
      (drawEyelidsTargets r).eyelidsAngryHeightNext) 2) = gateView r
  rw [e1, e2, e3, e4, e5, e6, e7, e8, e9, e10, h5, h6]
  have hz : div16 (add16 0 0) 2 = 0 := by decide
  rw [hz]; unfold gateView; rw [h5, h6]

theorem drawEyelidsRender_quiet (lerp : Int → Int → Int → Int) (r : RoboEyes)
    (h5 : r.eyelidsTiredHeight = 0) (h6 : r.eyelidsAngryHeight = 0) :
    ∃ px, drawEyelidsRender lerp r = Except.ok px := by
  unfold drawEyelidsRender
  dsimp only
  rw [h5, h6]
  simp only [gt_iff_lt, lt_self_iff_false, if_false]
  exact ⟨_, rfl⟩

theorem DrawEyes_quiet (lerp : Int → Int → Int → Int) (display : Option Nat) (g : Draws)
    (t : Nat) (r : RoboEyes) (hq : quiet r) (hd : r.device ≠ none) :
    ∃ (r1 : RoboEyes) (px : List PixelWrite), DrawEyes lerp display g t r = Except.ok (r1,
        DeviceCall.clearBuffer :: (px.map DeviceCall.setPixel ++ [DeviceCall.display])) ∧
      gateView r1 = gateView r ∧ r1.device = r.device := by
  have hg := gateView_calculateGeometry r
  obtain ⟨hq0, hf0, _⟩ := quiet_of_gateView r _ hg hq
  obtain ⟨r1, hr1, hg1, hd1⟩ := handleAnimations_quiet g t (calculateGeometry r) hq0.1 hq0.2.1
  rw [device_calculateGeometry] at hd1
  obtain ⟨hq1, _, _⟩ := quiet_of_gateView _ r1 hg1 hq0
  have hg2 := drawEyelids_quiet r1 hq1
  obtain ⟨hq2, _, _⟩ := quiet_of_gateView _ _ hg2 hq1
  obtain ⟨lids, hl⟩ := drawEyelidsRender_quiet lerp _ hq2.2.2.2.2.1 hq2.2.2.2.2.2
  refine ⟨drawEyelidsSmooth (drawEyelidsTargets r1), drawEyeShapes r1 ++ lids, ?_, ?_, ?_⟩
  · rw [DrawEyes_eq, hr1]; dsimp only; rw [if_neg (by rw [hd1]; exact hd), hl]
  · rw [hg2, hg1, hg]
  · rw [device_drawEyelids, hd1]

theorem updateTicks_cons (lerp : Int → Int → Int → Int) (display : Nat → Option Nat)
    (g : Nat → Draws) (drawClock : Nat → Nat) (t : Nat) (ts : List Nat) (r : RoboEyes) :
    updateTicks lerp display g drawClock (t :: ts) r =
      match Update lerp (display t) (g t) t (drawClock t) r with
      | Except.error e => Except.error e
      | Except.ok (r1, calls) =>
        match updateTicks lerp display g drawClock ts r1 with
        | Except.error e => Except.error e
        | Except.ok (r2, drawn) => Except.ok (r2, if calls = [] then drawn else t :: drawn) :=
  rfl

theorem Update_closed (lerp : Int → Int → Int → Int) (display : Option Nat) (g : Draws)
    (t td : Nat) (r : RoboEyes) (h : sub32 t r.fpsTimer < r.frameInterval) :
    Update lerp display g t td r = Except.ok (r, []) := by
  unfold Update
  rw [if_neg (by omega)]; rfl

theorem Update_open (lerp : Int → Int → Int → Int) (display : Option Nat) (g : Draws)
    (t td : Nat) (r : RoboEyes) (h : ¬ sub32 t r.fpsTimer < r.frameInterval) :
    Update lerp display g t td r =
      (DrawEyes lerp display g td r).map (fun out => ({ out.1 with fpsTimer := t }, out.2)) := by
  unfold Update
  rw [if_pos (by omega)]
  cases DrawEyes lerp display g td r with
  | error e => rfl
  | ok out => rfl

theorem updateTicks_quiet (lerp : Int → Int → Int → Int) (display : Nat → Option Nat)
    (g : Nat → Draws) (drawClock : Nat → Nat) (n : Nat) :
    ∀ (a : Nat) (r : RoboEyes), quiet r → r.device ≠ none → r.frameInterval = 20 →
      r.fpsTimer % 20 = 0 → r.fpsTimer < a → a ≤ r.fpsTimer + 20 → a + n ≤ 4294967296 →
      ∃ r1, updateTicks lerp display g drawClock (List.range' a n) r =
        Except.ok (r1, (List.range' a n).filter (fun t => t % 20 = 0)) := by
  induction n with
  | zero => intro a r _ _ _ _ _ _ _; exact ⟨r, rfl⟩
  | succ n ih =>
    intro a r hq hdev hf hm h1 h2 h3
    rw [List.range'_succ]
    have hs : sub32 a r.fpsTimer = a - r.fpsTimer := by unfold sub32; omega
    by_cases hc : a < r.fpsTimer + 20
    · have hu := Update_closed lerp (display a) (g a) a (drawClock a) r (by rw [hs, hf]; omega)
      obtain ⟨r1, hr1⟩ := ih (a + 1) r hq hdev hf hm (by omega) (by omega) (by omega)
      refine ⟨r1, ?_⟩
      rw [updateTicks_cons, hu]; dsimp only; rw [hr1]; dsimp only
      rw [List.filter_cons_of_neg (by simp; omega)]
      simp
    · have hu := Update_open lerp (display a) (g a) a (drawClock a) r (by rw [hs, hf]; omega)
      obtain ⟨r0, px, hd, hg0, hd0⟩ := DrawEyes_quiet lerp (display a) (g a) (drawClock a) r hq
        hdev
      rw [hd] at hu
      obtain ⟨hq0, hf0, _⟩ := quiet_of_gateView r r0 hg0 hq
      obtain ⟨r1, hr1⟩ := ih (a + 1) { r0 with fpsTimer := a } hq0
        (by show r0.device ≠ none; rw [hd0]; exact hdev) (by rw [← hf]; exact hf0)
        (by show a % 20 = 0; omega) (by show a < a + 1; omega) (by show a + 1 ≤ a + 20; omega)
        (by omega)
      refine ⟨r1, ?_⟩
      rw [updateTicks_cons, hu]; dsimp only [Except.map]; rw [hr1]; dsimp only
      rw [List.filter_cons_of_pos (by simp; omega)]
      simp

theorem updateTicks_skip (lerp : Int → Int → Int → Int) (display : Nat → Option Nat)
    (g : Nat → Draws) (drawClock : Nat → Nat) (t : Nat) (ts : List Nat) (r r1 : RoboEyes)
    (drawn : List Nat)
    (hu : Update lerp (display t) (g t) t (drawClock t) r = Except.ok (r, []))
    (h : updateTicks lerp display g drawClock ts r = Except.ok (r1, drawn)) :
    updateTicks lerp display g drawClock (t :: ts) r = Except.ok (r1, drawn) := by
  rw [updateTicks_cons, hu]; dsimp only; rw [h]; rfl

theorem Begin_quiet (now device : Nat) :
    quiet (Begin zeroValue now device 128 64 50) ∧
    (Begin zeroValue now device 128 64 50).frameInterval = 20 ∧
    (Begin zeroValue now device 128 64 50).fpsTimer = 0 :=
  ⟨⟨rfl, rfl, rfl, rfl, rfl, rfl⟩, rfl, rfl⟩

theorem multiples_of_twenty :
    (List.range' 1 1000).filter (fun t => t % 20 = 0) =
      (List.range 50).map (fun k => 20 * (k + 1)) ∧
    (List.range' 1 999).filter (fun t => t % 20 = 0) =
      (List.range 49).map (fun k => 20 * (k + 1)) := by
  constructor <;> decide

/-- C6: from the state produced by `Begin(device, 128, 64, 50)` on a fresh instance, calling
`Update` once at each clock reading 1, 2, ..., 1000 completes and performs a draw pass exactly
at the readings 20, 40, ..., 1000, that is 50 draw passes; with the readings 0..1000 the draw
passes are the same 50, with the readings 0..999 they are the 49 passes at 20, ..., 980.  This
holds whatever `Display()` returns, whatever the random source and the floating point unit
yield and whenever `DrawEyes` reads the clock. -/
theorem C6_fifty_draw_passes (lerp : Int → Int → Int → Int) (display : Nat → Option Nat)
    (g : Nat → Draws) (drawClock : Nat → Nat) (now device : Nat) :
    (∃ r1, updateTicks lerp display g drawClock (List.range' 1 1000)
        (Begin zeroValue now device 128 64 50) =
      Except.ok (r1, (List.range 50).map (fun k => 20 * (k + 1)))) ∧
    (∃ r1, updateTicks lerp display g drawClock (List.range 1001)
        (Begin zeroValue now device 128 64 50) =
      Except.ok (r1, (List.range 50).map (fun k => 20 * (k + 1)))) ∧
    (∃ r1, updateTicks lerp display g drawClock (List.range 1000)
        (Begin zeroValue now device 128 64 50) =
      Except.ok (r1, (List.range 49).map (fun k => 20 * (k + 1)))) ∧
    ((List.range 50).map (fun k => 20 * (k + 1))).length = 50 := by
  obtain ⟨hq, hf, ht⟩ := Begin_quiet now device
  have h0 : Update lerp (display 0) (g 0) 0 (drawClock 0) (Begin zeroValue now device 128 64 50) =
      Except.ok (Begin zeroValue now device 128 64 50, []) :=
    Update_closed _ _ _ _ _ _ (by rw [hf, ht]; decide)
  have hdev : (Begin zeroValue now device 128 64 50).device ≠ none := fun h => by cases h
  obtain ⟨r1, h1⟩ := updateTicks_quiet lerp display g drawClock 1000 1 _ hq hdev hf
    (by rw [ht]) (by rw [ht]; decide) (by rw [ht]; decide) (by decide)
  obtain ⟨r2, h2⟩ := updateTicks_quiet lerp display g drawClock 999 1 _ hq hdev hf
    (by rw [ht]) (by rw [ht]; decide) (by rw [ht]; decide) (by decide)
  rw [multiples_of_twenty.1] at h1
  rw [multiples_of_twenty.2] at h2
  refine ⟨⟨r1, h1⟩, ⟨r1, ?_⟩, ⟨r2, ?_⟩, by simp⟩
  · have e : List.range 1001 = 0 :: List.range' 1 1000 := by decide
    rw [e]
    exact updateTicks_skip lerp display g drawClock 0 _ _ r1 _ h0 h1
  · have e : List.range 1000 = 0 :: List.range' 1 999 := by decide
    rw [e]
    exact updateTicks_skip lerp display g drawClock 0 _ _ r2 _ h0 h2

/-- C5: the frame gate of `Update`.  For every state and clock reading `t`: when
`(t - fpsTimer) mod 2^32 < frameInterval`, `Update` returns the state unchanged and makes no
device call; otherwise `Update` is one run of `DrawEyes` followed by `fpsTimer = t` (it faults
exactly when `DrawEyes` faults), and when it returns, `fpsTimer = t` and the device received
exactly one `ClearBuffer` and one `Display`, i.e. exactly one draw pass. -/
theorem C5_update_frame_gate (lerp : Int → Int → Int → Int) (display : Option Nat) (g : Draws)
    (t td : Nat) (r : RoboEyes) :
    (((t : Int) - (r.fpsTimer : Int)) % 4294967296 < (r.frameInterval : Int) →
      Update lerp display g t td r = Except.ok (r, [])) ∧
    (¬ ((t : Int) - (r.fpsTimer : Int)) % 4294967296 < (r.frameInterval : Int) →
      Update lerp display g t td r =
        (DrawEyes lerp display g td r).map
          (fun out => ({ out.1 with fpsTimer := t }, out.2)) ∧
      ∀ out : RoboEyes × List DeviceCall, Update lerp display g t td r = Except.ok out →
        out.1.fpsTimer = t ∧ out.2.count DeviceCall.clearBuffer = 1 ∧
        out.2.count DeviceCall.display = 1) := by
  have hs := sub32_int t r.fpsTimer
  constructor
  · intro h
    exact Update_closed lerp display g t td r (by omega)
  · intro h
    have hu := Update_open lerp display g t td r (by omega)
    refine ⟨hu, ?_⟩
    intro out ho
    rw [hu] at ho
    cases hd : DrawEyes lerp display g td r with
    | error e => rw [hd] at ho; cases ho
    | ok o =>
      rw [hd] at ho
      obtain ⟨px, hpx⟩ := DrawEyes_ok_calls lerp display g td r o hd
      cases ho
      refine ⟨rfl, ?_, ?_⟩
      · show o.2.count _ = 1
        rw [hpx]; exact (frame_calls_shape px).1
      · show o.2.count _ = 1
        rw [hpx]; exact (frame_calls_shape px).2.1

/-- C5 (witness): on the state after `Begin(device, 128, 64, 50)` the gate is closed at clock
reading 19 and open at clock reading 20. -/
theorem C5_update_frame_gate_witness :
    Update (fun _ _ _ => 0) none ⟨0, 0, 0, 0⟩ 19 19 (Begin zeroValue 0 0 128 64 50) =
      Except.ok (Begin zeroValue 0 0 128 64 50, []) ∧
    Update (fun _ _ _ => 0) none ⟨0, 0, 0, 0⟩ 20 20 (Begin zeroValue 0 0 128 64 50) =
      (DrawEyes (fun _ _ _ => 0) none ⟨0, 0, 0, 0⟩ 20 (Begin zeroValue 0 0 128 64 50)).map
        (fun out => ({ out.1 with fpsTimer := 20 }, out.2)) :=
  ⟨(C5_update_frame_gate (fun _ _ _ => 0) none ⟨0, 0, 0, 0⟩ 19 19
      (Begin zeroValue 0 0 128 64 50)).1 (by decide),
   ((C5_update_frame_gate (fun _ _ _ => 0) none ⟨0, 0, 0, 0⟩ 20 20
      (Begin zeroValue 0 0 128 64 50)).2 (by decide)).1⟩

/-! ## The mutators -/

/-- C7: `SetFramerate(fps)` with `fps > 0` (written `fps + 1`) sets `frameInterval` to
`1000 / fps` and changes no other field; `SetFramerate(0)` leaves the state unchanged;
`Begin(device, 128, 64, 50)` yields `frameInterval = 20`, and `Begin` with a frame rate of 0
yields the default 20, from any prior state. -/
theorem C7_SetFramerate (r : RoboEyes) (fps now device : Nat) (width height : Int) :
    SetFramerate r (fps + 1) = { r with frameInterval := 1000 / (fps + 1) } ∧
    SetFramerate r 0 = r ∧
    (Begin r now device 128 64 50).frameInterval = 20 ∧
    (Begin r now device width height 0).frameInterval = 20 := by
  refine ⟨?_, rfl, rfl, rfl⟩
  unfold SetFramerate
  rw [if_pos (by omega)]

/-- C8: for every state and every `Mood` byte `m`, `SetMood(m)` sets `tired`, `angry` and
`happy` to `m == MoodTired`, `m == MoodAngry` and `m == MoodHappy` and changes no other field,
so no two of the three flags are set together; `SetMood(MoodHappy)` followed by
`SetMood(MoodTired)` leaves `tired` set and `angry`, `happy` clear. -/
theorem C8_SetMood (r : RoboEyes) (m : Nat) :
    SetMood r m = { r with tired := decide (m = MoodTired), angry := decide (m = MoodAngry),
                           happy := decide (m = MoodHappy) } ∧
    ¬ ((SetMood r m).tired = true ∧ (SetMood r m).angry = true) ∧
    ¬ ((SetMood r m).tired = true ∧ (SetMood r m).happy = true) ∧
    ¬ ((SetMood r m).angry = true ∧ (SetMood r m).happy = true) ∧
    (SetMood (SetMood r MoodHappy) MoodTired).tired = true ∧
    (SetMood (SetMood r MoodHappy) MoodTired).angry = false ∧
    (SetMood (SetMood r MoodHappy) MoodTired).happy = false := by
  have h : SetMood r m =
      { r with tired := decide (m = MoodTired), angry := decide (m = MoodAngry),
               happy := decide (m = MoodHappy) } := by
    unfold SetMood MoodTired MoodAngry MoodHappy
    dsimp only
    by_cases h1 : m = 1
    · subst h1; rfl
    · by_cases h2 : m = 2
      · subst h2; rfl
      · by_cases h3 : m = 3
        · subst h3; rfl
        · rw [if_neg h1, if_neg h2, if_neg h3]
          simp only [h1, h2, h3, decide_False]
  refine ⟨h, ?_, ?_, ?_, rfl, rfl, rfl⟩
  all_goals
    rw [h]
    show ¬ (decide _ = true ∧ decide _ = true)
    simp only [decide_eq_true_eq, MoodTired, MoodAngry, MoodHappy]
    omega

/-! ## Pixel sets of the rasterizer -/

theorem fillCircleLoop_stable (r : RoboEyes) (x0 y0 corners : Int) (c : RGBA) (fuel : Nat) :
    ∀ (f ddF_x ddF_y x y : Int), 0 ≤ x → y ≤ 32766 → (y - x + 1).toNat ≤ fuel → ∀ k : Nat,
      fillCircleLoop r x0 y0 corners c (fuel + k) f ddF_x ddF_y x y =
        fillCircleLoop r x0 y0 corners c fuel f ddF_x ddF_y x y := by
  induction fuel with
  | zero =>
    intro f ddF_x ddF_y x y hx hy hm k
    cases k with
    | zero => rfl
    | succ k =>
      show fillCircleLoop r x0 y0 corners c (0 + k + 1) f ddF_x ddF_y x y = []
      unfold fillCircleLoop
      rw [if_neg (by omega)]
  | succ fuel ih =>
    intro f ddF_x ddF_y x y hx hy hm k
    have e : fuel + 1 + k = (fuel + k) + 1 := by omega
    rw [e]
    unfold fillCircleLoop
    by_cases hxy : x ≤ y
    · rw [if_pos hxy, if_pos hxy]
      dsimp only
      have hx1 : add16 x 1 = x + 1 := wrap16_eq _ (by omega) (by omega)
      have hy1 : sub16 y 1 = y - 1 := wrap16_eq _ (by omega) (by omega)
      rw [hx1, hy1]
      congr 1
      apply ih
      · omega
      · split_ifs <;> omega
      · split_ifs <;> omega
    · rw [if_neg hxy, if_neg hxy]

theorem fillCircleLoop_fuel (r : RoboEyes) (x0 y0 radius corners : Int) (c : RGBA)
    (h1 : 0 < radius) (h2 : radius ≤ 32766) (k : Nat) :
    fillCircleLoop r x0 y0 corners c (radius.toNat + 1 + k)
        (sub16 1 radius) 1 (mul16 (-2) radius) 0 radius =
      fillCircle r x0 y0 radius corners c := by
  unfold fillCircle
  rw [if_neg (by omega)]
  exact fillCircleLoop_stable r x0 y0 corners c _ _ _ _ 0 radius (le_refl _) h2 (by omega) k

theorem mem_forRange (lo hi v : Int) : v ∈ forRange lo hi ↔ lo ≤ v ∧ v < hi := by
  unfold forRange
  rw [List.mem_map]
  constructor
  · rintro ⟨k, hk, rfl⟩
    rw [List.mem_range] at hk
    omega
  · intro h
    exact ⟨(v - lo).toNat, List.mem_range.2 (by omega), by omega⟩

theorem nodup_forRange (lo hi : Int) : (forRange lo hi).Nodup := by
  unfold forRange
  apply List.Nodup.map _ (List.nodup_range _)
  intro a b h
  simp only at h
  omega

theorem nodup_pixel_row (xs : List Int) (h : xs.Nodup) (y : Int) (c : RGBA) :
    (xs.map fun x => (⟨x, y, c⟩ : PixelWrite)).Nodup := by
  apply List.Nodup.map _ h
  intro a b hab
  simp only [PixelWrite.mk.injEq] at hab
  exact hab.1

theorem mem_pixel_row (xs : List Int) (y : Int) (c : RGBA) (p : PixelWrite) :
    p ∈ (xs.map fun x => (⟨x, y, c⟩ : PixelWrite)) ↔ p.x ∈ xs ∧ p.y = y ∧ p.c = c := by
  rw [List.mem_map]
  constructor
  · rintro ⟨x, hx, rfl⟩
    exact ⟨hx, rfl, rfl⟩
  · rintro ⟨hx, hy, hc⟩
    refine ⟨p.x, hx, ?_⟩
    cases p
    simp only at hy hc
    rw [hy, hc]

/-- C9: the clipping of a horizontal span.  For every `xA`, `xB`, `y` and every screen size
(every `int16` width above -32768, so every non-negative one, and every height),
`drawHorizontalLine(xA, xB, y)` returns, and it writes exactly the pixels `(x, y)` with
`min(xA, xB) <= x <= max(xA, xB)` and `0 <= x < screenWidth`, each once, when
`0 <= y < screenHeight`, and nothing when `y` is outside `[0, screenHeight)`. -/
theorem C9_drawHorizontalLine_span (r : RoboEyes) (xA xB y : Int) (c : RGBA)
    (hw : -32768 < r.screenWidth ∧ r.screenWidth ≤ 32767) :
    ∃ out : List PixelWrite, drawHorizontalLine r xA xB y c = Except.ok out ∧
      (¬ (0 ≤ y ∧ y < r.screenHeight) → out = []) ∧
      ∀ p : PixelWrite, out.count p =
        if min xA xB ≤ p.x ∧ p.x ≤ max xA xB ∧ 0 ≤ p.x ∧ p.x < r.screenWidth ∧
            p.y = y ∧ 0 ≤ y ∧ y < r.screenHeight ∧ p.c = c then 1 else 0 := by
  unfold drawHorizontalLine
  dsimp only
  by_cases hy : y < 0 ∨ y ≥ r.screenHeight
  · rw [if_pos hy]
    refine ⟨[], rfl, fun _ => rfl, ?_⟩
    intro p
    rw [if_neg (by omega)]
    rfl
  · rw [if_neg hy]
    generalize hlo : (if (if xA > xB then xB else xA) < 0 then 0
      else (if xA > xB then xB else xA)) = lo
    generalize hhi : (if (if xA > xB then xA else xB) ≥ r.screenWidth
      then sub16 r.screenWidth 1 else (if xA > xB then xA else xB)) = hi
    have hs : sub16 r.screenWidth 1 = r.screenWidth - 1 := by
      unfold sub16; exact wrap16_eq _ (by omega) (by omega)
    rw [hs] at hhi
    have hlo' : lo = max (min xA xB) 0 := by
      rw [← hlo]; split_ifs <;> omega
    have hhi' : hi = min (max xA xB) (r.screenWidth - 1) := by
      rw [← hhi]; split_ifs <;> omega
    have hne : hi ≠ 32767 := by omega
    by_cases hgt : lo > hi
    · refine ⟨[], ?_, fun _ => rfl, ?_⟩
      · unfold forRangeIncl; rw [if_pos hgt]; rfl
      · intro p
        rw [if_neg (by omega)]
        rfl
    · refine ⟨(forRange lo (hi + 1)).map fun x => ⟨x, y, c⟩, ?_, fun h => absurd h (by omega), ?_⟩
      · unfold forRangeIncl; rw [if_neg hgt, if_neg hne]; rfl
      · intro p
        rw [List.count_eq_of_nodup (nodup_pixel_row _ (nodup_forRange _ _) y c)]
        have hm := mem_pixel_row (forRange lo (hi + 1)) y c p
        rw [mem_forRange] at hm
        by_cases hp : p ∈ (forRange lo (hi + 1)).map fun x => (⟨x, y, c⟩ : PixelWrite)
        · rw [if_pos hp, if_pos]
          obtain ⟨h1, h2, h3⟩ := hm.1 hp
          refine ⟨?_, ?_, ?_, ?_, h2, ?_, ?_, h3⟩ <;> omega
        · rw [if_neg hp, if_neg]
          rintro ⟨q1, q2, q3, q4, q5, q6, q7, q8⟩
          apply hp
          apply hm.2
          exact ⟨by omega, q5, q8⟩

/-- C9 (witness): on the 128 x 64 screen the span from 130 to -3 on row 7 writes both clamped
endpoints (0, 7) and (127, 7) once and neither (-1, 7) nor (128, 7). -/
theorem C9_drawHorizontalLine_span_witness :
    ∃ out : List PixelWrite,
      drawHorizontalLine (Begin zeroValue 0 0 128 64 50) 130 (-3) 7 ⟨255, 255, 255, 255⟩ =
        Except.ok out ∧
      out.count ⟨0, 7, ⟨255, 255, 255, 255⟩⟩ = 1 ∧ out.count ⟨127, 7, ⟨255, 255, 255, 255⟩⟩ = 1 ∧
      out.count ⟨128, 7, ⟨255, 255, 255, 255⟩⟩ = 0 ∧ out.count ⟨-1, 7, ⟨255, 255, 255, 255⟩⟩ = 0 := by
  obtain ⟨out, h, _, hc⟩ := C9_drawHorizontalLine_span (Begin zeroValue 0 0 128 64 50) 130 (-3) 7
    ⟨255, 255, 255, 255⟩ (by decide)
  exact ⟨out, h, by rw [hc]; decide, by rw [hc]; decide, by rw [hc]; decide, by rw [hc]; decide⟩

theorem mem_fillRect (r : RoboEyes) (x y width height : Int) (c : RGBA) (p : PixelWrite) :
    p ∈ fillRect r x y width height c ↔
      (x ≤ p.x ∧ p.x < add16 x width) ∧ (y ≤ p.y ∧ p.y < add16 y height) ∧
      (p.x ≥ 0 ∧ p.x < r.screenWidth ∧ p.y ≥ 0 ∧ p.y < r.screenHeight) ∧ p.c = c := by
  unfold fillRect
  simp only [List.mem_flatMap, mem_forRange]
  constructor
  · rintro ⟨i, hi, j, hj, hp⟩
    split_ifs at hp with hb
    · rw [List.mem_singleton] at hp
      subst hp
      exact ⟨hi, hj, hb, rfl⟩
    · cases hp
  · rintro ⟨hi, hj, hb, hc⟩
    refine ⟨p.x, hi, p.y, hj, ?_⟩
    rw [if_pos hb, List.mem_singleton]
    cases p
    simp only at hc
    rw [hc]

theorem nodup_fillRect (r : RoboEyes) (x y width height : Int) (c : RGBA) :
    (fillRect r x y width height c).Nodup := by
  unfold fillRect
  rw [List.nodup_flatMap]
  constructor
  · intro i _
    rw [List.nodup_flatMap]
    constructor
    · intro j _
      split_ifs
      · exact List.nodup_singleton _
      · exact List.nodup_nil
    · apply (nodup_forRange _ _).pairwise_of_forall_ne
      intro a _ b _ hab
      show List.Disjoint _ _
      intro p h1 h2
      dsimp only at h1 h2
      split_ifs at h1 h2 <;> simp_all
  · apply (nodup_forRange _ _).pairwise_of_forall_ne
    intro a _ b _ hab
    show List.Disjoint _ _
    intro p h1 h2
    simp only [List.mem_flatMap] at h1 h2
    obtain ⟨j1, _, h1⟩ := h1
    obtain ⟨j2, _, h2⟩ := h2
    split_ifs at h1 h2 <;> simp_all

/-- C10: for every `x`, `y`, `width`, `height` such that `x + width` and `y + height` do not
overflow `int16`, `fillRect` writes exactly the pixels `(i, j)` with `x <= i < x + width`,
`y <= j < y + height`, `0 <= i < screenWidth` and `0 <= j < screenHeight`, each exactly once
and in the colour given, and no others; with a non-positive width or height it writes
nothing. -/
theorem C10_fillRect_pixels (r : RoboEyes) (x y width height : Int) (c : RGBA)
    (hx : -32768 ≤ x + width ∧ x + width ≤ 32767)
    (hy : -32768 ≤ y + height ∧ y + height ≤ 32767) :
    (∀ p : PixelWrite, (fillRect r x y width height c).count p =
      if x ≤ p.x ∧ p.x < x + width ∧ y ≤ p.y ∧ p.y < y + height ∧
          0 ≤ p.x ∧ p.x < r.screenWidth ∧ 0 ≤ p.y ∧ p.y < r.screenHeight ∧ p.c = c
      then 1 else 0) ∧
    (width ≤ 0 ∨ height ≤ 0 → fillRect r x y width height c = []) := by
  have ex : add16 x width = x + width := wrap16_eq _ hx.1 hx.2
  have ey : add16 y height = y + height := wrap16_eq _ hy.1 hy.2
  have hm := mem_fillRect r x y width height c
  rw [ex, ey] at hm
  constructor
  · intro p
    rw [List.count_eq_of_nodup (nodup_fillRect r x y width height c)]
    by_cases hp : p ∈ fillRect r x y width height c
    · rw [if_pos hp, if_pos]
      obtain ⟨⟨a1, a2⟩, ⟨a3, a4⟩, ⟨a5, a6, a7, a8⟩, a9⟩ := (hm p).1 hp
      exact ⟨a1, a2, a3, a4, a5, a6, a7, a8, a9⟩
    · rw [if_neg hp, if_neg]
      rintro ⟨a1, a2, a3, a4, a5, a6, a7, a8, a9⟩
      exact hp ((hm p).2 ⟨⟨a1, a2⟩, ⟨a3, a4⟩, ⟨a5, a6, a7, a8⟩, a9⟩)
  · intro h
    rw [List.eq_nil_iff_forall_not_mem]
    intro p hp
    obtain ⟨⟨a1, a2⟩, ⟨a3, a4⟩, _, _⟩ := (hm p).1 hp
    omega

/-- C10 (witness): on the 128 x 64 screen `fillRect(-2, 60, 5, 10)` writes (0, 63) once and
neither (-1, 63) nor (0, 64). -/
theorem C10_fillRect_pixels_witness :
    (fillRect (Begin zeroValue 0 0 128 64 50) (-2) 60 5 10 ⟨255, 255, 255, 255⟩).count
        ⟨0, 63, ⟨255, 255, 255, 255⟩⟩ = 1 ∧
    (fillRect (Begin zeroValue 0 0 128 64 50) (-2) 60 5 10 ⟨255, 255, 255, 255⟩).count
        ⟨-1, 63, ⟨255, 255, 255, 255⟩⟩ = 0 ∧
    (fillRect (Begin zeroValue 0 0 128 64 50) (-2) 60 5 10 ⟨255, 255, 255, 255⟩).count
        ⟨0, 64, ⟨255, 255, 255, 255⟩⟩ = 0 := by
  have h := (C10_fillRect_pixels (Begin zeroValue 0 0 128 64 50) (-2) 60 5 10
    ⟨255, 255, 255, 255⟩ (by decide) (by decide)).1
  exact ⟨by rw [h]; decide, by rw [h]; decide, by rw [h]; decide⟩

/-! ## Degenerate shapes of the rasterizer -/

theorem wrap16_wrap16 (v : Int) : wrap16 (wrap16 v) = wrap16 v := by
  unfold wrap16; omega

theorem forRange_empty (lo hi : Int) (h : hi ≤ lo) : forRange lo hi = [] := by
  unfold forRange
  have : (hi - lo).toNat = 0 := by omega
  rw [this]; rfl

theorem fillRect_zero_width (r : RoboEyes) (x y height : Int) (c : RGBA)
    (hx : wrap16 x = x) : fillRect r x y 0 height c = [] := by
  unfold fillRect
  have e : add16 x 0 = x := by unfold add16; rw [Int.add_zero]; exact hx
  rw [e, forRange_empty x x (le_refl _)]; rfl

/-- C11: a rounded rectangle degrades to a plain rectangle.  For `int16` arguments,
when the radius is at most 0, or the width is at most 2, or the height is at most 2,
`fillRoundRect` makes exactly the `SetPixel` calls of `fillRect` on the same bounds, in the
same order. -/
theorem C11_fillRoundRect_degrades (r : RoboEyes) (x y width height radius : Int) (c : RGBA)
    (hx : -32768 ≤ x ∧ x ≤ 32767) (hw : -32768 ≤ width ∧ width ≤ 32767)
    (h : radius ≤ 0 ∨ width ≤ 2 ∨ height ≤ 2) :
    fillRoundRect r x y width height radius c = fillRect r x y width height c := by
  unfold fillRoundRect
  by_cases hs : height ≤ 2 ∨ width ≤ 2
  · rw [if_pos hs]
  · rw [if_neg hs]
    have hr : radius ≤ 0 := by omega
    have hm : (if min3 radius (div16 width 2) (div16 height 2) < 1 then 0
        else min3 radius (div16 width 2) (div16 height 2)) = 0 := by
      rw [if_pos]
      unfold min3
      dsimp only
      split_ifs <;> omega
    dsimp only
    rw [hm]
    have e1 : add16 x 0 = x := by
      unfold add16; rw [Int.add_zero]; exact wrap16_eq x hx.1 hx.2
    have e2 : sub16 width (mul16 2 0) = width := by
      have : mul16 2 0 = 0 := by decide
      rw [this]; unfold sub16; rw [Int.sub_zero]; exact wrap16_eq width hw.1 hw.2
    rw [e1, e2, fillRect_zero_width r x _ _ c (wrap16_eq x hx.1 hx.2)]
    have e3 : sub16 (add16 x width) 0 = add16 x width := by
      unfold sub16 add16; rw [Int.sub_zero]; exact wrap16_wrap16 _
    rw [e3, fillRect_zero_width r _ _ _ c (by unfold add16; exact wrap16_wrap16 _)]
    simp

/-- C11 (witness): the eye of the default geometry, 36 by 36 at (28, 14),
with radius 0. -/
theorem C11_fillRoundRect_degrades_witness :
    fillRoundRect (Begin zeroValue 0 0 128 64 50) 28 14 36 36 0 ⟨255, 255, 255, 255⟩ =
      fillRect (Begin zeroValue 0 0 128 64 50) 28 14 36 36 ⟨255, 255, 255, 255⟩ :=
  C11_fillRoundRect_degrades _ 28 14 36 36 0 _ (by decide) (by decide) (Or.inl (by decide))

/-- C12: a triangle whose three vertices have the same vertical coordinate is never
drawn.  Whatever the horizontal coordinates, their order, the colour and the interpolation,
`fillTriangle` returns and makes no `SetPixel` call. -/
theorem C12_fillTriangle_flat (lerp : Int → Int → Int → Int) (r : RoboEyes)
    (x0 x1 x2 y : Int) (c : RGBA) :
    fillTriangle lerp r x0 y x1 y x2 y c = Except.ok [] := by
  unfold fillTriangle
  simp only [gt_iff_lt, lt_self_iff_false, if_false]
  have : sub16 y y = 0 := by unfold sub16; rw [Int.sub_self]; decide
  rw [if_pos this]

/-- C13: for every centre, every quadrant mask and every radius at most 0, `fillCircle`
makes no `SetPixel` call. -/
theorem C13_fillCircle_no_radius (r : RoboEyes) (x0 y0 radius corners : Int) (c : RGBA)
    (h : radius ≤ 0) : fillCircle r x0 y0 radius corners c = [] := by
  unfold fillCircle
  rw [if_pos h]

/-- C13 (witness): radius -3 with all four quadrants requested. -/
theorem C13_fillCircle_no_radius_witness :
    fillCircle (Begin zeroValue 0 0 128 64 50) 36 22 (-3) 15 ⟨255, 255, 255, 255⟩ = [] :=
  C13_fillCircle_no_radius _ 36 22 (-3) 15 _ (by decide)

/-! ## Gaze directions and initialisation -/

theorem wrap16_range (v : Int) : -32768 ≤ wrap16 v ∧ wrap16 v ≤ 32767 := by
  unfold wrap16; omega

theorem div16_two (v : Int) (h1 : -32768 ≤ v) (h2 : v ≤ 32767) : div16 v 2 = Int.tdiv v 2 := by
  unfold div16
  apply wrap16_eq <;> (rw [tdiv_two]; split <;> omega)

/-- C19: the table of gaze directions.  For every state and every direction byte `d`,
`SetDirection` changes the fields `eyeLxNext` and `eyeLyNext` only, and sets them to the
entry of `directionTarget` for `d`, with `maxX = GetScreenConstraintX()` and
`maxY = GetScreenConstraintY()`; every byte above 8 gives the entry of the centre; the two
constraints are the `int16` differences of the screen size and the sizes of the eyes. -/
theorem C19_SetDirection_table (r : RoboEyes) (d : Nat) :
    SetDirection r d =
      { r with
        eyeLxNext := (directionTarget (GetScreenConstraintX r) (GetScreenConstraintY r) d).1,
        eyeLyNext := (directionTarget (GetScreenConstraintX r) (GetScreenConstraintY r) d).2 } ∧
    (∀ k : Nat, directionTarget (GetScreenConstraintX r) (GetScreenConstraintY r) (k + 9) =
      directionTarget (GetScreenConstraintX r) (GetScreenConstraintY r) 0) ∧
    GetScreenConstraintX r =
      wrap16 (wrap16 (wrap16 (r.screenWidth - r.eyeLwidthCurrent) - r.spaceBetweenCurrent) -
        r.eyeRwidthCurrent) ∧
    GetScreenConstraintY r = wrap16 (r.screenHeight - r.eyeLheightDefault) := by
  have hx : div16 (GetScreenConstraintX r) 2 = Int.tdiv (GetScreenConstraintX r) 2 :=
    div16_two _ (wrap16_range _).1 (wrap16_range _).2
  have hy : div16 (GetScreenConstraintY r) 2 = Int.tdiv (GetScreenConstraintY r) 2 :=
    div16_two _ (wrap16_range _).1 (wrap16_range _).2
  refine ⟨?_, ?_, rfl, rfl⟩
  · unfold SetDirection
    dsimp only
    rw [hx, hy]
    match d with
    | 0 => rfl
    | 1 => rfl
    | 2 => rfl
    | 3 => rfl
    | 4 => rfl
    | 5 => rfl
    | 6 => rfl
    | 7 => rfl
    | 8 => rfl
    | n + 9 =>
      repeat rw [if_neg (by omega)]
      rfl
  · intro k
    rfl

/-- C20 (divergence of the code): the state after `Begin` depends on the state before it.
On a fresh instance `Begin(device, 128, 64, 50)` gives `eyeLxDefault = 28` and
`eyeRxDefault = 64`; the same call made a second time gives 23 and 69, and on a fresh instance
after `SetSpaceBetween(20)` it gives `eyeLxDefault = 18`.  `setDefault` reads
`spaceBetweenDefault` to centre the eyes before it assigns the default 10 to it. -/
theorem C20_Begin_depends_on_prior_state :
    (Begin zeroValue 0 1 128 64 50).eyeLxDefault = 28 ∧
    (Begin zeroValue 0 1 128 64 50).eyeRxDefault = 64 ∧
    (Begin (Begin zeroValue 0 1 128 64 50) 0 1 128 64 50).eyeLxDefault = 23 ∧
    (Begin (Begin zeroValue 0 1 128 64 50) 0 1 128 64 50).eyeRxDefault = 69 ∧
    (Begin (Begin zeroValue 0 1 128 64 50) 0 1 128 64 50).eyeLx = 23 ∧
    (Begin (SetSpaceBetween zeroValue 20) 0 1 128 64 50).eyeLxDefault = 18 ∧
    (Begin zeroValue 0 1 128 64 50).spaceBetweenDefault = 10 := by
  refine ⟨?_, ?_, ?_, ?_, ?_, ?_, ?_⟩ <;> decide

/-! ## The cyclops override -/

theorem handleAnimationsBlink_ok (g : Draws) (t : Nat) (r r1 : RoboEyes)
    (h : handleAnimationsBlink g t r = Except.ok r1) :
    (¬ (r.autoblinker = true ∧ t ≥ r.blinktimer) ∧ r1 = r) ∨
    ((r.autoblinker = true ∧ t ≥ r.blinktimer) ∧
      ∃ v : Int, intn (intOfUint32 r.blinkIntervalVariation) g.blink = Except.ok v ∧
        r1 = { Blink r with
          blinktimer := add32 (add32 t r.blinkInterval) (uint32OfInt v) }) := by
  unfold handleAnimationsBlink at h
  by_cases hf : r.autoblinker = true ∧ t ≥ r.blinktimer
  · right
    rw [if_pos hf] at h
    refine ⟨hf, ?_⟩
    rcases intn_cases (intOfUint32 r.blinkIntervalVariation) g.blink with hv | ⟨v, hv⟩
    · exfalso
      have h' : (do
          let v ← intn (intOfUint32 r.blinkIntervalVariation) g.blink
          (pure { Blink r with
            blinktimer := add32 (add32 t r.blinkInterval) (uint32OfInt v) } :
              Except Fault RoboEyes)) = Except.ok r1 := h
      rw [hv] at h'
      cases h'
    · refine ⟨v, hv, ?_⟩
      have h' : (do
          let v ← intn (intOfUint32 r.blinkIntervalVariation) g.blink
          (pure { Blink r with
            blinktimer := add32 (add32 t r.blinkInterval) (uint32OfInt v) } :
              Except Fault RoboEyes)) = Except.ok r1 := h
      rw [hv] at h'
      cases h'
      rfl
  · left
    rw [if_neg hf] at h
    cases h
    exact ⟨hf, rfl⟩

theorem handleAnimationsIdle_ok (g : Draws) (t : Nat) (r r2 : RoboEyes)
    (h : handleAnimationsIdle g t r = Except.ok r2) :
    (¬ (r.idle = true ∧ t ≥ r.idleAnimationTimer) ∧ r2 = r) ∨
    ((r.idle = true ∧ t ≥ r.idleAnimationTimer) ∧
      ∃ vx vy vt : Int, intn (GetScreenConstraintX r) g.idleX = Except.ok vx ∧
        intn (GetScreenConstraintY r) g.idleY = Except.ok vy ∧
        intn (intOfUint32 r.idleIntervalVariation) g.idleT = Except.ok vt ∧
        r2 = { r with
          eyeLxNext := wrap16 vx,
          eyeLyNext := wrap16 vy,
          idleAnimationTimer := add32 (add32 t r.idleInterval) (uint32OfInt vt) }) := by
  unfold handleAnimationsIdle at h
  by_cases hf : r.idle = true ∧ t ≥ r.idleAnimationTimer
  · right
    rw [if_pos hf] at h
    refine ⟨hf, ?_⟩
    have h' : (do
        let vx ← intn (GetScreenConstraintX r) g.idleX
        let vy ← intn (GetScreenConstraintY r) g.idleY
        let vt ← intn (intOfUint32 r.idleIntervalVariation) g.idleT
        (pure { r with
          eyeLxNext := wrap16 vx,
          eyeLyNext := wrap16 vy,
          idleAnimationTimer := add32 (add32 t r.idleInterval) (uint32OfInt vt) } :
            Except Fault RoboEyes)) = Except.ok r2 := h
    rcases intn_cases (GetScreenConstraintX r) g.idleX with hx | ⟨vx, hx⟩
    · rw [hx] at h'; cases h'
    · rcases intn_cases (GetScreenConstraintY r) g.idleY with hy | ⟨vy, hy⟩
      · rw [hx, hy] at h'; cases h'
      · rcases intn_cases (intOfUint32 r.idleIntervalVariation) g.idleT with ht | ⟨vt, ht⟩
        · rw [hx, hy, ht] at h'; cases h'
        · rw [hx, hy, ht] at h'
          cases h'
          exact ⟨vx, vy, vt, hx, hy, ht, rfl⟩
  · left
    rw [if_neg hf] at h
    cases h
    exact ⟨hf, rfl⟩

theorem handleAnimations_ok (g : Draws) (t : Nat) (r r' : RoboEyes)
    (h : handleAnimations g t r = Except.ok r') :
    ∃ r1 r2 : RoboEyes, handleAnimationsBlink g t r = Except.ok r1 ∧
      handleAnimationsIdle g t (handleAnimationsConfused t (handleAnimationsLaugh t r1)) =
        Except.ok r2 ∧
      r' = handleAnimationsCyclops (handleAnimationsVFlicker (handleAnimationsHFlicker r2)) := by
  unfold handleAnimations at h
  cases hb : handleAnimationsBlink g t r with
  | error e => rw [hb] at h; cases h
  | ok r1 =>
    rw [hb] at h
    have h' : (do
        let r ← handleAnimationsIdle g t
          (handleAnimationsConfused t (handleAnimationsLaugh t r1))
        (pure (handleAnimationsCyclops (handleAnimationsVFlicker
          (handleAnimationsHFlicker r))) : Except Fault RoboEyes)) = Except.ok r' := h
    cases hi : handleAnimationsIdle g t
        (handleAnimationsConfused t (handleAnimationsLaugh t r1)) with
    | error e => rw [hi] at h'; cases h'
    | ok r2 =>
      rw [hi] at h'
      cases h'
      exact ⟨r1, r2, rfl, hi, rfl⟩

theorem DrawEyes_ok (lerp : Int → Int → Int → Int) (display : Option Nat) (g : Draws)
    (t : Nat) (r : RoboEyes) (out : RoboEyes × List DeviceCall)
    (h : DrawEyes lerp display g t r = Except.ok out) :
    ∃ (r1 : RoboEyes) (lids : List PixelWrite),
      handleAnimations g t (calculateGeometry r) = Except.ok r1 ∧
      drawEyelidsRender lerp (drawEyelidsSmooth (drawEyelidsTargets r1)) = Except.ok lids ∧
      out = (drawEyelidsSmooth (drawEyelidsTargets r1),
        DeviceCall.clearBuffer ::
          ((drawEyeShapes r1 ++ lids).map DeviceCall.setPixel ++ [DeviceCall.display])) := by
  rw [DrawEyes_eq] at h
  cases h1 : handleAnimations g t (calculateGeometry r) with
  | error e => rw [h1] at h; cases h
  | ok r1 =>
    rw [h1] at h
    dsimp only at h
    by_cases hd : r1.device = none
    · rw [if_pos hd] at h; cases h
    · rw [if_neg hd] at h
      cases h2 : drawEyelidsRender lerp (drawEyelidsSmooth (drawEyelidsTargets r1)) with
      | error e => rw [h2] at h; cases h
      | ok lids =>
        rw [h2] at h
        cases h
        exact ⟨r1, lids, rfl, h2, rfl⟩
theorem calculateGeometry_cyclops (r : RoboEyes) : (calculateGeometry r).cyclops = r.cyclops := by
  have h1 : ∀ s, (calculateGeometryRadius s).cyclops = s.cyclops := fun _ => rfl
  have h2 : ∀ s, (calculateGeometryPosition s).cyclops = s.cyclops := fun _ => rfl
  have h3 : ∀ s, (calculateGeometryWidth s).cyclops = s.cyclops := fun _ => rfl
  have h4 : ∀ s, (calculateGeometryReopen s).cyclops = s.cyclops := by
    intro s; unfold calculateGeometryReopen; dsimp only; split_ifs <;> rfl
  have h5 : ∀ s, (calculateGeometryHeightR s).cyclops = s.cyclops := fun _ => rfl
  have h6 : ∀ s, (calculateGeometryHeightL s).cyclops = s.cyclops := fun _ => rfl
  have h7 : ∀ s, (calculateGeometryCurious s).cyclops = s.cyclops := by
    intro s; unfold calculateGeometryCurious; dsimp only; split_ifs <;> rfl
  unfold calculateGeometry
  rw [h1, h2, h3, h4, h5, h6, h7]

theorem handleAnimations_cyclops (g : Draws) (t : Nat) (r r' : RoboEyes)
    (h : handleAnimations g t r = Except.ok r') (hc : r.cyclops = true) :
    r'.cyclops = true ∧ r'.eyeRwidthCurrent = 0 ∧ r'.eyeRheightCurrent = 0 ∧
      r'.spaceBetweenCurrent = 0 := by
  obtain ⟨r1, r2, hb, hi, rfl⟩ := handleAnimations_ok g t r r' h
  have c1 : r1.cyclops = true := by
    rcases handleAnimationsBlink_ok g t r r1 hb with ⟨_, rfl⟩ | ⟨_, v, _, rfl⟩
    · exact hc
    · exact hc
  have c2 : (handleAnimationsLaugh t r1).cyclops = true := by
    rw [← c1]; unfold handleAnimationsLaugh; dsimp only; split_ifs <;> rfl
  have c3 : (handleAnimationsConfused t (handleAnimationsLaugh t r1)).cyclops = true := by
    rw [← c2]; unfold handleAnimationsConfused; dsimp only; split_ifs <;> rfl
  have c4 : r2.cyclops = true := by
    rcases handleAnimationsIdle_ok g t _ r2 hi with ⟨_, rfl⟩ | ⟨_, vx, vy, vt, _, _, _, rfl⟩
    · exact c3
    · exact c3
  have c5 : (handleAnimationsHFlicker r2).cyclops = true := by
    rw [← c4]; unfold handleAnimationsHFlicker; dsimp only; split_ifs <;> rfl
  have c6 : (handleAnimationsVFlicker (handleAnimationsHFlicker r2)).cyclops = true := by
    rw [← c5]; unfold handleAnimationsVFlicker; dsimp only; split_ifs <;> rfl
  unfold handleAnimationsCyclops
  rw [if_pos c6]
  exact ⟨c6, rfl, rfl, rfl⟩

theorem drawEyelids_rightEye (r : RoboEyes) :
    (drawEyelidsSmooth (drawEyelidsTargets r)).eyeRwidthCurrent = r.eyeRwidthCurrent ∧
    (drawEyelidsSmooth (drawEyelidsTargets r)).eyeRheightCurrent = r.eyeRheightCurrent ∧
    (drawEyelidsSmooth (drawEyelidsTargets r)).spaceBetweenCurrent = r.spaceBetweenCurrent := by
  have h : (drawEyelidsTargets r).eyeRwidthCurrent = r.eyeRwidthCurrent ∧
      (drawEyelidsTargets r).eyeRheightCurrent = r.eyeRheightCurrent ∧
      (drawEyelidsTargets r).spaceBetweenCurrent = r.spaceBetweenCurrent := by
    unfold drawEyelidsTargets; dsimp only; split_ifs <;> exact ⟨rfl, rfl, rfl⟩
  exact h

/-- C14: the hard override of the cyclops mode.  For every state with `cyclops` set,
a frame of `DrawEyes` that returns leaves `eyeRwidthCurrent`, `eyeRheightCurrent` and
`spaceBetweenCurrent` at 0, whatever their values and targets were; and the frame does return
when the state is `quiet` (no autoblinker, no idle mode, no tired or angry eyelid) and has a
device (on the nil device of an instance that `Begin` never saw, `DrawEyes` panics). -/
theorem C14_cyclops_override (lerp : Int → Int → Int → Int) (display : Option Nat) (g : Draws)
    (t : Nat) (r : RoboEyes) (hc : r.cyclops = true) :
    (∀ out : RoboEyes × List DeviceCall, DrawEyes lerp display g t r = Except.ok out →
      out.1.eyeRwidthCurrent = 0 ∧ out.1.eyeRheightCurrent = 0 ∧
      out.1.spaceBetweenCurrent = 0) ∧
    (quiet r → r.device ≠ none → ∃ out : RoboEyes × List DeviceCall,
      DrawEyes lerp display g t r = Except.ok out) := by
  constructor
  · intro out h
    obtain ⟨r1, lids, h1, _, rfl⟩ := DrawEyes_ok lerp display g t r out h
    obtain ⟨_, a, b, c⟩ := handleAnimations_cyclops g t _ r1 h1
      (by rw [calculateGeometry_cyclops]; exact hc)
    obtain ⟨e1, e2, e3⟩ := drawEyelids_rightEye r1
    show (drawEyelidsSmooth (drawEyelidsTargets r1)).eyeRwidthCurrent = 0 ∧
      (drawEyelidsSmooth (drawEyelidsTargets r1)).eyeRheightCurrent = 0 ∧
      (drawEyelidsSmooth (drawEyelidsTargets r1)).spaceBetweenCurrent = 0
    rw [e1, e2, e3]
    exact ⟨a, b, c⟩
  · intro hq hd
    obtain ⟨r1, px, h, _⟩ := DrawEyes_quiet lerp display g t r hq hd
    exact ⟨_, h⟩

/-- C14 (witness): the first frame after `Begin(device, 128, 64, 50)` and
`SetCyclops(true)`. -/
theorem C14_cyclops_override_witness :
    ∃ out : RoboEyes × List DeviceCall,
      DrawEyes (fun _ _ _ => 0) none ⟨0, 0, 0, 0⟩ 20
        (SetCyclops (Begin zeroValue 0 0 128 64 50) true) = Except.ok out ∧
      out.1.eyeRwidthCurrent = 0 ∧ out.1.eyeRheightCurrent = 0 ∧
      out.1.spaceBetweenCurrent = 0 := by
  have h := C14_cyclops_override (fun _ _ _ => 0) none ⟨0, 0, 0, 0⟩ 20
    (SetCyclops (Begin zeroValue 0 0 128 64 50) true) rfl
  obtain ⟨out, ho⟩ := h.2 ⟨rfl, rfl, rfl, rfl, rfl, rfl⟩ (by decide)
  exact ⟨out, ho, h.1 out ho⟩
/-! ## The autoblinker and the idle mode -/

theorem intn_ok (n : Int) (raw : Nat) (v : Int) (h : intn n raw = Except.ok v) :
    0 < n ∧ 0 ≤ v ∧ v < n := by
  unfold intn at h
  split_ifs at h with hn
  cases h
  refine ⟨by omega, ?_, ?_⟩
  · exact Int.emod_nonneg _ (by omega)
  · exact Int.emod_lt_of_pos _ (by omega)

theorem intn_returns (n : Int) (raw : Nat) (h : 0 < n) : ∃ v, intn n raw = Except.ok v := by
  unfold intn
  rw [if_neg (by omega)]
  exact ⟨_, rfl⟩

theorem idleView_before_idle (g : Draws) (t : Nat) (r r1 : RoboEyes)
    (hb : handleAnimationsBlink g t r = Except.ok r1) :
    idleView (handleAnimationsConfused t (handleAnimationsLaugh t r1)) = idleView r := by
  have c1 : idleView r1 = idleView r := by
    rcases handleAnimationsBlink_ok g t r r1 hb with ⟨_, rfl⟩ | ⟨_, v, _, rfl⟩
    · rfl
    · rfl
  have c2 : idleView (handleAnimationsLaugh t r1) = idleView r := by
    rw [← c1]; unfold handleAnimationsLaugh idleView; dsimp only; split_ifs <;> rfl
  rw [← c2]; unfold handleAnimationsConfused idleView; dsimp only; split_ifs <;> rfl

theorem idleView_fields (a b : RoboEyes) (h : idleView a = idleView b) :
    a.idle = b.idle ∧ a.idleAnimationTimer = b.idleAnimationTimer ∧
    a.idleIntervalVariation = b.idleIntervalVariation ∧ a.eyeLxNext = b.eyeLxNext ∧
    a.eyeLyNext = b.eyeLyNext ∧ GetScreenConstraintX a = GetScreenConstraintX b ∧
    GetScreenConstraintY a = GetScreenConstraintY b := by
  unfold idleView at h
  simp only [Prod.mk.injEq] at h
  obtain ⟨h1, h2, h3, h4, h5, h6, h7, h8, h9, h10, h11, h12⟩ := h
  unfold GetScreenConstraintX GetScreenConstraintY
  rw [h7, h8, h9, h10, h11, h12]
  exact ⟨h1, h2, h3, h5, h6, rfl, rfl⟩

theorem target_after_idle (r2 : RoboEyes) :
    (handleAnimationsCyclops (handleAnimationsVFlicker
      (handleAnimationsHFlicker r2))).eyeLxNext = r2.eyeLxNext ∧
    (handleAnimationsCyclops (handleAnimationsVFlicker
      (handleAnimationsHFlicker r2))).eyeLyNext = r2.eyeLyNext := by
  have c5 : (handleAnimationsHFlicker r2).eyeLxNext = r2.eyeLxNext ∧
      (handleAnimationsHFlicker r2).eyeLyNext = r2.eyeLyNext := by
    unfold handleAnimationsHFlicker; dsimp only; split_ifs <;> exact ⟨rfl, rfl⟩
  have c6 : ∀ s : RoboEyes, (handleAnimationsVFlicker s).eyeLxNext = s.eyeLxNext ∧
      (handleAnimationsVFlicker s).eyeLyNext = s.eyeLyNext := by
    intro s; unfold handleAnimationsVFlicker; dsimp only; split_ifs <;> exact ⟨rfl, rfl⟩
  have c7 : ∀ s : RoboEyes, (handleAnimationsCyclops s).eyeLxNext = s.eyeLxNext ∧
      (handleAnimationsCyclops s).eyeLyNext = s.eyeLyNext := by
    intro s; unfold handleAnimationsCyclops; split_ifs <;> exact ⟨rfl, rfl⟩
  rw [(c7 _).1, (c7 _).2, (c6 _).1, (c6 _).2, c5.1, c5.2]
  exact ⟨rfl, rfl⟩

theorem intOfUint32_small (v : Nat) (h : v < 2147483648) : intOfUint32 v = (v : Int) := by
  unfold intOfUint32
  rw [if_pos h]

theorem handleAnimations_returns (g : Draws) (t : Nat) (r : RoboEyes)
    (hb : (r.autoblinker = true ∧ t ≥ r.blinktimer) →
      0 < r.blinkIntervalVariation ∧ r.blinkIntervalVariation < 2147483648)
    (hi : (r.idle = true ∧ t ≥ r.idleAnimationTimer) →
      0 < GetScreenConstraintX r ∧ 0 < GetScreenConstraintY r ∧ 0 < r.idleIntervalVariation ∧
      r.idleIntervalVariation < 2147483648) :
    ∃ r' : RoboEyes, handleAnimations g t r = Except.ok r' := by
  have h1 : ∃ r1, handleAnimationsBlink g t r = Except.ok r1 := by
    unfold handleAnimationsBlink
    by_cases hf : r.autoblinker = true ∧ t ≥ r.blinktimer
    · rw [if_pos hf]
      obtain ⟨v, hv⟩ := intn_returns (intOfUint32 r.blinkIntervalVariation) g.blink
        (by rw [intOfUint32_small _ (hb hf).2]; have := (hb hf).1; omega)
      refine ⟨{ Blink r with
        blinktimer := add32 (add32 t r.blinkInterval) (uint32OfInt v) }, ?_⟩
      show (do
        let v ← intn (intOfUint32 r.blinkIntervalVariation) g.blink
        (pure _ : Except Fault RoboEyes)) = _
      rw [hv]; rfl
    · rw [if_neg hf]; exact ⟨r, rfl⟩
  obtain ⟨r1, hr1⟩ := h1
  obtain ⟨e1, e2, e3, _, _, e6, e7⟩ := idleView_fields _ _ (idleView_before_idle g t r r1 hr1)
  have h2 : ∃ r2, handleAnimationsIdle g t
      (handleAnimationsConfused t (handleAnimationsLaugh t r1)) = Except.ok r2 := by
    generalize handleAnimationsConfused t (handleAnimationsLaugh t r1) = s at e1 e2 e3 e6 e7
    unfold handleAnimationsIdle
    by_cases hf : s.idle = true ∧ t ≥ s.idleAnimationTimer
    · rw [if_pos hf]
      obtain ⟨p1, p2, p3, p4⟩ := hi (by rw [← e1, ← e2]; exact hf)
      obtain ⟨vx, hx⟩ := intn_returns (GetScreenConstraintX s) g.idleX (by rw [e6]; exact p1)
      obtain ⟨vy, hy⟩ := intn_returns (GetScreenConstraintY s) g.idleY (by rw [e7]; exact p2)
      obtain ⟨vt, ht⟩ := intn_returns (intOfUint32 s.idleIntervalVariation) g.idleT
        (by rw [e3, intOfUint32_small _ p4]; omega)
      refine ⟨{ s with
          eyeLxNext := wrap16 vx,
          eyeLyNext := wrap16 vy,
          idleAnimationTimer := add32 (add32 t s.idleInterval) (uint32OfInt vt) }, ?_⟩
      show (do
        let vx ← intn (GetScreenConstraintX s) g.idleX
        let vy ← intn (GetScreenConstraintY s) g.idleY
        let vt ← intn (intOfUint32 s.idleIntervalVariation) g.idleT
        (pure _ : Except Fault RoboEyes)) = _
      rw [hx, hy, ht]; rfl
    · rw [if_neg hf]; exact ⟨s, rfl⟩
  obtain ⟨r2, hr2⟩ := h2
  refine ⟨handleAnimationsCyclops (handleAnimationsVFlicker (handleAnimationsHFlicker r2)), ?_⟩
  unfold handleAnimations
  rw [hr1]
  show (do
    let r ← handleAnimationsIdle g t (handleAnimationsConfused t (handleAnimationsLaugh t r1))
    (pure _ : Except Fault RoboEyes)) = _
  rw [hr2]; rfl
/-- C18: the range of the idle target.  When the idle animation fires in
`handleAnimations` (idle mode on and `now >= idleAnimationTimer`) and the call returns, the
new target of the left eye satisfies `0 <= eyeLxNext < GetScreenConstraintX()` and
`0 <= eyeLyNext < GetScreenConstraintY()`, both constraints taken on the state before the
call; when it does not fire the target is unchanged and the idle step is the identity.  The
call returns when both constraints are positive, the variation is positive and below `2^31`
(it is converted to an `int`, 32 bits wide on the targets of TinyGo) and the autoblinker is
off. -/
theorem C18_idle_target_range (g : Draws) (now : Nat) (r : RoboEyes) :
    (∀ r' : RoboEyes, handleAnimations g now r = Except.ok r' →
      ((r.idle = true ∧ now ≥ r.idleAnimationTimer) →
        0 ≤ r'.eyeLxNext ∧ r'.eyeLxNext < GetScreenConstraintX r ∧
        0 ≤ r'.eyeLyNext ∧ r'.eyeLyNext < GetScreenConstraintY r) ∧
      (¬ (r.idle = true ∧ now ≥ r.idleAnimationTimer) →
        r'.eyeLxNext = r.eyeLxNext ∧ r'.eyeLyNext = r.eyeLyNext)) ∧
    (∀ r2 : RoboEyes, handleAnimationsIdle g now r = Except.ok r2 →
      ¬ (r.idle = true ∧ now ≥ r.idleAnimationTimer) → r2 = r) ∧
    ((r.idle = true ∧ now ≥ r.idleAnimationTimer) →
      0 < GetScreenConstraintX r → 0 < GetScreenConstraintY r →
      0 < r.idleIntervalVariation → r.idleIntervalVariation < 2147483648 →
      r.autoblinker = false →
      ∃ r' : RoboEyes, handleAnimations g now r = Except.ok r') := by
  refine ⟨?_, ?_, ?_⟩
  · intro r' h
    obtain ⟨r1, r2, hb, hi, rfl⟩ := handleAnimations_ok g now r r' h
    obtain ⟨e1, e2, _, e4, e5, e6, e7⟩ :=
      idleView_fields _ _ (idleView_before_idle g now r r1 hb)
    rw [(target_after_idle r2).1, (target_after_idle r2).2]
    generalize handleAnimationsConfused now (handleAnimationsLaugh now r1) = s
      at hi e1 e2 e4 e5 e6 e7
    rcases handleAnimationsIdle_ok g now s r2 hi with
      ⟨hn, rfl⟩ | ⟨hf, vx, vy, vt, hx, hy, _, rfl⟩
    · rw [e1, e2] at hn
      exact ⟨fun hf => absurd hf hn, fun _ => ⟨e4, e5⟩⟩
    · rw [e1, e2] at hf
      refine ⟨fun _ => ?_, fun hn => absurd hf hn⟩
      obtain ⟨_, x1, x2⟩ := intn_ok _ _ _ hx
      obtain ⟨_, y1, y2⟩ := intn_ok _ _ _ hy
      rw [e6] at x2
      rw [e7] at y2
      have bx := (wrap16_range (wrap16 (wrap16 (r.screenWidth - r.eyeLwidthCurrent) -
        r.spaceBetweenCurrent) - r.eyeRwidthCurrent)).2
      have by' := (wrap16_range (r.screenHeight - r.eyeLheightDefault)).2
      have gx : GetScreenConstraintX r ≤ 32767 := bx
      have gy : GetScreenConstraintY r ≤ 32767 := by'
      show 0 ≤ wrap16 vx ∧ wrap16 vx < GetScreenConstraintX r ∧
        0 ≤ wrap16 vy ∧ wrap16 vy < GetScreenConstraintY r
      rw [wrap16_eq vx (by omega) (by omega), wrap16_eq vy (by omega) (by omega)]
      exact ⟨x1, x2, y1, y2⟩
  · intro r2 h hn
    rcases handleAnimationsIdle_ok g now r r2 h with ⟨_, e⟩ | ⟨hf, _⟩
    · exact e
    · exact absurd hf hn
  · intro hf hx hy hv hv2 hb
    exact handleAnimations_returns g now r (fun hbf => by rw [hb] at hbf; cases hbf.1)
      (fun _ => ⟨hx, hy, hv, hv2⟩)

/-- C18 (witness): the idle mode switched on after
`Begin(device, 128, 64, 50)`, a frame at clock reading 5000; the constraints are 46 and 28. -/
theorem C18_idle_target_range_witness :
    ∃ r' : RoboEyes,
      handleAnimations ⟨0, 1000, 1000, 77⟩ 5000
        (SetIdleMode (Begin zeroValue 0 0 128 64 50) true) = Except.ok r' ∧
      0 ≤ r'.eyeLxNext ∧ r'.eyeLxNext < 46 ∧ 0 ≤ r'.eyeLyNext ∧ r'.eyeLyNext < 28 := by
  have h := C18_idle_target_range ⟨0, 1000, 1000, 77⟩ 5000
    (SetIdleMode (Begin zeroValue 0 0 128 64 50) true)
  obtain ⟨r', hr⟩ := h.2.2 (by decide) (by decide) (by decide) (by decide) (by decide) rfl
  exact ⟨r', hr, (h.1 r' hr).1 (by decide)⟩
/-! ## The one-shot animations -/

theorem calculateGeometry_shakeViews (r : RoboEyes) :
    confusedView (calculateGeometry r) = confusedView r ∧
    laughView (calculateGeometry r) = laughView r := by
  have h1 : ∀ s, confusedView (calculateGeometryRadius s) = confusedView s ∧
      laughView (calculateGeometryRadius s) = laughView s := fun _ => ⟨rfl, rfl⟩
  have h2 : ∀ s, confusedView (calculateGeometryPosition s) = confusedView s ∧
      laughView (calculateGeometryPosition s) = laughView s := fun _ => ⟨rfl, rfl⟩
  have h3 : ∀ s, confusedView (calculateGeometryWidth s) = confusedView s ∧
      laughView (calculateGeometryWidth s) = laughView s := fun _ => ⟨rfl, rfl⟩
  have h4 : ∀ s, confusedView (calculateGeometryReopen s) = confusedView s ∧
      laughView (calculateGeometryReopen s) = laughView s := by
    intro s; unfold calculateGeometryReopen confusedView laughView; dsimp only
    split_ifs <;> exact ⟨rfl, rfl⟩
  have h5 : ∀ s, confusedView (calculateGeometryHeightR s) = confusedView s ∧
      laughView (calculateGeometryHeightR s) = laughView s := fun _ => ⟨rfl, rfl⟩
  have h6 : ∀ s, confusedView (calculateGeometryHeightL s) = confusedView s ∧
      laughView (calculateGeometryHeightL s) = laughView s := fun _ => ⟨rfl, rfl⟩
  have h7 : ∀ s, confusedView (calculateGeometryCurious s) = confusedView s ∧
      laughView (calculateGeometryCurious s) = laughView s := by
    intro s; unfold calculateGeometryCurious confusedView laughView; dsimp only
    split_ifs <;> exact ⟨rfl, rfl⟩
  unfold calculateGeometry
  rw [(h1 _).1, (h1 _).2, (h2 _).1, (h2 _).2, (h3 _).1, (h3 _).2, (h4 _).1, (h4 _).2,
    (h5 _).1, (h5 _).2, (h6 _).1, (h6 _).2, (h7 _).1, (h7 _).2]
  exact ⟨rfl, rfl⟩

theorem drawEyelids_shakeViews (r : RoboEyes) :
    confusedView (drawEyelidsSmooth (drawEyelidsTargets r)) = confusedView r ∧
    laughView (drawEyelidsSmooth (drawEyelidsTargets r)) = laughView r := by
  have h : confusedView (drawEyelidsTargets r) = confusedView r ∧
      laughView (drawEyelidsTargets r) = laughView r := by
    unfold drawEyelidsTargets confusedView laughView; dsimp only
    split_ifs <;> exact ⟨rfl, rfl⟩
  exact h

theorem handleAnimationsConfused_view (t : Nat) (a b : RoboEyes)
    (h : confusedView a = confusedView b) :
    confusedView (handleAnimationsConfused t a) = confusedView (handleAnimationsConfused t b) := by
  unfold confusedView at h
  simp only [Prod.mk.injEq] at h
  obtain ⟨h1, h2, h3, h4, h5, h6⟩ := h
  unfold handleAnimationsConfused confusedView
  dsimp only
  rw [h1, h2, h3, h4]
  split_ifs <;> simp only [SetHFlicker, h1, h2, h3, h4, h5, h6]

theorem handleAnimationsLaugh_view (t : Nat) (a b : RoboEyes)
    (h : laughView a = laughView b) :
    laughView (handleAnimationsLaugh t a) = laughView (handleAnimationsLaugh t b) := by
  unfold laughView at h
  simp only [Prod.mk.injEq] at h
  obtain ⟨h1, h2, h3, h4, h5, h6⟩ := h
  unfold handleAnimationsLaugh laughView
  dsimp only
  rw [h1, h2, h3, h4]
  split_ifs <;> simp only [SetVFlicker, h1, h2, h3, h4, h5, h6]

theorem handleAnimations_shakeViews (g : Draws) (t : Nat) (r r' : RoboEyes)
    (h : handleAnimations g t r = Except.ok r') :
    confusedView r' = confusedView (handleAnimationsConfused t r) ∧
    laughView r' = laughView (handleAnimationsLaugh t r) := by
  obtain ⟨r1, r2, hb, hi, rfl⟩ := handleAnimations_ok g t r r' h
  have c1 : confusedView r1 = confusedView r ∧ laughView r1 = laughView r := by
    rcases handleAnimationsBlink_ok g t r r1 hb with ⟨_, rfl⟩ | ⟨_, v, _, rfl⟩
    · exact ⟨rfl, rfl⟩
    · exact ⟨rfl, rfl⟩
  have c2 : confusedView (handleAnimationsLaugh t r1) = confusedView r1 := by
    unfold handleAnimationsLaugh confusedView; dsimp only; split_ifs <;> rfl
  have c3 : ∀ s : RoboEyes, laughView (handleAnimationsConfused t s) = laughView s := by
    intro s; unfold handleAnimationsConfused laughView; dsimp only; split_ifs <;> rfl
  have c4 : confusedView r2 =
      confusedView (handleAnimationsConfused t (handleAnimationsLaugh t r1)) ∧
      laughView r2 = laughView (handleAnimationsConfused t (handleAnimationsLaugh t r1)) := by
    rcases handleAnimationsIdle_ok g t _ r2 hi with ⟨_, rfl⟩ | ⟨_, vx, vy, vt, _, _, _, rfl⟩
    · exact ⟨rfl, rfl⟩
    · exact ⟨rfl, rfl⟩
  have c5 : ∀ s : RoboEyes, confusedView (handleAnimationsHFlicker s) = confusedView s ∧
      laughView (handleAnimationsHFlicker s) = laughView s := by
    intro s; unfold handleAnimationsHFlicker confusedView laughView; dsimp only
    split_ifs <;> exact ⟨rfl, rfl⟩
  have c6 : ∀ s : RoboEyes, confusedView (handleAnimationsVFlicker s) = confusedView s ∧
      laughView (handleAnimationsVFlicker s) = laughView s := by
    intro s; unfold handleAnimationsVFlicker confusedView laughView; dsimp only
    split_ifs <;> exact ⟨rfl, rfl⟩
  have c7 : ∀ s : RoboEyes, confusedView (handleAnimationsCyclops s) = confusedView s ∧
      laughView (handleAnimationsCyclops s) = laughView s := by
    intro s; unfold handleAnimationsCyclops confusedView laughView
    split_ifs <;> exact ⟨rfl, rfl⟩
  rw [(c7 _).1, (c7 _).2, (c6 _).1, (c6 _).2, (c5 _).1, (c5 _).2, c4.1, c4.2, c3]
  exact ⟨handleAnimationsConfused_view t _ _ (c2.trans c1.1),
    handleAnimationsLaugh_view t _ _ c1.2⟩

theorem afterFrame_shakeViews (t : Nat) (r r' : RoboEyes) (h : afterFrame t r r') :
    confusedView r' = confusedView (handleAnimationsConfused t r) ∧
    laughView r' = laughView (handleAnimationsLaugh t r) := by
  rcases h with ⟨g, h⟩ | ⟨lerp, display, g, calls, h⟩
  · exact handleAnimations_shakeViews g t r r' h
  · obtain ⟨r1, lids, h1, _, he⟩ := DrawEyes_ok lerp display g t r _ h
    have e : r' = drawEyelidsSmooth (drawEyelidsTargets r1) := by
      cases he; rfl
    obtain ⟨a1, a2⟩ := handleAnimations_shakeViews g t _ r1 h1
    rw [e, (drawEyelids_shakeViews r1).1, (drawEyelids_shakeViews r1).2, a1, a2]
    exact ⟨handleAnimationsConfused_view t _ _ (calculateGeometry_shakeViews r).1,
      handleAnimationsLaugh_view t _ _ (calculateGeometry_shakeViews r).2⟩
theorem AnimConfused_active (r : RoboEyes) (h : r.confused = true) : AnimConfused r = r := by
  unfold AnimConfused
  cases r
  simp only at h
  subst h
  rfl

theorem AnimLaugh_active (r : RoboEyes) (h : r.laugh = true) : AnimLaugh r = r := by
  unfold AnimLaugh
  cases r
  simp only at h
  subst h
  rfl

theorem confused_trigger (t : Nat) (r : RoboEyes) (h1 : r.confused = true)
    (h2 : r.confusedToggle = true) :
    confusedView (handleAnimationsConfused t r) =
      (true, false, t, r.confusedAnimationDuration, true, 20) := by
  unfold handleAnimationsConfused confusedView
  rw [if_pos h1, if_pos h2]
  simp only [SetHFlicker, h1]

theorem confused_hold (t : Nat) (r : RoboEyes) (h1 : r.confused = true)
    (h2 : r.confusedToggle = false)
    (h3 : t < add32 r.confusedAnimationTimer r.confusedAnimationDuration) :
    handleAnimationsConfused t r = r := by
  unfold handleAnimationsConfused
  rw [if_pos h1, if_neg (by rw [h2]; simp), if_neg (by omega)]

theorem confused_end (t : Nat) (r : RoboEyes) (h1 : r.confused = true)
    (h2 : r.confusedToggle = false)
    (h3 : t ≥ add32 r.confusedAnimationTimer r.confusedAnimationDuration) :
    confusedView (handleAnimationsConfused t r) =
      (false, true, r.confusedAnimationTimer, r.confusedAnimationDuration, false, 0) := by
  unfold handleAnimationsConfused confusedView
  rw [if_pos h1, if_neg (by rw [h2]; simp), if_pos h3]
  rfl

theorem laugh_trigger (t : Nat) (r : RoboEyes) (h1 : r.laugh = true)
    (h2 : r.laughToggle = true) :
    laughView (handleAnimationsLaugh t r) =
      (true, false, t, r.laughAnimationDuration, true, 5) := by
  unfold handleAnimationsLaugh laughView
  rw [if_pos h1, if_pos h2]
  simp only [SetVFlicker, h1]

theorem laugh_hold (t : Nat) (r : RoboEyes) (h1 : r.laugh = true)
    (h2 : r.laughToggle = false)
    (h3 : t < add32 r.laughAnimationTimer r.laughAnimationDuration) :
    handleAnimationsLaugh t r = r := by
  unfold handleAnimationsLaugh
  rw [if_pos h1, if_neg (by rw [h2]; simp), if_neg (by omega)]

theorem laugh_end (t : Nat) (r : RoboEyes) (h1 : r.laugh = true)
    (h2 : r.laughToggle = false)
    (h3 : t ≥ add32 r.laughAnimationTimer r.laughAnimationDuration) :
    laughView (handleAnimationsLaugh t r) =
      (false, true, r.laughAnimationTimer, r.laughAnimationDuration, false, 0) := by
  unfold handleAnimationsLaugh laughView
  rw [if_pos h1, if_neg (by rw [h2]; simp), if_pos h3]
  rfl

theorem confusedHold_of_view (t0 : Nat) (r : RoboEyes)
    (h : confusedView r = (true, false, t0, 500, true, 20)) : confusedHold t0 r := by
  unfold confusedView at h
  simp only [Prod.mk.injEq] at h
  exact h

theorem laughHold_of_view (t0 : Nat) (r : RoboEyes)
    (h : laughView r = (true, false, t0, 500, true, 5)) : laughHold t0 r := by
  unfold laughView at h
  simp only [Prod.mk.injEq] at h
  exact h

theorem view_of_confusedHold (t0 : Nat) (r : RoboEyes) (h : confusedHold t0 r) :
    confusedView r = (true, false, t0, 500, true, 20) := by
  obtain ⟨h1, h2, h3, h4, h5, h6⟩ := h
  unfold confusedView
  rw [h1, h2, h3, h4, h5, h6]

theorem view_of_laughHold (t0 : Nat) (r : RoboEyes) (h : laughHold t0 r) :
    laughView r = (true, false, t0, 500, true, 5) := by
  obtain ⟨h1, h2, h3, h4, h5, h6⟩ := h
  unfold laughView
  rw [h1, h2, h3, h4, h5, h6]

theorem add32_small (a b : Nat) (h : a + b < 4294967296) : add32 a b = a + b := by
  unfold add32 wrap32; omega

/-- C16: the one-shot cycle of the confused animation, and of the laugh animation on
the vertical axis with amplitude 5.  With `confusedToggle` set, the first frame after
`AnimConfused()`, at clock reading `t0`, switches the horizontal flicker on with amplitude 20
and records `t0`; every later frame at `t < t0 + 500` keeps `confused` and `hFlicker` set,
whether or not `AnimConfused()` is called again before it; the first frame at `t >= t0 + 500`
ends the cycle with `hFlicker` and `confused` cleared and `confusedToggle` set again; and
`AnimConfused()` on a state with `confused` set is the identity.  A frame is a call of
`handleAnimations` or of `DrawEyes`, and `DrawEyes` returns on every `quiet` state that has a
device. -/
theorem C16_confused_cycle (t0 t : Nat) (r r' : RoboEyes) :
    (r.confusedToggle = true → r.confusedAnimationDuration = 500 →
      afterFrame t0 (AnimConfused r) r' → confusedHold t0 r') ∧
    (confusedHold t0 r → t0 + 500 < 4294967296 → t < t0 + 500 →
      (afterFrame t r r' → confusedHold t0 r') ∧
      (afterFrame t (AnimConfused r) r' → confusedHold t0 r')) ∧
    (confusedHold t0 r → t0 + 500 < 4294967296 → t ≥ t0 + 500 → afterFrame t r r' →
      r'.hFlicker = false ∧ r'.confused = false ∧ r'.confusedToggle = true) ∧
    (r.confused = true → AnimConfused r = r) ∧
    (r.laughToggle = true → r.laughAnimationDuration = 500 →
      afterFrame t0 (AnimLaugh r) r' → laughHold t0 r') ∧
    (laughHold t0 r → t0 + 500 < 4294967296 → t < t0 + 500 →
      (afterFrame t r r' → laughHold t0 r') ∧
      (afterFrame t (AnimLaugh r) r' → laughHold t0 r')) ∧
    (laughHold t0 r → t0 + 500 < 4294967296 → t ≥ t0 + 500 → afterFrame t r r' →
      r'.vFlicker = false ∧ r'.laugh = false ∧ r'.laughToggle = true) ∧
    (r.laugh = true → AnimLaugh r = r) ∧
    (quiet r → r.device ≠ none →
      ∀ (lerp : Int → Int → Int → Int) (display : Option Nat) (g : Draws),
      ∃ out : RoboEyes × List DeviceCall,
        DrawEyes lerp display g t r = Except.ok out ∧ afterFrame t r out.1) := by
  refine ⟨?_, ?_, ?_, AnimConfused_active r, ?_, ?_, ?_, AnimLaugh_active r, ?_⟩
  · intro h2 h4 hf
    apply confusedHold_of_view
    rw [(afterFrame_shakeViews t0 _ r' hf).1, confused_trigger t0 (AnimConfused r) rfl h2]
    show (true, false, t0, r.confusedAnimationDuration, true, (20 : Int)) = _
    rw [h4]
  · intro hh hw ht
    have key : afterFrame t r r' → confusedHold t0 r' := by
      intro hf
      apply confusedHold_of_view
      rw [(afterFrame_shakeViews t r r' hf).1, confused_hold t r hh.1 hh.2.1
        (by rw [hh.2.2.1, hh.2.2.2.1, add32_small _ _ hw]; exact ht)]
      exact view_of_confusedHold t0 r hh
    refine ⟨key, ?_⟩
    rw [AnimConfused_active r hh.1]
    exact key
  · intro hh hw ht hf
    have e := (afterFrame_shakeViews t r r' hf).1
    rw [confused_end t r hh.1 hh.2.1
      (by rw [hh.2.2.1, hh.2.2.2.1, add32_small _ _ hw]; exact ht)] at e
    unfold confusedView at e
    simp only [Prod.mk.injEq] at e
    exact ⟨e.2.2.2.2.1, e.1, e.2.1⟩
  · intro h2 h4 hf
    apply laughHold_of_view
    rw [(afterFrame_shakeViews t0 _ r' hf).2, laugh_trigger t0 (AnimLaugh r) rfl h2]
    show (true, false, t0, r.laughAnimationDuration, true, (5 : Int)) = _
    rw [h4]
  · intro hh hw ht
    have key : afterFrame t r r' → laughHold t0 r' := by
      intro hf
      apply laughHold_of_view
      rw [(afterFrame_shakeViews t r r' hf).2, laugh_hold t r hh.1 hh.2.1
        (by rw [hh.2.2.1, hh.2.2.2.1, add32_small _ _ hw]; exact ht)]
      exact view_of_laughHold t0 r hh
    refine ⟨key, ?_⟩
    rw [AnimLaugh_active r hh.1]
    exact key
  · intro hh hw ht hf
    have e := (afterFrame_shakeViews t r r' hf).2
    rw [laugh_end t r hh.1 hh.2.1
      (by rw [hh.2.2.1, hh.2.2.2.1, add32_small _ _ hw]; exact ht)] at e
    unfold laughView at e
    simp only [Prod.mk.injEq] at e
    exact ⟨e.2.2.2.2.1, e.1, e.2.1⟩
  · intro hq hd lerp display g
    obtain ⟨r1, px, h, _⟩ := DrawEyes_quiet lerp display g t r hq hd
    exact ⟨_, h, Or.inr ⟨lerp, display, g, _, h⟩⟩
/-- C16 (witness): `AnimConfused()` after `Begin(device, 128, 64, 50)`,
a frame at 100 that starts the cycle, a second `AnimConfused()` and a frame at 300 inside the
cycle, and a frame at 600 that ends it. -/
theorem C16_confused_cycle_witness :
    ∃ r1 r2 r3 : RoboEyes,
      handleAnimations ⟨0, 0, 0, 0⟩ 100 (AnimConfused (Begin zeroValue 0 0 128 64 50)) =
        Except.ok r1 ∧
      handleAnimations ⟨0, 0, 0, 0⟩ 300 (AnimConfused r1) = Except.ok r2 ∧
      handleAnimations ⟨0, 0, 0, 0⟩ 600 r2 = Except.ok r3 ∧
      confusedHold 100 r1 ∧ confusedHold 100 r2 ∧
      r3.hFlicker = false ∧ r3.confused = false ∧ r3.confusedToggle = true := by
  refine ⟨_, _, _, rfl, rfl, rfl, ?_⟩
  have h1 := (C16_confused_cycle 100 100 (Begin zeroValue 0 0 128 64 50) _).1 rfl rfl
    (Or.inl ⟨⟨0, 0, 0, 0⟩, rfl⟩)
  have h2 := ((C16_confused_cycle 100 300 _ _).2.1 h1 (by decide) (by decide)).2
    (Or.inl ⟨⟨0, 0, 0, 0⟩, rfl⟩)
  have h3 := (C16_confused_cycle 100 600 _ _).2.2.1 h2 (by decide) (by decide)
    (Or.inl ⟨⟨0, 0, 0, 0⟩, rfl⟩)
  exact ⟨h1, h2, h3⟩

/-! ## The frame drawn in cyclops mode after start-up -/

theorem handleAnimations_still (g : Draws) (t : Nat) (r : RoboEyes) (h : still r) :
    handleAnimations g t r = Except.ok (handleAnimationsCyclops r) := by
  obtain ⟨h1, h2, h3, h4, h5, h6⟩ := h
  have e1 : handleAnimationsBlink g t r = Except.ok r := by
    unfold handleAnimationsBlink
    rw [if_neg (by rw [h1]; simp)]; rfl
  have e2 : handleAnimationsLaugh t r = r := by
    unfold handleAnimationsLaugh
    rw [if_neg (by rw [h3]; simp)]
  have e3 : handleAnimationsConfused t r = r := by
    unfold handleAnimationsConfused
    rw [if_neg (by rw [h4]; simp)]
  have e4 : handleAnimationsIdle g t r = Except.ok r := by
    unfold handleAnimationsIdle
    rw [if_neg (by rw [h2]; simp)]; rfl
  have e5 : handleAnimationsHFlicker r = r := by
    unfold handleAnimationsHFlicker
    rw [if_neg (by rw [h5]; simp)]
  have e6 : handleAnimationsVFlicker r = r := by
    unfold handleAnimationsVFlicker
    rw [if_neg (by rw [h6]; simp)]
  unfold handleAnimations
  rw [e1]
  show (do
    let r ← handleAnimationsIdle g t (handleAnimationsConfused t (handleAnimationsLaugh t r))
    (pure (handleAnimationsCyclops (handleAnimationsVFlicker
      (handleAnimationsHFlicker r))) : Except Fault RoboEyes)) = _
  rw [e2, e3, e4]
  show Except.ok (handleAnimationsCyclops (handleAnimationsVFlicker
    (handleAnimationsHFlicker r))) = _
  rw [e5, e6]

theorem still_calculateGeometry (r : RoboEyes) (h : still r) : still (calculateGeometry r) := by
  have hg := gateView_calculateGeometry r
  obtain ⟨hc, hl⟩ := calculateGeometry_shakeViews r
  unfold gateView at hg
  unfold confusedView at hc
  unfold laughView at hl
  simp only [Prod.mk.injEq] at hg hc hl
  obtain ⟨h1, h2, h3, h4, h5, h6⟩ := h
  unfold still
  rw [hg.2.2.1, hg.2.2.2.1, hl.1, hc.1, hc.2.2.2.2.1, hl.2.2.2.2.1]
  exact ⟨h1, h2, h3, h4, h5, h6⟩

theorem drawEyelidsRender_happy (lerp : Int → Int → Int → Int) (r : RoboEyes)
    (h5 : r.eyelidsTiredHeight = 0) (h6 : r.eyelidsAngryHeight = 0) :
    drawEyelidsRender lerp r = Except.ok (drawEyelidsHappy r) := by
  unfold drawEyelidsRender drawEyelidsHappy
  dsimp only
  rw [h5, h6]
  simp only [gt_iff_lt, lt_self_iff_false, if_false]
  rfl

theorem DrawEyes_quietFrame (lerp : Int → Int → Int → Int) (display : Option Nat) (g : Draws)
    (t : Nat) (r : RoboEyes) (hs : still r) (hq : quiet r) (hd : r.device ≠ none) :
    DrawEyes lerp display g t r = Except.ok (quietFrame r) := by
  have hg := gateView_calculateGeometry r
  obtain ⟨hq0, _, _⟩ := quiet_of_gateView r _ hg hq
  have hg1 := gateView_handleAnimationsCyclops (calculateGeometry r)
  obtain ⟨hq1, _, _⟩ := quiet_of_gateView _ _ hg1 hq0
  have hg2 := drawEyelids_quiet _ hq1
  obtain ⟨hq2, _, _⟩ := quiet_of_gateView _ _ hg2 hq1
  rw [DrawEyes_eq, handleAnimations_still g t _ (still_calculateGeometry r hs)]
  dsimp only
  rw [if_neg (by rw [(device_schedulerBlocks t _).2.2.2.2, device_calculateGeometry]; exact hd),
    drawEyelidsRender_happy lerp _ hq2.2.2.2.2.1 hq2.2.2.2.2.2]
  rfl
theorem fillRect_screen (a b : RoboEyes) (hw : a.screenWidth = b.screenWidth)
    (hh : a.screenHeight = b.screenHeight) (x y width height : Int) (c : RGBA) :
    fillRect a x y width height c = fillRect b x y width height c := by
  unfold fillRect
  rw [hw, hh]

theorem drawFastHLine_screen (a b : RoboEyes) (hw : a.screenWidth = b.screenWidth)
    (x y length : Int) (c : RGBA) :
    drawFastHLine a x y length c = drawFastHLine b x y length c := by
  unfold drawFastHLine
  rw [hw]

theorem fillCircleSpans_screen (a b : RoboEyes) (hw : a.screenWidth = b.screenWidth)
    (x0 y0 corners : Int) (c : RGBA) (x y : Int) :
    fillCircleSpans a x0 y0 corners c x y = fillCircleSpans b x0 y0 corners c x y := by
  unfold fillCircleSpans
  simp only [drawFastHLine_screen a b hw]

theorem fillCircleLoop_screen (a b : RoboEyes) (hw : a.screenWidth = b.screenWidth)
    (x0 y0 corners : Int) (c : RGBA) (fuel : Nat) :
    ∀ f ddF_x ddF_y x y : Int,
      fillCircleLoop a x0 y0 corners c fuel f ddF_x ddF_y x y =
        fillCircleLoop b x0 y0 corners c fuel f ddF_x ddF_y x y := by
  induction fuel with
  | zero => intro f ddF_x ddF_y x y; rfl
  | succ n ih =>
    intro f ddF_x ddF_y x y
    unfold fillCircleLoop
    simp only [fillCircleSpans_screen a b hw, ih]

theorem fillCircle_screen (a b : RoboEyes) (hw : a.screenWidth = b.screenWidth)
    (x0 y0 radius corners : Int) (c : RGBA) :
    fillCircle a x0 y0 radius corners c = fillCircle b x0 y0 radius corners c := by
  unfold fillCircle
  simp only [fillCircleLoop_screen a b hw]

theorem fillRoundRect_screen (a b : RoboEyes) (hw : a.screenWidth = b.screenWidth)
    (hh : a.screenHeight = b.screenHeight) (x y width height radius : Int) (c : RGBA) :
    fillRoundRect a x y width height radius c = fillRoundRect b x y width height radius c := by
  unfold fillRoundRect
  simp only [fillRect_screen a b hw hh, fillCircle_screen a b hw]

theorem withMeta_calculateGeometry (d : Option Nat) (n : Nat) (r : RoboEyes) :
    calculateGeometry (withMeta d n r) = withMeta d n (calculateGeometry r) := by
  have h1 : ∀ s, calculateGeometryRadius (withMeta d n s) =
      withMeta d n (calculateGeometryRadius s) := fun _ => rfl
  have h2 : ∀ s, calculateGeometryPosition (withMeta d n s) =
      withMeta d n (calculateGeometryPosition s) := fun _ => rfl
  have h3 : ∀ s, calculateGeometryWidth (withMeta d n s) =
      withMeta d n (calculateGeometryWidth s) := fun _ => rfl
  have h4 : ∀ s, calculateGeometryReopen (withMeta d n s) =
      withMeta d n (calculateGeometryReopen s) := by
    intro s; unfold calculateGeometryReopen withMeta; dsimp only; split_ifs <;> rfl
  have h5 : ∀ s, calculateGeometryHeightR (withMeta d n s) =
      withMeta d n (calculateGeometryHeightR s) := fun _ => rfl
  have h6 : ∀ s, calculateGeometryHeightL (withMeta d n s) =
      withMeta d n (calculateGeometryHeightL s) := fun _ => rfl
  have h7 : ∀ s, calculateGeometryCurious (withMeta d n s) =
      withMeta d n (calculateGeometryCurious s) := by
    intro s; unfold calculateGeometryCurious withMeta GetScreenConstraintX; dsimp only
    split_ifs <;> rfl
  unfold calculateGeometry
  rw [h7, h6, h5, h4, h3, h2, h1]

theorem withMeta_drawEyelids (d : Option Nat) (n : Nat) (r : RoboEyes) :
    drawEyelidsSmooth (drawEyelidsTargets (withMeta d n r)) =
      withMeta d n (drawEyelidsSmooth (drawEyelidsTargets r)) := by
  have h1 : drawEyelidsTargets (withMeta d n r) = withMeta d n (drawEyelidsTargets r) := by
    unfold drawEyelidsTargets withMeta; dsimp only; split_ifs <;> rfl
  rw [h1]; rfl

theorem withMeta_handleAnimationsCyclops (d : Option Nat) (n : Nat) (r : RoboEyes) :
    handleAnimationsCyclops (withMeta d n r) = withMeta d n (handleAnimationsCyclops r) := by
  unfold handleAnimationsCyclops withMeta; dsimp only; split_ifs <;> rfl

theorem withMeta_frameStep (d : Option Nat) (n : Nat) (r : RoboEyes) :
    frameStep (withMeta d n r) = withMeta d n (frameStep r) := by
  unfold frameStep
  rw [withMeta_calculateGeometry, withMeta_handleAnimationsCyclops, withMeta_drawEyelids]

theorem withMeta_drawEyeShapes (d : Option Nat) (n : Nat) (r : RoboEyes) :
    drawEyeShapes (withMeta d n r) = drawEyeShapes r := by
  unfold drawEyeShapes
  simp only [fillRoundRect_screen (withMeta d n r) r rfl rfl]
  rfl

theorem withMeta_drawEyelidsHappy (d : Option Nat) (n : Nat) (r : RoboEyes) :
    drawEyelidsHappy (withMeta d n r) = drawEyelidsHappy r := by
  unfold drawEyelidsHappy
  simp only [fillRoundRect_screen (withMeta d n r) r rfl rfl]
  rfl

theorem withMeta_quietFrame (d : Option Nat) (n : Nat) (r : RoboEyes) :
    quietFrame (withMeta d n r) = (withMeta d n (quietFrame r).1, (quietFrame r).2) := by
  unfold quietFrame
  rw [withMeta_frameStep, withMeta_calculateGeometry, withMeta_handleAnimationsCyclops,
    withMeta_drawEyeShapes, withMeta_drawEyelidsHappy]

theorem withMeta_still (d : Option Nat) (n : Nat) (r : RoboEyes) (h : still r) :
    still (withMeta d n r) := h

theorem withMeta_quiet (d : Option Nat) (n : Nat) (r : RoboEyes) (h : quiet r) :
    quiet (withMeta d n r) := h
theorem Begin_opening (now device : Nat) :
    Begin zeroValue now device 128 64 50 =
      withMeta (some device) now (openingState 1 14 64 64) := rfl

theorem frameStep_opening :
    frameStep (openingState 1 14 64 64) = openingState 18 18 69 74 ∧
    frameStep (openingState 18 18 69 74) = openingState 27 18 71 74 ∧
    frameStep (openingState 27 18 71 74) = openingState 31 17 72 74 ∧
    frameStep (openingState 31 17 72 74) = openingState 33 16 73 74 ∧
    frameStep (openingState 33 16 73 74) = openingState 34 15 73 74 ∧
    frameStep (openingState 34 15 73 74) = openingState 35 14 73 74 ∧
    frameStep (openingState 35 14 73 74) = openingState 35 14 73 74 :=
  ⟨rfl, rfl, rfl, rfl, rfl, rfl, rfl⟩

theorem openingState_still (h y rx rxn : Int) (c : Bool) :
    still (SetCyclops (openingState h y rx rxn) c) ∧
      quiet (SetCyclops (openingState h y rx rxn) c) :=
  ⟨⟨rfl, rfl, rfl, rfl, rfl, rfl⟩, ⟨rfl, rfl, rfl, rfl, rfl, rfl⟩⟩

theorem cyclops_frame_0 :
    leftEyeOnly (openingState 1 14 64 64)
      (Except.ok (quietFrame (SetCyclops (openingState 1 14 64 64) true))) := by
  decide!

theorem cyclops_frame_1 :
    leftEyeOnly (openingState 18 18 69 74)
      (Except.ok (quietFrame (SetCyclops (openingState 18 18 69 74) true))) := by
  decide!

theorem cyclops_frame_2 :
    leftEyeOnly (openingState 27 18 71 74)
      (Except.ok (quietFrame (SetCyclops (openingState 27 18 71 74) true))) := by
  decide!

theorem cyclops_frame_3 :
    leftEyeOnly (openingState 31 17 72 74)
      (Except.ok (quietFrame (SetCyclops (openingState 31 17 72 74) true))) := by
  decide!

theorem cyclops_frame_4 :
    leftEyeOnly (openingState 33 16 73 74)
      (Except.ok (quietFrame (SetCyclops (openingState 33 16 73 74) true))) := by
  decide!

theorem cyclops_frame_5 :
    leftEyeOnly (openingState 34 15 73 74)
      (Except.ok (quietFrame (SetCyclops (openingState 34 15 73 74) true))) := by
  decide!

theorem cyclops_frame_6 :
    leftEyeOnly (openingState 35 14 73 74)
      (Except.ok (quietFrame (SetCyclops (openingState 35 14 73 74) true))) := by
  decide!

theorem cyclops_frame_opening (s : RoboEyes) (hs : s ∈ openingStates) :
    leftEyeOnly s (Except.ok (quietFrame (SetCyclops s true))) := by
  unfold openingStates at hs
  simp only [List.mem_cons, List.mem_singleton, List.not_mem_nil, or_false] at hs
  rcases hs with h | h | h | h | h | h | h <;> rw [h]
  · exact cyclops_frame_0
  · exact cyclops_frame_1
  · exact cyclops_frame_2
  · exact cyclops_frame_3
  · exact cyclops_frame_4
  · exact cyclops_frame_5
  · exact cyclops_frame_6

theorem openingStates_step (s : RoboEyes) (hs : s ∈ openingStates) :
    still s ∧ quiet s ∧ frameStep s ∈ openingStates := by
  obtain ⟨e1, e2, e3, e4, e5, e6, e7⟩ := frameStep_opening
  unfold openingStates at hs ⊢
  simp only [List.mem_cons, List.mem_singleton, List.not_mem_nil, or_false] at hs
  rcases hs with h | h | h | h | h | h | h <;> subst h <;>
    refine ⟨(openingState_still _ _ _ _ false).1, (openingState_still _ _ _ _ false).2, ?_⟩
  · rw [e1]; simp
  · rw [e2]; simp
  · rw [e3]; simp
  · rw [e4]; simp
  · rw [e5]; simp
  · rw [e6]; simp
  · rw [e7]; simp

theorem withMeta_device (dev n : Nat) (r : RoboEyes) :
    (withMeta (some dev) n r).device ≠ none :=
  Option.some_ne_none dev

theorem runFrames_opening (lerp : Int → Int → Int → Int) (dev n : Nat)
    (inputs : List (Option Nat × Draws × Nat)) :
    ∀ s ∈ openingStates, ∃ s' ∈ openingStates,
      runFrames lerp inputs (withMeta (some dev) n s) =
        Except.ok (withMeta (some dev) n s') := by
  induction inputs with
  | nil => intro s hs; exact ⟨s, hs, rfl⟩
  | cons i rest ih =>
    intro s hs
    obtain ⟨h1, h2, h3⟩ := openingStates_step s hs
    obtain ⟨s', hs', hr⟩ := ih (frameStep s) h3
    refine ⟨s', hs', ?_⟩
    unfold runFrames
    rw [DrawEyes_quietFrame lerp i.1 i.2.1 i.2.2 _ (withMeta_still (some dev) n s h1)
      (withMeta_quiet (some dev) n s h2) (withMeta_device dev n s), withMeta_quietFrame]
    exact hr

/-- C15: the cyclops mode draws nothing where the right eye was.  For the state reached
by `Begin(device, 128, 64, 50)` on a fresh instance and any number of frames, whatever the
clock readings, the random draws and the results of `Display()`, the frame drawn after
`SetCyclops(true)` returns, none of its `SetPixel` calls lies in the rectangle
`[eyeRx, eyeRx + eyeRwidthCurrent) x [eyeRy, eyeRy + eyeRheightCurrent)` that the right eye
occupied before that frame, each of them lies in the rectangle of the left eye in the colour
of the eyes, and together they are the rounded rectangle of the left eye. -/
theorem C15_cyclops_right_eye_untouched (lerp : Int → Int → Int → Int) (now device : Nat)
    (inputs : List (Option Nat × Draws × Nat)) (display : Option Nat) (g : Draws) (t : Nat) :
    ∃ s, runFrames lerp inputs (Begin zeroValue now device 128 64 50) = Except.ok s ∧
      ∃ out, DrawEyes lerp display g t (SetCyclops s true) = Except.ok out ∧
        (∀ p, DeviceCall.setPixel p ∈ out.2 →
          ¬ inRightEye s p ∧ inLeftEye out.1 p ∧ p.c = out.1.eyesColor) ∧
        pixelsOf out.2 = fillRoundRect out.1 out.1.eyeLx out.1.eyeLy out.1.eyeLwidthCurrent
          out.1.eyeLheightCurrent (out.1.eyeLborderRadiusCurrent : Int) out.1.eyesColor := by
  obtain ⟨s, hs, hr⟩ := runFrames_opening lerp device now inputs
    (openingState 1 14 64 64) (by simp [openingStates])
  refine ⟨withMeta (some device) now s, by rw [Begin_opening]; exact hr, ?_⟩
  have hc := cyclops_frame_opening s hs
  have hq := openingStates_step s hs
  have hd : DrawEyes lerp display g t (SetCyclops (withMeta (some device) now s) true) =
      Except.ok (withMeta (some device) now (quietFrame (SetCyclops s true)).1,
        (quietFrame (SetCyclops s true)).2) := by
    have e : SetCyclops (withMeta (some device) now s) true =
        withMeta (some device) now (SetCyclops s true) := rfl
    have h1 : still (SetCyclops s true) := ⟨hq.1.1, hq.1.2.1, hq.1.2.2.1, hq.1.2.2.2.1,
      hq.1.2.2.2.2.1, hq.1.2.2.2.2.2⟩
    have h2 : quiet (SetCyclops s true) := ⟨hq.2.1.1, hq.2.1.2.1, hq.2.1.2.2.1,
      hq.2.1.2.2.2.1, hq.2.1.2.2.2.2.1, hq.2.1.2.2.2.2.2⟩
    rw [e, DrawEyes_quietFrame lerp display g t _ (withMeta_still _ _ _ h1)
      (withMeta_quiet _ _ _ h2) (withMeta_device device now _), withMeta_quietFrame]
  refine ⟨_, hd, ?_⟩
  unfold leftEyeOnly at hc
  dsimp only at hc ⊢
  obtain ⟨ha, hb⟩ := hc
  refine ⟨?_, ?_⟩
  · intro p hp
    have hm : p ∈ pixelsOf (quietFrame (SetCyclops s true)).2 := by
      unfold pixelsOf
      rw [List.mem_filterMap]
      exact ⟨DeviceCall.setPixel p, hp, rfl⟩
    exact ha p hm
  · rw [hb]
    exact (fillRoundRect_screen (withMeta (some device) now (quietFrame (SetCyclops s true)).1)
      (quietFrame (SetCyclops s true)).1 rfl rfl _ _ _ _ _ _).symm

/-! ## The smoothing of the border radius -/

theorem calculateGeometry_radius (r : RoboEyes) :
    (calculateGeometry r).eyeLborderRadiusCurrent =
      avg8 r.eyeLborderRadiusCurrent r.eyeLborderRadiusNext ∧
    (calculateGeometry r).eyeRborderRadiusCurrent =
      avg8 r.eyeRborderRadiusCurrent r.eyeRborderRadiusNext ∧
    (calculateGeometry r).eyeLborderRadiusNext = r.eyeLborderRadiusNext ∧
    (calculateGeometry r).eyeRborderRadiusNext = r.eyeRborderRadiusNext := by
  have h1 : ∀ s : RoboEyes,
      (calculateGeometryCurious s).eyeLborderRadiusCurrent = s.eyeLborderRadiusCurrent ∧
      (calculateGeometryCurious s).eyeRborderRadiusCurrent = s.eyeRborderRadiusCurrent ∧
      (calculateGeometryCurious s).eyeLborderRadiusNext = s.eyeLborderRadiusNext ∧
      (calculateGeometryCurious s).eyeRborderRadiusNext = s.eyeRborderRadiusNext := by
    intro s; unfold calculateGeometryCurious; dsimp only
    split_ifs <;> exact ⟨rfl, rfl, rfl, rfl⟩
  have h2 : ∀ s : RoboEyes,
      (calculateGeometryReopen s).eyeLborderRadiusCurrent = s.eyeLborderRadiusCurrent ∧
      (calculateGeometryReopen s).eyeRborderRadiusCurrent = s.eyeRborderRadiusCurrent ∧
      (calculateGeometryReopen s).eyeLborderRadiusNext = s.eyeLborderRadiusNext ∧
      (calculateGeometryReopen s).eyeRborderRadiusNext = s.eyeRborderRadiusNext := by
    intro s; unfold calculateGeometryReopen; dsimp only
    split_ifs <;> exact ⟨rfl, rfl, rfl, rfl⟩
  unfold calculateGeometry
  unfold calculateGeometryRadius calculateGeometryPosition calculateGeometryWidth
  dsimp only
  rw [(h2 _).1, (h2 _).2.1, (h2 _).2.2.1, (h2 _).2.2.2]
  unfold calculateGeometryHeightR calculateGeometryHeightL
  dsimp only
  rw [(h1 _).1, (h1 _).2.1, (h1 _).2.2.1, (h1 _).2.2.2]
  exact ⟨rfl, rfl, rfl, rfl⟩
/-- C22 (divergence of the code): the border radius is averaged in `byte` arithmetic.  One
`calculateGeometry` step sets each current radius to `((current + next) mod 256) / 2`.  This is
the integer average `(current + next) / 2`, between `current` and `next`, only while
`current + next < 256`.  After `Begin(device, 128, 64, 50)` and `SetBorderRadius(200, 200)` the
first step gives 104 and the second gives 24, where the integer average is 152; and a radius
with `current = next = 200` becomes 72. -/
theorem C22_radius_average_wraps (r : RoboEyes) :
    (calculateGeometry r).eyeLborderRadiusCurrent =
      (r.eyeLborderRadiusCurrent + r.eyeLborderRadiusNext) % 256 / 2 ∧
    (calculateGeometry r).eyeRborderRadiusCurrent =
      (r.eyeRborderRadiusCurrent + r.eyeRborderRadiusNext) % 256 / 2 ∧
    (r.eyeLborderRadiusCurrent + r.eyeLborderRadiusNext < 256 →
      (calculateGeometry r).eyeLborderRadiusCurrent =
        (r.eyeLborderRadiusCurrent + r.eyeLborderRadiusNext) / 2 ∧
      min r.eyeLborderRadiusCurrent r.eyeLborderRadiusNext ≤
        (calculateGeometry r).eyeLborderRadiusCurrent ∧
      (calculateGeometry r).eyeLborderRadiusCurrent ≤
        max r.eyeLborderRadiusCurrent r.eyeLborderRadiusNext) ∧
    (r.eyeRborderRadiusCurrent + r.eyeRborderRadiusNext < 256 →
      (calculateGeometry r).eyeRborderRadiusCurrent =
        (r.eyeRborderRadiusCurrent + r.eyeRborderRadiusNext) / 2 ∧
      min r.eyeRborderRadiusCurrent r.eyeRborderRadiusNext ≤
        (calculateGeometry r).eyeRborderRadiusCurrent ∧
      (calculateGeometry r).eyeRborderRadiusCurrent ≤
        max r.eyeRborderRadiusCurrent r.eyeRborderRadiusNext) ∧
    (r.eyeLborderRadiusCurrent = 200 → r.eyeLborderRadiusNext = 200 →
      (calculateGeometry r).eyeLborderRadiusCurrent = 72) ∧
    (calculateGeometry (SetBorderRadius (Begin zeroValue 0 0 128 64 50) 200
      200)).eyeLborderRadiusCurrent = 104 ∧
    (calculateGeometry (calculateGeometry (SetBorderRadius (Begin zeroValue 0 0 128 64 50) 200
      200))).eyeLborderRadiusCurrent = 24 ∧
    (calculateGeometry (calculateGeometry (SetBorderRadius (Begin zeroValue 0 0 128 64 50) 200
      200))).eyeRborderRadiusCurrent = 24 := by
  obtain ⟨hl, hr, _, _⟩ := calculateGeometry_radius r
  unfold avg8 at hl hr
  refine ⟨hl, hr, ?_, ?_, ?_, by decide, by decide, by decide⟩
  · intro h
    rw [hl]
    omega
  · intro h
    rw [hr]
    omega
  · intro h1 h2
    rw [hl, h1, h2]

/-- C22 (witness): a state with the radius 104 and the target 200 of both eyes, the state
after `SetBorderRadius(200, 200)` and one step; the sum 304 does not fit a byte and the step
gives 24. -/
theorem C22_radius_average_wraps_witness :
    (calculateGeometry (calculateGeometry (SetBorderRadius (Begin zeroValue 0 0 128 64 50) 200
      200))).eyeLborderRadiusCurrent = (104 + 200) % 256 / 2 ∧
    ((calculateGeometry (SetBorderRadius (Begin zeroValue 0 0 128 64 50) 200
      200)).eyeLborderRadiusCurrent = (8 + 200) / 2 ∧
      min 8 200 ≤ (calculateGeometry (SetBorderRadius (Begin zeroValue 0 0 128 64 50) 200
        200)).eyeLborderRadiusCurrent ∧
      (calculateGeometry (SetBorderRadius (Begin zeroValue 0 0 128 64 50) 200
        200)).eyeLborderRadiusCurrent ≤ max 8 200) :=
  ⟨(C22_radius_average_wraps (calculateGeometry (SetBorderRadius
      (Begin zeroValue 0 0 128 64 50) 200 200))).1,
    (C22_radius_average_wraps (SetBorderRadius (Begin zeroValue 0 0 128 64 50) 200
      200)).2.2.1 (by decide)⟩
/-! ## The reopening rule -/

theorem calculateGeometryCurious_fields (r : RoboEyes) :
    (calculateGeometryCurious r).curious = r.curious ∧
    (calculateGeometryCurious r).eyeL_open = r.eyeL_open ∧
    (calculateGeometryCurious r).eyeR_open = r.eyeR_open ∧
    (calculateGeometryCurious r).eyeLheightDefault = r.eyeLheightDefault ∧
    (calculateGeometryCurious r).eyeRheightDefault = r.eyeRheightDefault ∧
    (calculateGeometryCurious r).eyeLheightCurrent = r.eyeLheightCurrent ∧
    (calculateGeometryCurious r).eyeRheightCurrent = r.eyeRheightCurrent ∧
    (calculateGeometryCurious r).eyeLheightNext = r.eyeLheightNext ∧
    (calculateGeometryCurious r).eyeRheightNext = r.eyeRheightNext ∧
    (r.curious = false → (calculateGeometryCurious r).eyeLheightOffset = 0 ∧
      (calculateGeometryCurious r).eyeRheightOffset = 0) := by
  unfold calculateGeometryCurious
  dsimp only
  split_ifs with h1 <;> refine ⟨rfl, rfl, rfl, rfl, rfl, rfl, rfl, rfl, rfl, ?_⟩ <;>
    intro h <;> first | exact ⟨rfl, rfl⟩ | (rw [h] at h1; cases h1)

theorem calculateGeometry_heights (r : RoboEyes) :
    (calculateGeometry r).curious = r.curious ∧
    (calculateGeometry r).eyeL_open = r.eyeL_open ∧
    (calculateGeometry r).eyeR_open = r.eyeR_open ∧
    (calculateGeometry r).eyeLheightDefault = r.eyeLheightDefault ∧
    (calculateGeometry r).eyeRheightDefault = r.eyeRheightDefault ∧
    (calculateGeometry r).eyeLheightCurrent =
      div16 (add16 (add16 r.eyeLheightCurrent r.eyeLheightNext)
        (calculateGeometryCurious r).eyeLheightOffset) 2 ∧
    (calculateGeometry r).eyeRheightCurrent =
      div16 (add16 (add16 r.eyeRheightCurrent r.eyeRheightNext)
        (calculateGeometryCurious r).eyeRheightOffset) 2 ∧
    (calculateGeometry r).eyeLheightNext =
      (if r.eyeL_open = true ∧
          div16 (add16 (add16 r.eyeLheightCurrent r.eyeLheightNext)
            (calculateGeometryCurious r).eyeLheightOffset) 2 ≤
            add16 1 (calculateGeometryCurious r).eyeLheightOffset
        then r.eyeLheightDefault else r.eyeLheightNext) ∧
    (calculateGeometry r).eyeRheightNext =
      (if r.eyeR_open = true ∧
          div16 (add16 (add16 r.eyeRheightCurrent r.eyeRheightNext)
            (calculateGeometryCurious r).eyeRheightOffset) 2 ≤
            add16 1 (calculateGeometryCurious r).eyeRheightOffset
        then r.eyeRheightDefault else r.eyeRheightNext) := by
  obtain ⟨c1, c2, c3, c4, c5, c6, c7, c8, c9, _⟩ := calculateGeometryCurious_fields r
  unfold calculateGeometry
  rw [← c1, ← c2, ← c3, ← c4, ← c5, ← c6, ← c7, ← c8, ← c9]
  generalize calculateGeometryCurious r = s
  unfold calculateGeometryRadius calculateGeometryPosition calculateGeometryWidth
    calculateGeometryReopen calculateGeometryHeightR calculateGeometryHeightL
  dsimp only
  split_ifs <;> exact ⟨rfl, rfl, rfl, rfl, rfl, rfl, rfl, rfl, rfl⟩

theorem reopen_iterate (cur next : RoboEyes → Int) (d : Int) (P : RoboEyes → Prop)
    (hstep : ∀ s, P s → next s = 1 → 0 ≤ cur s → cur s ≤ 16384 →
      P (calculateGeometry s) ∧ cur (calculateGeometry s) = (cur s + 1) / 2 ∧
      next (calculateGeometry s) = if (cur s + 1) / 2 ≤ 1 then d else 1) :
    ∀ (m : Nat) (s : RoboEyes), P s → next s = 1 → 0 ≤ cur s → cur s ≤ ((2 ^ m : Nat) : Int) →
      m ≤ 14 →
      1 ≤ reopenSteps m (cur s) ∧ reopenSteps m (cur s) ≤ m + 1 ∧
      next (calculateGeometry^[reopenSteps m (cur s)] s) = d ∧
      cur (calculateGeometry^[reopenSteps m (cur s)] s) ≤ 1 ∧
      ∀ j < reopenSteps m (cur s), next (calculateGeometry^[j] s) = 1 := by
  have hone : ∀ s, P s → next s = 1 → 0 ≤ cur s → cur s ≤ 16384 → (cur s + 1) / 2 ≤ 1 →
      next (calculateGeometry^[1] s) = d ∧ cur (calculateGeometry^[1] s) ≤ 1 ∧
      ∀ j < 1, next (calculateGeometry^[j] s) = 1 := by
    intro s hP hn h0 h1 h2
    obtain ⟨_, e1, e2⟩ := hstep s hP hn h0 h1
    rw [if_pos h2] at e2
    refine ⟨e2, by rw [Function.iterate_one, e1]; exact h2, ?_⟩
    intro j hj
    have : j = 0 := by omega
    subst this
    exact hn
  intro m
  induction m with
  | zero =>
    intro s hP hn h0 h1 _
    have h1' : cur s ≤ 1 := by simpa using h1
    have e : reopenSteps 0 (cur s) = 1 := rfl
    rw [e]
    obtain ⟨a, b, c⟩ := hone s hP hn h0 (by omega) (by omega)
    exact ⟨le_refl _, le_refl _, a, b, c⟩
  | succ m ih =>
    intro s hP hn h0 h1 hm
    have hp : (2 ^ (m + 1) : Nat) = 2 * 2 ^ m := by rw [pow_succ]; ring
    have hb : (2 ^ (m + 1) : Nat) ≤ 2 ^ 14 := Nat.pow_le_pow_right (by norm_num) hm
    have hb2 : (2 ^ 14 : Nat) = 16384 := by norm_num
    rw [hp] at h1 hb
    by_cases h2 : (cur s + 1) / 2 ≤ 1
    · have e : reopenSteps (m + 1) (cur s) = 1 := by
        unfold reopenSteps; rw [if_pos h2]
      rw [e]
      obtain ⟨a, b, c⟩ := hone s hP hn h0 (by omega) h2
      exact ⟨le_refl _, by omega, a, b, c⟩
    · have e : reopenSteps (m + 1) (cur s) = reopenSteps m ((cur s + 1) / 2) + 1 := by
        conv_lhs => unfold reopenSteps
        rw [if_neg h2]
      obtain ⟨hP1, e1, e2⟩ := hstep s hP hn h0 (by omega)
      rw [if_neg h2] at e2
      obtain ⟨a1, a2, a3, a4, a5⟩ := ih (calculateGeometry s) hP1 e2 (by rw [e1]; omega)
        (by rw [e1]; omega) (by omega)
      rw [e1] at a1 a2 a3 a4 a5
      rw [e]
      refine ⟨by omega, by omega, ?_, ?_, ?_⟩
      · rw [Function.iterate_succ_apply]; exact a3
      · rw [Function.iterate_succ_apply]; exact a4
      · intro j hj
        cases j with
        | zero => exact hn
        | succ i =>
          rw [Function.iterate_succ_apply]
          exact a5 i (by omega)
theorem height_step (c : Int) (h0 : 0 ≤ c) (h1 : c ≤ 16384) :
    div16 (add16 (add16 c 1) 0) 2 = (c + 1) / 2 ∧ add16 1 0 = 1 := by
  have e1 : add16 (add16 c 1) 0 = c + 1 := by unfold add16 wrap16; omega
  have e2 : Int.tdiv (c + 1) 2 = (c + 1) / 2 := by rw [tdiv_two, if_pos (by omega)]
  refine ⟨?_, by decide⟩
  rw [e1]
  unfold div16
  rw [e2]
  unfold wrap16; omega

theorem blink_stepL (d : Int) (s : RoboEyes)
    (hP : s.curious = false ∧ s.eyeL_open = true ∧ s.eyeLheightDefault = d)
    (hn : s.eyeLheightNext = 1) (h0 : 0 ≤ s.eyeLheightCurrent)
    (h1 : s.eyeLheightCurrent ≤ 16384) :
    ((calculateGeometry s).curious = false ∧ (calculateGeometry s).eyeL_open = true ∧
      (calculateGeometry s).eyeLheightDefault = d) ∧
    (calculateGeometry s).eyeLheightCurrent = (s.eyeLheightCurrent + 1) / 2 ∧
    (calculateGeometry s).eyeLheightNext =
      if (s.eyeLheightCurrent + 1) / 2 ≤ 1 then d else 1 := by
  obtain ⟨a1, a2, _, a4, _, a6, _, a8, _⟩ := calculateGeometry_heights s
  obtain ⟨o1, _⟩ := (calculateGeometryCurious_fields s).2.2.2.2.2.2.2.2.2 hP.1
  obtain ⟨e1, e2⟩ := height_step s.eyeLheightCurrent h0 h1
  rw [o1, hn, e1] at a6
  rw [o1, hn, e1, e2, hP.2.1, hP.2.2] at a8
  refine ⟨⟨a1.trans hP.1, a2.trans hP.2.1, a4.trans hP.2.2⟩, a6, ?_⟩
  rw [a8]
  simp only [true_and]

theorem blink_stepR (d : Int) (s : RoboEyes)
    (hP : s.curious = false ∧ s.eyeR_open = true ∧ s.eyeRheightDefault = d)
    (hn : s.eyeRheightNext = 1) (h0 : 0 ≤ s.eyeRheightCurrent)
    (h1 : s.eyeRheightCurrent ≤ 16384) :
    ((calculateGeometry s).curious = false ∧ (calculateGeometry s).eyeR_open = true ∧
      (calculateGeometry s).eyeRheightDefault = d) ∧
    (calculateGeometry s).eyeRheightCurrent = (s.eyeRheightCurrent + 1) / 2 ∧
    (calculateGeometry s).eyeRheightNext =
      if (s.eyeRheightCurrent + 1) / 2 ≤ 1 then d else 1 := by
  obtain ⟨a1, _, a3, _, a5, _, a7, _, a9⟩ := calculateGeometry_heights s
  obtain ⟨_, o2⟩ := (calculateGeometryCurious_fields s).2.2.2.2.2.2.2.2.2 hP.1
  obtain ⟨e1, e2⟩ := height_step s.eyeRheightCurrent h0 h1
  rw [o2, hn, e1] at a7
  rw [o2, hn, e1, e2, hP.2.1, hP.2.2] at a9
  refine ⟨⟨a1.trans hP.1, a3.trans hP.2.1, a5.trans hP.2.2⟩, a7, ?_⟩
  rw [a9]
  simp only [true_and]

theorem closed_stays (r : RoboEyes) (k : Nat) :
    (r.eyeL_open = false → (calculateGeometry^[k] r).eyeLheightNext = r.eyeLheightNext) ∧
    (r.eyeR_open = false → (calculateGeometry^[k] r).eyeRheightNext = r.eyeRheightNext) := by
  induction k generalizing r with
  | zero => exact ⟨fun _ => rfl, fun _ => rfl⟩
  | succ k ih =>
    obtain ⟨_, a2, a3, _, _, _, _, a8, a9⟩ := calculateGeometry_heights r
    rw [Function.iterate_succ_apply]
    constructor
    · intro h
      rw [(ih (calculateGeometry r)).1 (a2.trans h), a8, if_neg (by rw [h]; simp)]
    · intro h
      rw [(ih (calculateGeometry r)).2 (a3.trans h), a9, if_neg (by rw [h]; simp)]

/-- C23: a blink completes through the reopening rule.  For every state with curiosity off
and `0 <= eyeLheightCurrent <= 16383`, after `Blink()` there is a number `k` of
`calculateGeometry` steps, `1 <= k <= 16`, such that step `k` brings `eyeLheightCurrent` to at
most 1 and sets `eyeLheightNext` back to `eyeLheightDefault`, while before it `eyeLheightNext`
is 1; `k = 6` for the height 36.  The same holds for the right eye.  When the open flag of an
eye is false, as after `Close()`, no number of `calculateGeometry` steps changes the target
height of that eye. -/
theorem C23_blink_reopens (r : RoboEyes) :
    (r.curious = false → 0 ≤ r.eyeLheightCurrent → r.eyeLheightCurrent ≤ 16383 →
      ∃ k : Nat, 1 ≤ k ∧ k ≤ 16 ∧
        (calculateGeometry^[k] (Blink r)).eyeLheightNext = r.eyeLheightDefault ∧
        (calculateGeometry^[k] (Blink r)).eyeLheightCurrent ≤ 1 ∧
        (∀ j < k, (calculateGeometry^[j] (Blink r)).eyeLheightNext = 1) ∧
        (r.eyeLheightCurrent = 36 → k = 6)) ∧
    (r.curious = false → 0 ≤ r.eyeRheightCurrent → r.eyeRheightCurrent ≤ 16383 →
      ∃ k : Nat, 1 ≤ k ∧ k ≤ 16 ∧
        (calculateGeometry^[k] (Blink r)).eyeRheightNext = r.eyeRheightDefault ∧
        (calculateGeometry^[k] (Blink r)).eyeRheightCurrent ≤ 1 ∧
        (∀ j < k, (calculateGeometry^[j] (Blink r)).eyeRheightNext = 1) ∧
        (r.eyeRheightCurrent = 36 → k = 6)) ∧
    (∀ k : Nat, (calculateGeometry^[k] (Close r)).eyeLheightNext = 1 ∧
      (calculateGeometry^[k] (Close r)).eyeRheightNext = 1) ∧
    (r.eyeL_open = false →
      ∀ k : Nat, (calculateGeometry^[k] r).eyeLheightNext = r.eyeLheightNext) ∧
    (r.eyeR_open = false →
      ∀ k : Nat, (calculateGeometry^[k] r).eyeRheightNext = r.eyeRheightNext) := by
  have hpow : (((2 ^ 14 : Nat) : Nat) : Int) = 16384 := by norm_num
  refine ⟨?_, ?_, ?_, ?_, ?_⟩
  · intro hc h0 h1
    obtain ⟨b1, b2, b3, b4, b5⟩ := reopen_iterate (fun s => s.eyeLheightCurrent)
      (fun s => s.eyeLheightNext) r.eyeLheightDefault
      (fun s => s.curious = false ∧ s.eyeL_open = true ∧
        s.eyeLheightDefault = r.eyeLheightDefault)
      (blink_stepL r.eyeLheightDefault) 14 (Blink r) ⟨hc, rfl, rfl⟩ rfl h0
      (by rw [hpow]; exact le_trans h1 (by decide)) (le_refl _)
    refine ⟨_, b1, by omega, b3, b4, b5, ?_⟩
    intro h
    show reopenSteps 14 r.eyeLheightCurrent = 6
    rw [h]
    decide
  · intro hc h0 h1
    obtain ⟨b1, b2, b3, b4, b5⟩ := reopen_iterate (fun s => s.eyeRheightCurrent)
      (fun s => s.eyeRheightNext) r.eyeRheightDefault
      (fun s => s.curious = false ∧ s.eyeR_open = true ∧
        s.eyeRheightDefault = r.eyeRheightDefault)
      (blink_stepR r.eyeRheightDefault) 14 (Blink r) ⟨hc, rfl, rfl⟩ rfl h0
      (by rw [hpow]; exact le_trans h1 (by decide)) (le_refl _)
    refine ⟨_, b1, by omega, b3, b4, b5, ?_⟩
    intro h
    show reopenSteps 14 r.eyeRheightCurrent = 6
    rw [h]
    decide
  · intro k
    exact ⟨(closed_stays (Close r) k).1 rfl, (closed_stays (Close r) k).2 rfl⟩
  · intro h k
    exact (closed_stays r k).1 h
  · intro h k
    exact (closed_stays r k).2 h

/-- C23 (witness): a blink on the state after `Begin(device, 128, 64, 50)` with the eyes
brought to the height 36. -/
theorem C23_blink_reopens_witness :
    ∃ k : Nat, 1 ≤ k ∧ k ≤ 16 ∧
      (calculateGeometry^[k] (Blink { Begin zeroValue 0 0 128 64 50 with
        eyeLheightCurrent := 36 })).eyeLheightNext = 36 ∧
      (calculateGeometry^[k] (Blink { Begin zeroValue 0 0 128 64 50 with
        eyeLheightCurrent := 36 })).eyeLheightCurrent ≤ 1 ∧
      (∀ j < k, (calculateGeometry^[j] (Blink { Begin zeroValue 0 0 128 64 50 with
        eyeLheightCurrent := 36 })).eyeLheightNext = 1) ∧
      ((36 : Int) = 36 → k = 6) :=
  (C23_blink_reopens { Begin zeroValue 0 0 128 64 50 with eyeLheightCurrent := 36 }).1
    rfl (by decide) (by decide)
/-! ## The oscillation of the flicker -/

theorem handleAnimations_nothingFires (g : Draws) (t : Nat) (r : RoboEyes)
    (h : nothingFires t r) :
    handleAnimations g t r =
      Except.ok (handleAnimationsCyclops (handleAnimationsVFlicker
        (handleAnimationsHFlicker r))) := by
  obtain ⟨h1, h2, h3, h4⟩ := h
  have e1 : handleAnimationsBlink g t r = Except.ok r := by
    unfold handleAnimationsBlink
    rw [if_neg h1]; rfl
  have e2 : handleAnimationsLaugh t r = r := by
    by_cases hl : r.laugh = true
    · exact laugh_hold t r hl (h2 hl).1 (h2 hl).2
    · unfold handleAnimationsLaugh
      rw [if_neg hl]
  have e3 : handleAnimationsConfused t r = r := by
    by_cases hc : r.confused = true
    · exact confused_hold t r hc (h3 hc).1 (h3 hc).2
    · unfold handleAnimationsConfused
      rw [if_neg hc]
  have e4 : handleAnimationsIdle g t r = Except.ok r := by
    unfold handleAnimationsIdle
    rw [if_neg h4]; rfl
  unfold handleAnimations
  rw [e1]
  show (do
    let r ← handleAnimationsIdle g t (handleAnimationsConfused t (handleAnimationsLaugh t r))
    (pure (handleAnimationsCyclops (handleAnimationsVFlicker
      (handleAnimationsHFlicker r))) : Except Fault RoboEyes)) = _
  rw [e2, e3, e4]
  rfl

theorem handleAnimationsHFlicker_fields (r : RoboEyes) :
    (handleAnimationsHFlicker r).hFlicker = r.hFlicker ∧
    (handleAnimationsHFlicker r).hFlickerAmplitude = r.hFlickerAmplitude ∧
    (handleAnimationsHFlicker r).hFlickerAlternate =
      (if r.hFlicker = true then !r.hFlickerAlternate else r.hFlickerAlternate) ∧
    (handleAnimationsHFlicker r).eyeLx =
      (if r.hFlicker = true then
        (if r.hFlickerAlternate = true then add16 r.eyeLx r.hFlickerAmplitude
          else sub16 r.eyeLx r.hFlickerAmplitude)
        else r.eyeLx) ∧
    (handleAnimationsHFlicker r).eyeRx =
      (if r.hFlicker = true then
        (if r.hFlickerAlternate = true then add16 r.eyeRx r.hFlickerAmplitude
          else sub16 r.eyeRx r.hFlickerAmplitude)
        else r.eyeRx) ∧
    (handleAnimationsHFlicker r).vFlicker = r.vFlicker ∧
    (handleAnimationsHFlicker r).vFlickerAmplitude = r.vFlickerAmplitude ∧
    (handleAnimationsHFlicker r).vFlickerAlternate = r.vFlickerAlternate ∧
    (handleAnimationsHFlicker r).eyeLy = r.eyeLy ∧
    (handleAnimationsHFlicker r).eyeRy = r.eyeRy ∧
    nothingFiresView (handleAnimationsHFlicker r) = nothingFiresView r := by
  unfold handleAnimationsHFlicker nothingFiresView
  dsimp only
  split_ifs <;> exact ⟨rfl, rfl, rfl, rfl, rfl, rfl, rfl, rfl, rfl, rfl, rfl⟩

theorem handleAnimationsVFlicker_fields (r : RoboEyes) :
    (handleAnimationsVFlicker r).vFlicker = r.vFlicker ∧
    (handleAnimationsVFlicker r).vFlickerAmplitude = r.vFlickerAmplitude ∧
    (handleAnimationsVFlicker r).vFlickerAlternate =
      (if r.vFlicker = true then !r.vFlickerAlternate else r.vFlickerAlternate) ∧
    (handleAnimationsVFlicker r).eyeLy =
      (if r.vFlicker = true then
        (if r.vFlickerAlternate = true then add16 r.eyeLy r.vFlickerAmplitude
          else sub16 r.eyeLy r.vFlickerAmplitude)
        else r.eyeLy) ∧
    (handleAnimationsVFlicker r).eyeRy =
      (if r.vFlicker = true then
        (if r.vFlickerAlternate = true then add16 r.eyeRy r.vFlickerAmplitude
          else sub16 r.eyeRy r.vFlickerAmplitude)
        else r.eyeRy) ∧
    (handleAnimationsVFlicker r).hFlicker = r.hFlicker ∧
    (handleAnimationsVFlicker r).hFlickerAmplitude = r.hFlickerAmplitude ∧
    (handleAnimationsVFlicker r).hFlickerAlternate = r.hFlickerAlternate ∧
    (handleAnimationsVFlicker r).eyeLx = r.eyeLx ∧
    (handleAnimationsVFlicker r).eyeRx = r.eyeRx ∧
    nothingFiresView (handleAnimationsVFlicker r) = nothingFiresView r := by
  unfold handleAnimationsVFlicker nothingFiresView
  dsimp only
  split_ifs <;> exact ⟨rfl, rfl, rfl, rfl, rfl, rfl, rfl, rfl, rfl, rfl, rfl⟩

theorem handleAnimationsCyclops_fields (r : RoboEyes) :
    (handleAnimationsCyclops r).vFlicker = r.vFlicker ∧
    (handleAnimationsCyclops r).vFlickerAmplitude = r.vFlickerAmplitude ∧
    (handleAnimationsCyclops r).vFlickerAlternate = r.vFlickerAlternate ∧
    (handleAnimationsCyclops r).eyeLy = r.eyeLy ∧
    (handleAnimationsCyclops r).eyeRy = r.eyeRy ∧
    (handleAnimationsCyclops r).hFlicker = r.hFlicker ∧
    (handleAnimationsCyclops r).hFlickerAmplitude = r.hFlickerAmplitude ∧
    (handleAnimationsCyclops r).hFlickerAlternate = r.hFlickerAlternate ∧
    (handleAnimationsCyclops r).eyeLx = r.eyeLx ∧
    (handleAnimationsCyclops r).eyeRx = r.eyeRx ∧
    nothingFiresView (handleAnimationsCyclops r) = nothingFiresView r := by
  unfold handleAnimationsCyclops nothingFiresView
  split_ifs <;> exact ⟨rfl, rfl, rfl, rfl, rfl, rfl, rfl, rfl, rfl, rfl, rfl⟩
theorem flickerBlocks_fields (r : RoboEyes) :
    (handleAnimationsCyclops (handleAnimationsVFlicker
      (handleAnimationsHFlicker r))).hFlicker = r.hFlicker ∧
    (handleAnimationsCyclops (handleAnimationsVFlicker
      (handleAnimationsHFlicker r))).hFlickerAmplitude = r.hFlickerAmplitude ∧
    (handleAnimationsCyclops (handleAnimationsVFlicker
      (handleAnimationsHFlicker r))).hFlickerAlternate =
      (if r.hFlicker = true then !r.hFlickerAlternate else r.hFlickerAlternate) ∧
    (handleAnimationsCyclops (handleAnimationsVFlicker
      (handleAnimationsHFlicker r))).eyeLx =
      (if r.hFlicker = true then
        (if r.hFlickerAlternate = true then add16 r.eyeLx r.hFlickerAmplitude
          else sub16 r.eyeLx r.hFlickerAmplitude)
        else r.eyeLx) ∧
    (handleAnimationsCyclops (handleAnimationsVFlicker
      (handleAnimationsHFlicker r))).eyeRx =
      (if r.hFlicker = true then
        (if r.hFlickerAlternate = true then add16 r.eyeRx r.hFlickerAmplitude
          else sub16 r.eyeRx r.hFlickerAmplitude)
        else r.eyeRx) ∧
    (handleAnimationsCyclops (handleAnimationsVFlicker
      (handleAnimationsHFlicker r))).vFlicker = r.vFlicker ∧
    (handleAnimationsCyclops (handleAnimationsVFlicker
      (handleAnimationsHFlicker r))).vFlickerAmplitude = r.vFlickerAmplitude ∧
    (handleAnimationsCyclops (handleAnimationsVFlicker
      (handleAnimationsHFlicker r))).vFlickerAlternate =
      (if r.vFlicker = true then !r.vFlickerAlternate else r.vFlickerAlternate) ∧
    (handleAnimationsCyclops (handleAnimationsVFlicker
      (handleAnimationsHFlicker r))).eyeLy =
      (if r.vFlicker = true then
        (if r.vFlickerAlternate = true then add16 r.eyeLy r.vFlickerAmplitude
          else sub16 r.eyeLy r.vFlickerAmplitude)
        else r.eyeLy) ∧
    (handleAnimationsCyclops (handleAnimationsVFlicker
      (handleAnimationsHFlicker r))).eyeRy =
      (if r.vFlicker = true then
        (if r.vFlickerAlternate = true then add16 r.eyeRy r.vFlickerAmplitude
          else sub16 r.eyeRy r.vFlickerAmplitude)
        else r.eyeRy) ∧
    nothingFiresView (handleAnimationsCyclops (handleAnimationsVFlicker
      (handleAnimationsHFlicker r))) = nothingFiresView r := by
  obtain ⟨c1, c2, c3, c4, c5, c6, c7, c8, c9, c10, c11⟩ :=
    handleAnimationsCyclops_fields (handleAnimationsVFlicker (handleAnimationsHFlicker r))
  obtain ⟨v1, v2, v3, v4, v5, v6, v7, v8, v9, v10, v11⟩ :=
    handleAnimationsVFlicker_fields (handleAnimationsHFlicker r)
  obtain ⟨h1, h2, h3, h4, h5, h6, h7, h8, h9, h10, h11⟩ := handleAnimationsHFlicker_fields r
  rw [c1, c2, c3, c4, c5, c6, c7, c8, c9, c10, c11, v1, v2, v3, v4, v5, v6, v7, v8, v9, v10,
    v11, h1, h2, h3, h4, h5, h6, h7, h8, h9, h10, h11]
  exact ⟨rfl, rfl, rfl, rfl, rfl, rfl, rfl, rfl, rfl, rfl, rfl⟩

theorem nothingFires_of_view (t : Nat) (a b : RoboEyes)
    (h : nothingFiresView a = nothingFiresView b) (hb : nothingFires t b) :
    nothingFires t a := by
  unfold nothingFiresView at h
  simp only [Prod.mk.injEq] at h
  obtain ⟨h1, h2, h3, h4, ⟨l1, l2, l3, l4⟩, c1, c2, c3, c4⟩ := h
  unfold nothingFires at hb ⊢
  rw [h1, h2, h3, h4, l1, l2, l3, l4, c1, c2, c3, c4]
  exact hb

theorem wrap16_cancel (x a : Int) (hx : isInt16 x) :
    add16 (sub16 x a) a = x ∧ sub16 (add16 x a) a = x := by
  unfold isInt16 at hx
  unfold add16 sub16 wrap16
  omega

/-- C24: the oscillation of the flicker.  In a `handleAnimations` frame in which no other
animation fires (`nothingFires`: also a frame inside a laugh or confused cycle, between its
trigger and its end), an active horizontal flicker of amplitude `a` moves `eyeLx` and `eyeRx` by
the same amount, `-a` when `hFlickerAlternate` is false and `+a` when it is true (no `int16`
overflow), and flips `hFlickerAlternate`; after a second such frame `eyeLx`, `eyeRx` and
`hFlickerAlternate` have their values of before the first one.  With the flicker inactive the
frame changes none of the three.  The vertical flicker does the same to `eyeLy`, `eyeRy` and
`vFlickerAlternate`.  The frames return. -/
theorem C24_flicker_oscillation (g g2 : Draws) (t t2 : Nat) (r : RoboEyes)
    (h1 : nothingFires t r) :
    ∃ r' : RoboEyes, handleAnimations g t r = Except.ok r' ∧
      (r.hFlicker = true →
        r'.hFlickerAlternate = (!r.hFlickerAlternate) ∧
        (r.hFlickerAlternate = false → isInt16 (r.eyeLx - r.hFlickerAmplitude) →
          isInt16 (r.eyeRx - r.hFlickerAmplitude) →
          r'.eyeLx = r.eyeLx - r.hFlickerAmplitude ∧
          r'.eyeRx = r.eyeRx - r.hFlickerAmplitude) ∧
        (r.hFlickerAlternate = true → isInt16 (r.eyeLx + r.hFlickerAmplitude) →
          isInt16 (r.eyeRx + r.hFlickerAmplitude) →
          r'.eyeLx = r.eyeLx + r.hFlickerAmplitude ∧
          r'.eyeRx = r.eyeRx + r.hFlickerAmplitude)) ∧
      (r.hFlicker = false →
        r'.eyeLx = r.eyeLx ∧ r'.eyeRx = r.eyeRx ∧
        r'.hFlickerAlternate = r.hFlickerAlternate) ∧
      (r.vFlicker = true →
        r'.vFlickerAlternate = (!r.vFlickerAlternate) ∧
        (r.vFlickerAlternate = false → isInt16 (r.eyeLy - r.vFlickerAmplitude) →
          isInt16 (r.eyeRy - r.vFlickerAmplitude) →
          r'.eyeLy = r.eyeLy - r.vFlickerAmplitude ∧
          r'.eyeRy = r.eyeRy - r.vFlickerAmplitude) ∧
        (r.vFlickerAlternate = true → isInt16 (r.eyeLy + r.vFlickerAmplitude) →
          isInt16 (r.eyeRy + r.vFlickerAmplitude) →
          r'.eyeLy = r.eyeLy + r.vFlickerAmplitude ∧
          r'.eyeRy = r.eyeRy + r.vFlickerAmplitude)) ∧
      (r.vFlicker = false →
        r'.eyeLy = r.eyeLy ∧ r'.eyeRy = r.eyeRy ∧
        r'.vFlickerAlternate = r.vFlickerAlternate) ∧
      (nothingFires t2 r →
        ∃ r'' : RoboEyes, handleAnimations g2 t2 r' = Except.ok r'' ∧
          r''.hFlickerAlternate = r.hFlickerAlternate ∧
          r''.vFlickerAlternate = r.vFlickerAlternate ∧
          (isInt16 r.eyeLx → r''.eyeLx = r.eyeLx) ∧
          (isInt16 r.eyeRx → r''.eyeRx = r.eyeRx) ∧
          (isInt16 r.eyeLy → r''.eyeLy = r.eyeLy) ∧
          (isInt16 r.eyeRy → r''.eyeRy = r.eyeRy)) := by
  refine ⟨_, handleAnimations_nothingFires g t r h1, ?_⟩
  obtain ⟨a1, a2, a3, a4, a5, a6, a7, a8, a9, a10, a11⟩ := flickerBlocks_fields r
  refine ⟨?_, ?_, ?_, ?_, ?_⟩
  · intro hf
    rw [a3, a4, a5, if_pos hf, if_pos hf, if_pos hf]
    refine ⟨rfl, ?_, ?_⟩
    · intro ha hx hy
      rw [if_neg (by rw [ha]; simp), if_neg (by rw [ha]; simp)]
      exact ⟨wrap16_eq _ hx.1 hx.2, wrap16_eq _ hy.1 hy.2⟩
    · intro ha hx hy
      rw [if_pos ha, if_pos ha]
      exact ⟨wrap16_eq _ hx.1 hx.2, wrap16_eq _ hy.1 hy.2⟩
  · intro hf
    rw [a3, a4, a5, if_neg (by rw [hf]; simp), if_neg (by rw [hf]; simp),
      if_neg (by rw [hf]; simp)]
    exact ⟨rfl, rfl, rfl⟩
  · intro hf
    rw [a8, a9, a10, if_pos hf, if_pos hf, if_pos hf]
    refine ⟨rfl, ?_, ?_⟩
    · intro ha hx hy
      rw [if_neg (by rw [ha]; simp), if_neg (by rw [ha]; simp)]
      exact ⟨wrap16_eq _ hx.1 hx.2, wrap16_eq _ hy.1 hy.2⟩
    · intro ha hx hy
      rw [if_pos ha, if_pos ha]
      exact ⟨wrap16_eq _ hx.1 hx.2, wrap16_eq _ hy.1 hy.2⟩
  · intro hf
    rw [a8, a9, a10, if_neg (by rw [hf]; simp), if_neg (by rw [hf]; simp),
      if_neg (by rw [hf]; simp)]
    exact ⟨rfl, rfl, rfl⟩
  · intro h2
    refine ⟨_, handleAnimations_nothingFires g2 t2 _ (nothingFires_of_view t2 _ r a11 h2), ?_⟩
    obtain ⟨b1, b2, b3, b4, b5, b6, b7, b8, b9, b10, _⟩ := flickerBlocks_fields
      (handleAnimationsCyclops (handleAnimationsVFlicker (handleAnimationsHFlicker r)))
    rw [b3, b4, b5, b8, b9, b10, a1, a2, a3, a4, a5, a6, a7, a8, a9, a10]
    generalize r.hFlicker = hf
    generalize r.hFlickerAlternate = ha
    generalize r.vFlicker = vf
    generalize r.vFlickerAlternate = va
    refine ⟨?_, ?_, ?_, ?_, ?_, ?_⟩
    · cases hf <;> cases ha <;> rfl
    · cases vf <;> cases va <;> rfl
    · intro hx
      have c := wrap16_cancel r.eyeLx r.hFlickerAmplitude hx
      cases hf <;> cases ha <;> simp [c.1, c.2]
    · intro hx
      have c := wrap16_cancel r.eyeRx r.hFlickerAmplitude hx
      cases hf <;> cases ha <;> simp [c.1, c.2]
    · intro hx
      have c := wrap16_cancel r.eyeLy r.vFlickerAmplitude hx
      cases vf <;> cases va <;> simp [c.1, c.2]
    · intro hx
      have c := wrap16_cancel r.eyeRy r.vFlickerAmplitude hx
      cases vf <;> cases va <;> simp [c.1, c.2]

/-- C24 (witness): a hold frame of a confused shake.  After `Begin(device, 128, 64, 50)` and
`AnimConfused()` the confused block of the frame at 100 ms has started the shake (flicker of
amplitude 20, `confusedToggle` false).  The frame at 120 ms is inside the 500 ms of the shake:
`confused` stays true, the eyes move from 28 and 64 to 8 and 44; the frame at 140 ms moves them
back. -/
theorem C24_flicker_oscillation_witness :
    ∃ r' : RoboEyes,
      handleAnimations ⟨0, 0, 0, 0⟩ 120
        (handleAnimationsConfused 100 (AnimConfused (Begin zeroValue 0 0 128 64 50))) =
          Except.ok r' ∧
      r'.confused = true ∧ r'.hFlickerAlternate = true ∧ r'.eyeLx = 28 - 20 ∧
      r'.eyeRx = 64 - 20 ∧
      ∃ r'' : RoboEyes, handleAnimations ⟨0, 0, 0, 0⟩ 140 r' = Except.ok r'' ∧
        r''.hFlickerAlternate = false ∧ r''.eyeLx = 28 ∧ r''.eyeRx = 64 := by
  obtain ⟨r', e1, a, _, _, _, b⟩ := C24_flicker_oscillation ⟨0, 0, 0, 0⟩ ⟨0, 0, 0, 0⟩ 120 140
    (handleAnimationsConfused 100 (AnimConfused (Begin zeroValue 0 0 128 64 50)))
    ⟨by decide, by decide, fun _ => ⟨rfl, by decide⟩, by decide⟩
  obtain ⟨a1, a2, _⟩ := a rfl
  obtain ⟨r'', e2, b1, _, b3, b4, _⟩ :=
    b ⟨by decide, by decide, fun _ => ⟨rfl, by decide⟩, by decide⟩
  have hc : r'.confused = true := by
    have := e1
    cases this
    rfl
  exact ⟨r', e1, hc, a1, (a2 rfl (by decide) (by decide)).1, (a2 rfl (by decide) (by decide)).2,
    r'', e2, b1, b3 (by decide), b4 (by decide)⟩

/-! ## The shake animations and the flicker setting -/

theorem add32_le (a b : Nat) : add32 a b ≤ a + b := by
  unfold add32 wrap32
  exact Nat.mod_le _ _

theorem confusedShake_iff_view (t0 d : Nat) (r : RoboEyes) :
    confusedShake t0 d r ↔ confusedView r = (true, false, t0, d, true, 20) := by
  unfold confusedShake confusedView
  simp only [Prod.mk.injEq]

theorem laughShake_iff_view (t0 d : Nat) (r : RoboEyes) :
    laughShake t0 d r ↔ laughView r = (true, false, t0, d, true, 5) := by
  unfold laughShake laughView
  simp only [Prod.mk.injEq]

theorem handleAnimationsConfused_idleView (t : Nat) (r : RoboEyes) (h : r.confused = false) :
    handleAnimationsConfused t r = r := by
  unfold handleAnimationsConfused
  rw [if_neg (by rw [h]; simp)]

theorem handleAnimationsLaugh_idleView (t : Nat) (r : RoboEyes) (h : r.laugh = false) :
    handleAnimationsLaugh t r = r := by
  unfold handleAnimationsLaugh
  rw [if_neg (by rw [h]; simp)]

/-- C26: a triggered shake overwrites the independent flicker setting.  Whatever
`SetHFlicker(active, amplitude)` set before, the trigger frame after `AnimConfused()` (toggle
up) puts the horizontal flicker on with amplitude 20; every frame before
`start + confusedAnimationDuration` keeps it so; and the first frame at or after that time
leaves `hFlicker = false` and `hFlickerAmplitude = 0`.  The laugh cycle does the same to
`vFlicker` and `vFlickerAmplitude`, with 5 during the cycle.  A frame in which the laugh
animation is not active leaves `vFlicker` and `vFlickerAmplitude` unchanged, and a frame in
which the confused animation is not active leaves `hFlicker` and `hFlickerAmplitude`
unchanged.  A frame is a call of `handleAnimations` or of `DrawEyes`, and `DrawEyes` returns
on every `quiet` state that has a device. -/
theorem C26_shake_overwrites_flicker (t0 t d : Nat) (r r' : RoboEyes) (active : Bool)
    (amplitude : Int) :
    (r.confusedToggle = true →
      afterFrame t0 (AnimConfused (SetHFlicker r active amplitude)) r' →
      confusedShake t0 r.confusedAnimationDuration r') ∧
    (confusedShake t0 d r → t0 + d < 4294967296 → t < t0 + d → afterFrame t r r' →
      confusedShake t0 d r') ∧
    (confusedShake t0 d r → t ≥ t0 + d → afterFrame t r r' →
      r'.hFlicker = false ∧ r'.hFlickerAmplitude = 0 ∧ r'.confused = false ∧
      r'.confusedToggle = true) ∧
    (r.laughToggle = true →
      afterFrame t0 (AnimLaugh (SetVFlicker r active amplitude)) r' →
      laughShake t0 r.laughAnimationDuration r') ∧
    (laughShake t0 d r → t0 + d < 4294967296 → t < t0 + d → afterFrame t r r' →
      laughShake t0 d r') ∧
    (laughShake t0 d r → t ≥ t0 + d → afterFrame t r r' →
      r'.vFlicker = false ∧ r'.vFlickerAmplitude = 0 ∧ r'.laugh = false ∧
      r'.laughToggle = true) ∧
    (r.laugh = false → afterFrame t r r' →
      r'.vFlicker = r.vFlicker ∧ r'.vFlickerAmplitude = r.vFlickerAmplitude ∧
      r'.laugh = false) ∧
    (r.confused = false → afterFrame t r r' →
      r'.hFlicker = r.hFlicker ∧ r'.hFlickerAmplitude = r.hFlickerAmplitude ∧
      r'.confused = false) ∧
    (quiet r → r.device ≠ none →
      ∀ (lerp : Int → Int → Int → Int) (display : Option Nat) (g : Draws),
      ∃ out : RoboEyes × List DeviceCall,
        DrawEyes lerp display g t r = Except.ok out ∧ afterFrame t r out.1) := by
  refine ⟨?_, ?_, ?_, ?_, ?_, ?_, ?_, ?_, ?_⟩
  · intro h1 hf
    rw [confusedShake_iff_view, (afterFrame_shakeViews t0 _ r' hf).1,
      confused_trigger t0 (AnimConfused (SetHFlicker r active amplitude)) rfl h1]
    rfl
  · intro hs hw ht hf
    have hv := (confusedShake_iff_view t0 d r).1 hs
    obtain ⟨s1, s2, s3, s4, _, _⟩ := hs
    rw [confusedShake_iff_view, (afterFrame_shakeViews _ _ _ hf).1,
      confused_hold t r s1 s2 (by rw [s3, s4, add32_small _ _ hw]; exact ht)]
    exact hv
  · intro hs ht hf
    obtain ⟨s1, s2, s3, s4, _, _⟩ := hs
    have hv := (afterFrame_shakeViews _ _ _ hf).1
    rw [confused_end t r s1 s2 (le_trans (add32_le _ _) (by rw [s3, s4]; exact ht))] at hv
    unfold confusedView at hv
    simp only [Prod.mk.injEq] at hv
    exact ⟨hv.2.2.2.2.1, hv.2.2.2.2.2, hv.1, hv.2.1⟩
  · intro h1 hf
    rw [laughShake_iff_view, (afterFrame_shakeViews t0 _ r' hf).2,
      laugh_trigger t0 (AnimLaugh (SetVFlicker r active amplitude)) rfl h1]
    rfl
  · intro hs hw ht hf
    have hv := (laughShake_iff_view t0 d r).1 hs
    obtain ⟨s1, s2, s3, s4, _, _⟩ := hs
    rw [laughShake_iff_view, (afterFrame_shakeViews _ _ _ hf).2,
      laugh_hold t r s1 s2 (by rw [s3, s4, add32_small _ _ hw]; exact ht)]
    exact hv
  · intro hs ht hf
    obtain ⟨s1, s2, s3, s4, _, _⟩ := hs
    have hv := (afterFrame_shakeViews _ _ _ hf).2
    rw [laugh_end t r s1 s2 (le_trans (add32_le _ _) (by rw [s3, s4]; exact ht))] at hv
    unfold laughView at hv
    simp only [Prod.mk.injEq] at hv
    exact ⟨hv.2.2.2.2.1, hv.2.2.2.2.2, hv.1, hv.2.1⟩
  · intro hl hf
    have hv := (afterFrame_shakeViews _ _ _ hf).2
    rw [handleAnimationsLaugh_idleView t r hl] at hv
    unfold laughView at hv
    simp only [Prod.mk.injEq] at hv
    exact ⟨hv.2.2.2.2.1, hv.2.2.2.2.2, hv.1.trans hl⟩
  · intro hc hf
    have hv := (afterFrame_shakeViews _ _ _ hf).1
    rw [handleAnimationsConfused_idleView t r hc] at hv
    unfold confusedView at hv
    simp only [Prod.mk.injEq] at hv
    exact ⟨hv.2.2.2.2.1, hv.2.2.2.2.2, hv.1.trans hc⟩
  · intro hq hd lerp display g
    obtain ⟨r1, px, h, _⟩ := DrawEyes_quiet lerp display g t r hq hd
    exact ⟨_, h, Or.inr ⟨lerp, display, g, _, h⟩⟩

/-- C26 (witness): `SetHFlicker(true, 7)` and `AnimConfused()` after
`Begin(device, 128, 64, 50)`, the trigger frame at 100 and a frame at 600: the amplitude is 20
after the first and 0, with the flicker off, after the second. -/
theorem C26_shake_overwrites_flicker_witness :
    ∃ r1 r2 : RoboEyes,
      handleAnimations ⟨0, 0, 0, 0⟩ 100
        (AnimConfused (SetHFlicker (Begin zeroValue 0 0 128 64 50) true 7)) = Except.ok r1 ∧
      handleAnimations ⟨0, 0, 0, 0⟩ 600 r1 = Except.ok r2 ∧
      confusedShake 100 500 r1 ∧
      r2.hFlicker = false ∧ r2.hFlickerAmplitude = 0 ∧ r2.confused = false ∧
      r2.confusedToggle = true := by
  refine ⟨_, _, rfl, rfl, ?_⟩
  have h1 := (C26_shake_overwrites_flicker 100 100 500 (Begin zeroValue 0 0 128 64 50) _
    true 7).1 rfl (Or.inl ⟨⟨0, 0, 0, 0⟩, rfl⟩)
  have h2 := (C26_shake_overwrites_flicker 100 600 500 _ _ true 7).2.2.1 h1 (by decide)
    (Or.inl ⟨⟨0, 0, 0, 0⟩, rfl⟩)
  exact ⟨h1, h2⟩
/-! ## Quarter circles -/

theorem mem_drawFastHLine (r : RoboEyes) (x y length : Int) (c : RGBA) (p : PixelWrite) :
    p ∈ drawFastHLine r x y length c ↔
      0 < length ∧ x ≤ p.x ∧ p.x < add16 x length ∧ p.x < r.screenWidth ∧ p.y = y ∧
        p.c = c := by
  unfold drawFastHLine
  by_cases h : length ≤ 0
  · rw [if_pos h]
    constructor
    · intro hp; cases hp
    · rintro ⟨h1, _⟩; omega
  · rw [if_neg h]
    dsimp only
    rw [mem_pixel_row, mem_forRange]
    split_ifs with h2
    · constructor
      · rintro ⟨⟨a, b⟩, e1, e2⟩
        exact ⟨by omega, a, by omega, b, e1, e2⟩
      · rintro ⟨_, a, _, b, e1, e2⟩
        exact ⟨⟨a, b⟩, e1, e2⟩
    · constructor
      · rintro ⟨⟨a, b⟩, e1, e2⟩
        exact ⟨by omega, a, b, by omega, e1, e2⟩
      · rintro ⟨_, a, b, _, e1, e2⟩
        exact ⟨⟨a, b⟩, e1, e2⟩

theorem mem_fillCircleLoop (r : RoboEyes) (x0 y0 corners : Int) (c : RGBA) (R : Int)
    (hR : R ≤ 16383) (p : PixelWrite) (fuel : Nat) :
    ∀ (f ddF_x ddF_y x y : Int), 0 ≤ x → y ≤ R →
      p ∈ fillCircleLoop r x0 y0 corners c fuel f ddF_x ddF_y x y →
      ∃ x' y' : Int, 0 ≤ x' ∧ x' ≤ y' ∧ y' ≤ R ∧
        p ∈ fillCircleSpans r x0 y0 corners c x' y' := by
  induction fuel with
  | zero =>
    intro f ddF_x ddF_y x y _ _ hp
    unfold fillCircleLoop at hp
    cases hp
  | succ n ih =>
    intro f ddF_x ddF_y x y hx hy hp
    unfold fillCircleLoop at hp
    by_cases hxy : x ≤ y
    · rw [if_pos hxy] at hp
      dsimp only at hp
      rw [List.mem_append] at hp
      rcases hp with hp | hp
      · exact ⟨x, y, hx, hxy, hy, hp⟩
      · refine ih _ _ _ _ _ ?_ ?_ hp
        · unfold add16 wrap16; omega
        · split_ifs
          · unfold sub16 wrap16; omega
          · exact hy
    · rw [if_neg hxy] at hp
      cases hp
theorem mem_fillCircleSpans (r : RoboEyes) (x0 y0 corners : Int) (c : RGBA) (R x y : Int)
    (p : PixelWrite) (hx0 : small16 x0) (hy0 : small16 y0) (hx : 0 ≤ x) (hxy : x ≤ y)
    (hy : y ≤ R) (hR : R ≤ 16383) (hp : p ∈ fillCircleSpans r x0 y0 corners c x y) :
    p.c = c ∧ p.x < r.screenWidth ∧
    ((cornerBit corners 0 = true ∧ x0 - R ≤ p.x ∧ p.x ≤ x0 + R ∧ y0 - R ≤ p.y ∧ p.y ≤ y0) ∨
     (cornerBit corners 1 = true ∧ x0 ≤ p.x ∧ p.x < x0 + R ∧ y0 - R ≤ p.y ∧ p.y ≤ y0) ∨
     (cornerBit corners 2 = true ∧ x0 - R ≤ p.x ∧ p.x ≤ x0 + R ∧ y0 ≤ p.y ∧ p.y ≤ y0 + R) ∨
     (cornerBit corners 3 = true ∧ x0 ≤ p.x ∧ p.x ≤ x0 + R ∧ y0 ≤ p.y ∧ p.y ≤ y0 + R)) := by
  unfold small16 at hx0 hy0
  unfold fillCircleSpans at hp
  simp only [List.mem_append] at hp
  rcases hp with ((h | h) | h) | h
  · by_cases hb : cornerBit corners 0 = true
    · rw [if_pos hb, List.mem_append, mem_drawFastHLine, mem_drawFastHLine] at h
      refine ⟨by tauto, by tauto, Or.inl ⟨hb, ?_⟩⟩
      unfold add16 sub16 mul16 wrap16 at h
      omega
    · rw [if_neg hb] at h; cases h
  · by_cases hb : cornerBit corners 1 = true
    · rw [if_pos hb, List.mem_append, mem_drawFastHLine, mem_drawFastHLine] at h
      refine ⟨by tauto, by tauto, Or.inr (Or.inl ⟨hb, ?_⟩)⟩
      unfold add16 sub16 wrap16 at h
      omega
    · rw [if_neg hb] at h; cases h
  · by_cases hb : cornerBit corners 2 = true
    · rw [if_pos hb, List.mem_append, mem_drawFastHLine, mem_drawFastHLine] at h
      refine ⟨by tauto, by tauto, Or.inr (Or.inr (Or.inl ⟨hb, ?_⟩))⟩
      unfold add16 sub16 mul16 wrap16 at h
      omega
    · rw [if_neg hb] at h; cases h
  · by_cases hb : cornerBit corners 3 = true
    · rw [if_pos hb, List.mem_append, mem_drawFastHLine, mem_drawFastHLine] at h
      refine ⟨by tauto, by tauto, Or.inr (Or.inr (Or.inr ⟨hb, ?_⟩))⟩
      unfold add16 wrap16 at h
      omega
    · rw [if_neg hb] at h; cases h
theorem mem_fillCircle (r : RoboEyes) (x0 y0 radius corners : Int) (c : RGBA)
    (p : PixelWrite) (hx0 : small16 x0) (hy0 : small16 y0) (hR : radius ≤ 16383)
    (hp : p ∈ fillCircle r x0 y0 radius corners c) :
    0 < radius ∧ p.c = c ∧ p.x < r.screenWidth ∧
    ((cornerBit corners 0 = true ∧ x0 - radius ≤ p.x ∧ p.x ≤ x0 + radius ∧
        y0 - radius ≤ p.y ∧ p.y ≤ y0) ∨
     (cornerBit corners 1 = true ∧ x0 ≤ p.x ∧ p.x < x0 + radius ∧
        y0 - radius ≤ p.y ∧ p.y ≤ y0) ∨
     (cornerBit corners 2 = true ∧ x0 - radius ≤ p.x ∧ p.x ≤ x0 + radius ∧
        y0 ≤ p.y ∧ p.y ≤ y0 + radius) ∨
     (cornerBit corners 3 = true ∧ x0 ≤ p.x ∧ p.x ≤ x0 + radius ∧
        y0 ≤ p.y ∧ p.y ≤ y0 + radius)) := by
  unfold fillCircle at hp
  by_cases h : radius ≤ 0
  · rw [if_pos h] at hp; cases hp
  · rw [if_neg h] at hp
    obtain ⟨x, y, h1, h2, h3, h4⟩ := mem_fillCircleLoop r x0 y0 corners c radius hR p _ _ _ _ _
      _ (le_refl 0) (le_refl radius) hp
    obtain ⟨a, b, d⟩ := mem_fillCircleSpans r x0 y0 corners c radius x y p hx0 hy0 h1 h2 h3 hR
      h4
    exact ⟨by omega, a, b, d⟩

theorem fillCircleSpans_no_bit (r : RoboEyes) (x0 y0 corners : Int) (c : RGBA) (x y : Int)
    (h : corners % 16 = 0) : fillCircleSpans r x0 y0 corners c x y = [] := by
  have b0 : cornerBit corners 0 = false := by
    unfold cornerBit; rw [decide_eq_false_iff_not]; norm_num; omega
  have b1 : cornerBit corners 1 = false := by
    unfold cornerBit; rw [decide_eq_false_iff_not]; norm_num; omega
  have b2 : cornerBit corners 2 = false := by
    unfold cornerBit; rw [decide_eq_false_iff_not]; norm_num; omega
  have b3 : cornerBit corners 3 = false := by
    unfold cornerBit; rw [decide_eq_false_iff_not]; norm_num; omega
  unfold fillCircleSpans
  rw [b0, b1, b2, b3]
  rfl

theorem fillCircleLoop_no_bit (r : RoboEyes) (x0 y0 corners : Int) (c : RGBA)
    (h : corners % 16 = 0) (fuel : Nat) :
    ∀ (f ddF_x ddF_y x y : Int),
      fillCircleLoop r x0 y0 corners c fuel f ddF_x ddF_y x y = [] := by
  induction fuel with
  | zero => intro f ddF_x ddF_y x y; rfl
  | succ n ih =>
    intro f ddF_x ddF_y x y
    unfold fillCircleLoop
    by_cases hxy : x ≤ y
    · rw [if_pos hxy]
      dsimp only
      rw [fillCircleSpans_no_bit r x0 y0 corners c x y h, ih]
      rfl
    · rw [if_neg hxy]

theorem fillCircle_spill (r : RoboEyes) (x0 y0 radius corners : Int) (c : RGBA)
    (hx0 : small16 x0) (hy0 : small16 y0) (h0 : 0 < radius) (hR : radius ≤ 16383)
    (hb : cornerBit corners 0 = true ∨ cornerBit corners 2 = true) (i : Int)
    (h1 : x0 - radius ≤ i) (h2 : i ≤ x0 + radius) (hs : i < r.screenWidth) :
    (⟨i, y0, c⟩ : PixelWrite) ∈ fillCircle r x0 y0 radius corners c := by
  unfold small16 at hx0 hy0
  unfold fillCircle
  rw [if_neg (by omega)]
  unfold fillCircleLoop
  rw [if_pos (by omega)]
  dsimp only
  rw [List.mem_append]
  left
  unfold fillCircleSpans
  simp only [List.mem_append]
  rcases hb with hb | hb
  · left; left; left
    rw [if_pos hb, List.mem_append, mem_drawFastHLine]
    left
    dsimp only
    unfold add16 sub16 mul16 wrap16
    exact ⟨by omega, by omega, by omega, by omega, by omega, rfl⟩
  · left; right
    rw [if_pos hb, List.mem_append, mem_drawFastHLine]
    left
    dsimp only
    unfold add16 sub16 mul16 wrap16
    exact ⟨by omega, by omega, by omega, by omega, by omega, rfl⟩

/-- C21 (divergence of the code): the masks 1 and 4 of `fillCircle` draw across the centre
column.  A mask with none of the four low bits set writes nothing; mask 2 writes only pixels
with `x >= x0` and `y <= y0`, and mask 8 only pixels with `x >= x0` and `y >= y0`.  Mask 1
writes only pixels with `y <= y0` and mask 4 only pixels with `y >= y0`, but both write every
on-screen pixel `(i, y0)` with `x0 < i <= x0 + radius`, to the right of the centre: their
spans start at `x0 - y` and are `2*y + 1` long. -/
theorem C21_fillCircle_quadrants (r : RoboEyes) (x0 y0 radius corners : Int) (c : RGBA) :
    (corners % 16 = 0 → fillCircle r x0 y0 radius corners c = []) ∧
    (small16 x0 → small16 y0 → 0 < radius → radius ≤ 16383 →
      (∀ p ∈ fillCircle r x0 y0 radius 2 c, x0 ≤ p.x ∧ p.y ≤ y0) ∧
      (∀ p ∈ fillCircle r x0 y0 radius 8 c, x0 ≤ p.x ∧ y0 ≤ p.y) ∧
      (∀ p ∈ fillCircle r x0 y0 radius 1 c, p.y ≤ y0) ∧
      (∀ p ∈ fillCircle r x0 y0 radius 4 c, y0 ≤ p.y) ∧
      (∀ i : Int, x0 < i → i ≤ x0 + radius → i < r.screenWidth →
        (⟨i, y0, c⟩ : PixelWrite) ∈ fillCircle r x0 y0 radius 1 c ∧
        (⟨i, y0, c⟩ : PixelWrite) ∈ fillCircle r x0 y0 radius 4 c)) := by
  constructor
  · intro h
    unfold fillCircle
    split_ifs
    · rfl
    · exact fillCircleLoop_no_bit r x0 y0 corners c h _ _ _ _ _ _
  · intro hx0 hy0 h0 hR
    have b10 : cornerBit 1 0 = true := by decide
    have b11 : cornerBit 1 1 = false := by decide
    have b12 : cornerBit 1 2 = false := by decide
    have b13 : cornerBit 1 3 = false := by decide
    have b20 : cornerBit 2 0 = false := by decide
    have b22 : cornerBit 2 2 = false := by decide
    have b23 : cornerBit 2 3 = false := by decide
    have b40 : cornerBit 4 0 = false := by decide
    have b41 : cornerBit 4 1 = false := by decide
    have b42 : cornerBit 4 2 = true := by decide
    have b43 : cornerBit 4 3 = false := by decide
    have b80 : cornerBit 8 0 = false := by decide
    have b81 : cornerBit 8 1 = false := by decide
    have b82 : cornerBit 8 2 = false := by decide
    refine ⟨?_, ?_, ?_, ?_, ?_⟩
    · intro p hp
      obtain ⟨_, _, _, h⟩ := mem_fillCircle r x0 y0 radius 2 c p hx0 hy0 hR hp
      rw [b20, b22, b23] at h
      rcases h with ⟨h, _⟩ | ⟨_, h⟩ | ⟨h, _⟩ | ⟨h, _⟩
      · cases h
      · omega
      · cases h
      · cases h
    · intro p hp
      obtain ⟨_, _, _, h⟩ := mem_fillCircle r x0 y0 radius 8 c p hx0 hy0 hR hp
      rw [b80, b81, b82] at h
      rcases h with ⟨h, _⟩ | ⟨h, _⟩ | ⟨h, _⟩ | ⟨_, h⟩
      · cases h
      · cases h
      · cases h
      · omega
    · intro p hp
      obtain ⟨_, _, _, h⟩ := mem_fillCircle r x0 y0 radius 1 c p hx0 hy0 hR hp
      rw [b11, b12, b13] at h
      rcases h with ⟨_, h⟩ | ⟨h, _⟩ | ⟨h, _⟩ | ⟨h, _⟩
      · omega
      · cases h
      · cases h
      · cases h
    · intro p hp
      obtain ⟨_, _, _, h⟩ := mem_fillCircle r x0 y0 radius 4 c p hx0 hy0 hR hp
      rw [b40, b41, b43] at h
      rcases h with ⟨h, _⟩ | ⟨h, _⟩ | ⟨_, h⟩ | ⟨h, _⟩
      · cases h
      · cases h
      · omega
      · cases h
    · intro i h1 h2 h3
      exact ⟨fillCircle_spill r x0 y0 radius 1 c hx0 hy0 h0 hR (Or.inl b10) i (by omega) h2 h3,
        fillCircle_spill r x0 y0 radius 4 c hx0 hy0 h0 hR (Or.inr b42) i (by omega) h2 h3⟩

/-- C21 (witness): on the 128 by 64 screen, `fillCircle(10, 10, 1, 1)` writes the pixel
(11, 10), to the right of the centre column 10. -/
theorem C21_fillCircle_quadrants_witness :
    (⟨11, 10, ⟨255, 255, 255, 255⟩⟩ : PixelWrite) ∈
      fillCircle (Begin zeroValue 0 0 128 64 50) 10 10 1 1 ⟨255, 255, 255, 255⟩ :=
  ((C21_fillCircle_quadrants (Begin zeroValue 0 0 128 64 50) 10 10 1 1
    ⟨255, 255, 255, 255⟩).2 ⟨by decide, by decide⟩ ⟨by decide, by decide⟩ (by decide)
    (by decide)).2.2.2.2 11 (by decide) (by decide) (by decide) |>.1
/-! ## The bounding box of the rounded rectangle -/

theorem maxRadius_bounds (radius w h m : Int) (hw : 2 < w) (hw2 : w ≤ 16383) (hh : 2 < h)
    (hh2 : h ≤ 16383)
    (hm : (if min3 radius (div16 w 2) (div16 h 2) < 1 then 0
      else min3 radius (div16 w 2) (div16 h 2)) = m) :
    0 ≤ m ∧ 2 * m ≤ w ∧ 2 * m ≤ h ∧
    (w % 2 = 0 → w ≤ 2 * radius → w ≤ h → 2 * m = w) ∧
    (2 * radius < w ∨ w % 2 = 1 ∨ h < w → 2 * m < w) := by
  have e1 : div16 w 2 = w / 2 := by
    unfold div16
    rw [tdiv_two, if_pos (by omega)]
    unfold wrap16; omega
  have e2 : div16 h 2 = h / 2 := by
    unfold div16
    rw [tdiv_two, if_pos (by omega)]
    unfold wrap16; omega
  rw [e1, e2] at hm
  unfold min3 at hm
  dsimp only at hm
  subst hm
  split_ifs <;> omega
theorem mem_fillRoundRect_box (r : RoboEyes) (x y w h radius m : Int) (c : RGBA)
    (p : PixelWrite) (hx : small16 x) (hy : small16 y) (hxw : small16 (x + w))
    (hyh : small16 (y + h)) (hw : 2 < w) (hw2 : w ≤ 16383) (hh : 2 < h) (hh2 : h ≤ 16383)
    (hm : (if min3 radius (div16 w 2) (div16 h 2) < 1 then 0
      else min3 radius (div16 w 2) (div16 h 2)) = m)
    (hp : p ∈ fillRoundRect r x y w h radius c) :
    x ≤ p.x ∧ (p.x < x + w ∨ p.x ≤ x + 2 * m) ∧ y ≤ p.y ∧ p.y < y + h ∧ p.c = c ∧
      p.x < r.screenWidth := by
  obtain ⟨m0, mw, mh, _, _⟩ := maxRadius_bounds radius w h m hw hw2 hh hh2 hm
  unfold small16 at hx hy hxw hyh
  have e1 : add16 x m = x + m := by unfold add16 wrap16; omega
  have e2 : add16 y m = y + m := by unfold add16 wrap16; omega
  have e3 : sub16 w (mul16 2 m) = w - 2 * m := by unfold sub16 mul16 wrap16; omega
  have e4 : sub16 h (mul16 2 m) = h - 2 * m := by unfold sub16 mul16 wrap16; omega
  have e5 : sub16 (add16 x w) m = x + w - m := by unfold sub16 add16 wrap16; omega
  have e6 : sub16 (sub16 (add16 x w) m) 1 = x + w - m - 1 := by
    unfold sub16 add16 wrap16; omega
  have e7 : sub16 (sub16 (add16 y h) m) 1 = y + h - m - 1 := by
    unfold sub16 add16 wrap16; omega
  unfold fillRoundRect at hp
  rw [if_neg (by omega)] at hp
  dsimp only at hp
  rw [hm, e1, e2, e3, e4, e6, e7, e5] at hp
  simp only [List.mem_append] at hp
  rcases hp with ((hp | hp) | hp) | hp
  · rw [mem_fillRect] at hp
    unfold add16 wrap16 at hp
    refine ⟨by omega, Or.inl (by omega), by omega, by omega, hp.2.2.2, hp.2.2.1.2.1⟩
  · rw [mem_fillRect] at hp
    unfold add16 wrap16 at hp
    refine ⟨by omega, Or.inl (by omega), by omega, by omega, hp.2.2.2, hp.2.2.1.2.1⟩
  · rw [mem_fillRect] at hp
    unfold add16 wrap16 at hp
    refine ⟨by omega, Or.inl (by omega), by omega, by omega, hp.2.2.2, hp.2.2.1.2.1⟩
  · by_cases hpos : m > 0
    · rw [if_pos hpos] at hp
      simp only [List.mem_append] at hp
      have hR : m ≤ 16383 := by omega
      rcases hp with ((hp | hp) | hp) | hp
      · obtain ⟨_, hc, hsw, hd⟩ := mem_fillCircle r _ _ m 1 c p ⟨by omega, by omega⟩
          ⟨by omega, by omega⟩ hR hp
        rw [show cornerBit 1 1 = false by decide, show cornerBit 1 2 = false by decide,
          show cornerBit 1 3 = false by decide] at hd
        rcases hd with ⟨_, hd⟩ | ⟨hd, _⟩ | ⟨hd, _⟩ | ⟨hd, _⟩
        · exact ⟨by omega, Or.inr (by omega), by omega, by omega, hc, hsw⟩
        · cases hd
        · cases hd
        · cases hd
      · obtain ⟨_, hc, hsw, hd⟩ := mem_fillCircle r _ _ m 2 c p ⟨by omega, by omega⟩
          ⟨by omega, by omega⟩ hR hp
        rw [show cornerBit 2 0 = false by decide, show cornerBit 2 2 = false by decide,
          show cornerBit 2 3 = false by decide] at hd
        rcases hd with ⟨hd, _⟩ | ⟨_, hd⟩ | ⟨hd, _⟩ | ⟨hd, _⟩
        · cases hd
        · exact ⟨by omega, Or.inl (by omega), by omega, by omega, hc, hsw⟩
        · cases hd
        · cases hd
      · obtain ⟨_, hc, hsw, hd⟩ := mem_fillCircle r _ _ m 4 c p ⟨by omega, by omega⟩
          ⟨by omega, by omega⟩ hR hp
        rw [show cornerBit 4 0 = false by decide, show cornerBit 4 1 = false by decide,
          show cornerBit 4 3 = false by decide] at hd
        rcases hd with ⟨hd, _⟩ | ⟨hd, _⟩ | ⟨_, hd⟩ | ⟨hd, _⟩
        · cases hd
        · cases hd
        · exact ⟨by omega, Or.inr (by omega), by omega, by omega, hc, hsw⟩
        · cases hd
      · obtain ⟨_, hc, hsw, hd⟩ := mem_fillCircle r _ _ m 8 c p ⟨by omega, by omega⟩
          ⟨by omega, by omega⟩ hR hp
        rw [show cornerBit 8 0 = false by decide, show cornerBit 8 1 = false by decide,
          show cornerBit 8 2 = false by decide] at hd
        rcases hd with ⟨hd, _⟩ | ⟨hd, _⟩ | ⟨hd, _⟩ | ⟨_, hd⟩
        · cases hd
        · cases hd
        · cases hd
        · exact ⟨by omega, Or.inl (by omega), by omega, by omega, hc, hsw⟩
    · rw [if_neg hpos] at hp
      cases hp
theorem fillRoundRect_spill (r : RoboEyes) (x y w h radius : Int) (c : RGBA)
    (hx : small16 x) (hy : small16 y) (hxw : small16 (x + w)) (hyh : small16 (y + h))
    (hw : 2 < w) (hw2 : w ≤ 16383) (hh : 2 < h) (hh2 : h ≤ 16383)
    (hev : w % 2 = 0) (hr : w ≤ 2 * radius) (hwh : w ≤ h) (hs : x + w < r.screenWidth) :
    (⟨x + w, y + w / 2, c⟩ : PixelWrite) ∈ fillRoundRect r x y w h radius c := by
  obtain ⟨m, hm⟩ : ∃ m, (if min3 radius (div16 w 2) (div16 h 2) < 1 then 0
      else min3 radius (div16 w 2) (div16 h 2)) = m := ⟨_, rfl⟩
  obtain ⟨m0, mw, mh, ms, _⟩ := maxRadius_bounds radius w h m hw hw2 hh hh2 hm
  have hmw : 2 * m = w := ms hev hr hwh
  unfold small16 at hx hy hxw hyh
  have e1 : add16 x m = x + m := by unfold add16 wrap16; omega
  have e2 : add16 y m = y + m := by unfold add16 wrap16; omega
  have e3 : w / 2 = m := by omega
  have e4 : x + w = x + m + m := by omega
  unfold fillRoundRect
  rw [if_neg (by omega)]
  dsimp only
  rw [hm, e1, e2, e3, e4, List.mem_append]
  right
  rw [if_pos (by omega)]
  simp only [List.mem_append]
  left; left; left
  exact fillCircle_spill r (x + m) (y + m) m 1 c ⟨by omega, by omega⟩ ⟨by omega, by omega⟩
    (by omega) (by omega) (Or.inl (by decide)) (x + m + m) (by omega) (le_refl _) (by omega)

theorem runFrames_cons_quiet (lerp : Int → Int → Int → Int) (i : Option Nat × Draws × Nat)
    (rest : List (Option Nat × Draws × Nat)) (r : RoboEyes) (hs : still r) (hq : quiet r)
    (hd : r.device ≠ none) :
    runFrames lerp (i :: rest) r = runFrames lerp rest (frameStep r) := by
  conv_lhs => unfold runFrames
  rw [DrawEyes_quietFrame lerp i.1 i.2.1 i.2.2 r hs hq hd]
  rfl

/-- C25 (divergence of the code): a rounded rectangle can leave its bounding box by one
column.  For a rectangle with `width > 2` and `height > 2` and no `int16` overflow, every pixel
written by `fillRoundRect` has `x <= p.x <= x + width` and `y <= p.y < y + height`.  It has
`p.x < x + width`, inside the box, when `2 * radius < width`, or the width is odd, or
`height < width`.  Otherwise, that is when the width is even, `width <= 2 * radius` and
`width <= height`, the pixel `(x + width, y + width / 2)` is written when it is on the screen:
the top-left quarter circle is drawn with spans that are `2*radius + 1` long. -/
theorem C25_fillRoundRect_bounding_box (r : RoboEyes) (x y width height radius : Int)
    (c : RGBA) (hx : small16 x) (hy : small16 y) (hxw : small16 (x + width))
    (hyh : small16 (y + height)) (hw : 2 < width) (hw2 : width ≤ 16383) (hh : 2 < height)
    (hh2 : height ≤ 16383) :
    (∀ p ∈ fillRoundRect r x y width height radius c,
      x ≤ p.x ∧ p.x ≤ x + width ∧ y ≤ p.y ∧ p.y < y + height) ∧
    (2 * radius < width ∨ width % 2 = 1 ∨ height < width →
      0 ≤ x → 0 ≤ y → y + height ≤ r.screenHeight →
      ∀ p ∈ fillRoundRect r x y width height radius c, p ∈ fillRect r x y width height c) ∧
    (width % 2 = 0 → width ≤ 2 * radius → width ≤ height → x + width < r.screenWidth →
      (⟨x + width, y + width / 2, c⟩ : PixelWrite) ∈
        fillRoundRect r x y width height radius c) := by
  obtain ⟨m, hm⟩ : ∃ m, (if min3 radius (div16 width 2) (div16 height 2) < 1 then 0
      else min3 radius (div16 width 2) (div16 height 2)) = m := ⟨_, rfl⟩
  obtain ⟨m0, mw, mh, _, mi⟩ := maxRadius_bounds radius width height m hw hw2 hh hh2 hm
  refine ⟨?_, ?_, ?_⟩
  · intro p hp
    obtain ⟨a1, a2, a3, a4, _, _⟩ := mem_fillRoundRect_box r x y width height radius m c p hx
      hy hxw hyh hw hw2 hh hh2 hm hp
    exact ⟨a1, by omega, a3, a4⟩
  · intro hc x0 y0 ysh p hp
    obtain ⟨a1, a2, a3, a4, a5, a6⟩ := mem_fillRoundRect_box r x y width height radius m c p
      hx hy hxw hyh hw hw2 hh hh2 hm hp
    have hlt := mi hc
    unfold small16 at hx hy hxw hyh
    rw [mem_fillRect]
    unfold add16 wrap16
    exact ⟨⟨a1, by omega⟩, ⟨a3, by omega⟩, ⟨by omega, a6, by omega, by omega⟩, a5⟩
  · intro hev hr hwh hs
    exact fillRoundRect_spill r x y width height radius c hx hy hxw hyh hw hw2 hh hh2 hev hr
      hwh hs
/-- C25 (witness): after `Begin(device, 128, 64, 50)`, `SetSize(30, 30)` and
`SetBorderRadius(20, 20)`, the third frame draws the left eye at `x = 28` with the width 30,
the height 31 and the radius 18, and writes the pixel (58, 32), one column to the right of the
eye. -/
theorem C25_fillRoundRect_bounding_box_witness :
    ∃ (s : RoboEyes) (out : RoboEyes × List DeviceCall),
      runFrames (fun _ _ _ => 0) [(none, ⟨0, 0, 0, 0⟩, 0), (none, ⟨0, 0, 0, 0⟩, 20)]
        (SetBorderRadius (SetSize (Begin zeroValue 0 0 128 64 50) 30 30) 20 20) =
          Except.ok s ∧
      DrawEyes (fun _ _ _ => 0) none ⟨0, 0, 0, 0⟩ 40 s = Except.ok out ∧
      out.1.eyeLx = 28 ∧ out.1.eyeLwidthCurrent = 30 ∧
      DeviceCall.setPixel ⟨58, 32, ⟨255, 255, 255, 255⟩⟩ ∈ out.2 := by
  have h := (C25_fillRoundRect_bounding_box (handleAnimationsCyclops (calculateGeometry
      (frameStep (frameStep (SetBorderRadius (SetSize (Begin zeroValue 0 0 128 64 50) 30 30)
        20 20))))) 28 17 30 31 18
    ⟨255, 255, 255, 255⟩ ⟨by decide, by decide⟩ ⟨by decide, by decide⟩
    ⟨by decide, by decide⟩ ⟨by decide, by decide⟩ (by decide) (by decide) (by decide)
    (by decide)).2.2 (by decide) (by decide) (by decide) (by decide)
  have s0 : still (SetBorderRadius (SetSize (Begin zeroValue 0 0 128 64 50) 30 30) 20 20) :=
    ⟨rfl, rfl, rfl, rfl, rfl, rfl⟩
  have q0 : quiet (SetBorderRadius (SetSize (Begin zeroValue 0 0 128 64 50) 30 30) 20 20) :=
    ⟨rfl, rfl, rfl, rfl, rfl, rfl⟩
  have s1 : still (frameStep
      (SetBorderRadius (SetSize (Begin zeroValue 0 0 128 64 50) 30 30) 20 20)) :=
    ⟨rfl, rfl, rfl, rfl, rfl, rfl⟩
  have q1 : quiet (frameStep
      (SetBorderRadius (SetSize (Begin zeroValue 0 0 128 64 50) 30 30) 20 20)) :=
    ⟨rfl, rfl, rfl, rfl, rfl, rfl⟩
  have s2 : still (frameStep (frameStep
      (SetBorderRadius (SetSize (Begin zeroValue 0 0 128 64 50) 30 30) 20 20))) :=
    ⟨rfl, rfl, rfl, rfl, rfl, rfl⟩
  have q2 : quiet (frameStep (frameStep
      (SetBorderRadius (SetSize (Begin zeroValue 0 0 128 64 50) 30 30) 20 20))) :=
    ⟨rfl, rfl, rfl, rfl, rfl, rfl⟩
  refine ⟨_, _, ?_, DrawEyes_quietFrame _ none ⟨0, 0, 0, 0⟩ 40 _ s2 q2 (by decide),
    ?_, ?_, ?_⟩
  · rw [runFrames_cons_quiet _ _ _ _ s0 q0 (by decide),
      runFrames_cons_quiet _ _ _ _ s1 q1 (by decide)]
    rfl
  · decide
  · decide
  · unfold quietFrame
    refine List.mem_cons_of_mem _ (List.mem_append_left _ (List.mem_map_of_mem _
      (List.mem_append_left _ ?_)))
    unfold drawEyeShapes
    exact List.mem_append_left _ h

end Roboeyestinygo
